import Mathlib

/-!
# Portfolio snapshot synchronisation of the crypto dashboard

A shallow embedding of the snapshot logic of the React front end:

* `Home.fetchData` (frontend/src/components/Home.js, lines 99-269),
* `Analysis.fetchPortfolioData` (frontend/src/components/Analysis.js, lines 39-148),
* the session handlers of `App.js` (lines 23-60), `Layout.js` (lines 130-142)
  and `Login.js` (lines 112-156),
* the request layer `services/api.js` (the user id of a request, lines 10-12
  and the methods of `ApiService`; `request`, lines 20-47),
* the `days` argument of `PerformanceAnalytics.fetchAnalytics` (lines 72-76),
* `exportTransactionsToCSV` (frontend/src/utils/exportUtils.js, lines 8-61),
* `AddTransactionModal.handleSubmit` (lines 75-136).

JavaScript values are an inductive type.  React state is passed explicitly: a
`useState` variable read inside the async function is the value captured by
the function value that is called, a `useRef` cell is read live.  For
`Home.fetchData` the captured summary is an argument of its own: a handler
calls the function of the current render, which captured the summary on
display, while the mount effect and the `visibilitychange` listener call the
function of the first render, which captured `null`.
`Analysis.fetchPortfolioData` is only called by the mount effect, when the
captured state is the displayed one.  `sessionStorage` is a record
with one optional string per key the application uses.  The built-ins
`JSON.parse`, `JSON.stringify` and the numeric coercion of a string, array or
object operand of `>` are parameters (`Platform`), so a theorem holds for
whatever these built-ins compute unless it states a hypothesis on them.  The
conversion of a value that is not a string to text, the date formatter,
`parseFloat` and the floating-point product are parameters of the functions
that use them; `parseInt` is written out.  One run of a fetch function is one
step: the interleaving of two runs that overlap at their `await` is not
modelled.
-/

namespace CryptoTracker

/-! ## JavaScript values -/

/-- A JavaScript number: NaN, a finite value, or one of the two infinities
(`JSON.parse` reads an out-of-range literal such as `1e999` as `Infinity`).  A
finite value is a rational: the rounding of floating-point arithmetic is not
modelled, and no theorem below depends on it.  Negative zero is identified
with zero (the operators used here, `===` and `>`, do not tell them apart). -/
inductive JSNum where
  | nan
  | fin (q : ℚ)
  | posInf
  | negInf
  deriving DecidableEq

namespace JSNum

/-- The comparison `n > 0`. -/
def gtZero : JSNum → Bool
  | fin q => decide (0 < q)
  | posInf => true
  | negInf => false
  | nan => false

/-- The comparison `n === 0`. -/
def isZero : JSNum → Bool
  | fin q => decide (q = 0)
  | _ => false

/-- The test `isNaN(n)` on a number. -/
def isNaN : JSNum → Bool
  | nan => true
  | _ => false

end JSNum

/-- A JavaScript value as produced by `JSON.parse` or held in React state.
An object is the list of its own properties, in insertion order. -/
inductive JSVal where
  | undefined
  | null
  | bool (b : Bool)
  | num (n : JSNum)
  | str (s : String)
  | arr (items : List JSVal)
  | obj (fields : List (String × JSVal))

namespace JSVal

instance : Inhabited JSVal := ⟨undefined⟩

/-- JavaScript truthiness (`if (v)`, `v && ...`, `!v`). -/
def truthy : JSVal → Bool
  | undefined => false
  | null => false
  | bool b => b
  | num n => !(n.isZero || n.isNaN)
  | str s => decide (s ≠ "")
  | arr _ => true
  | obj _ => true

/-- The values on which a property read throws a TypeError. -/
def isNullish : JSVal → Bool
  | undefined => true
  | null => true
  | _ => false

/-- The read of an own property of an object. -/
def getField : List (String × JSVal) → String → JSVal
  | [], _ => undefined
  | (k, v) :: rest, key => if k = key then v else getField rest key

/-- The property read `v.key`, for the property names the application reads
(`summary`, `holdings`, `total_equity`, `length`; none is an array index).
Arrays and strings have a `length` (that of a string is only ever compared
with 0, so its unit does not matter); every other read of a primitive gives
`undefined`.  On `null` and `undefined` the read throws in JavaScript: the
callers below test `isNullish` (or truthiness) before they read. -/
def getProp : JSVal → String → JSVal
  | obj fields, key => getField fields key
  | arr items, key => if key = "length" then num (JSNum.fin items.length) else undefined
  | str s, key => if key = "length" then num (JSNum.fin s.length) else undefined
  | _, _ => undefined

/-- The write of one property of an object literal under construction: an
existing property keeps its place, a new one goes last. -/
def setField : List (String × JSVal) → String → JSVal → List (String × JSVal)
  | [], key, v => [(key, v)]
  | (k, w) :: rest, key, v => if k = key then (k, v) :: rest else (k, w) :: setField rest key v

/-- The own enumerable properties copied by the spread `{...v}`: those of an
object, the elements of an array and the characters of a string under their
indices, nothing for the other primitives, `null` and `undefined`. -/
def spread : JSVal → List (String × JSVal)
  | obj fields => fields
  | arr items => items.enum.map (fun p => (toString p.1, p.2))
  | str s => s.toList.enum.map (fun p => (toString p.1, str (String.singleton p.2)))
  | _ => []

/-- The test `typeof v === 'number'`. -/
def typeofNumber : JSVal → Bool
  | num _ => true
  | _ => false

/-- The test `!isNaN(v)` where `v` has passed `typeof v === 'number'`. -/
def notNaN : JSVal → Bool
  | num n => !n.isNaN
  | _ => false

/-- The test `v === 0`. -/
def strictEqZero : JSVal → Bool
  | num n => n.isZero
  | _ => false

/-- The test `Array.isArray(v)`. -/
def isArray : JSVal → Bool
  | arr _ => true
  | _ => false

end JSVal

open JSVal

/-- The built-ins the snapshot code calls.  `parse` is `JSON.parse` (`none`
when it throws a SyntaxError), `stringify` is `JSON.stringify` on the objects
and lists the code serialises, `coercedGtZero v` is the outcome of `v > 0` for
a string, array or object `v`, which JavaScript first coerces to a number. -/
structure Platform where
  parse : String → Option JSVal
  stringify : JSVal → String
  coercedGtZero : JSVal → Bool

/-- The comparison `v > 0` with its coercion of the left operand. -/
def jsGtZero (P : Platform) : JSVal → Bool
  | .num n => n.gtZero
  | .undefined => false
  | .null => false
  | .bool b => b
  | v => P.coercedGtZero v

/-- The truthiness of the result of `sessionStorage.getItem`: `null` and the
empty string are falsy. -/
def itemTruthy : Option String → Bool
  | some s => decide (s ≠ "")
  | none => false

/-- The `JSON.parse` of a stored item that has passed the truthiness test. -/
def parseItem (P : Platform) : Option String → Option JSVal
  | some s => P.parse s
  | none => none

/-! ## Session storage -/

/-- The two `sessionStorage` entries of the application. -/
structure SessionStorage where
  portfolioSummary : Option String
  portfolioHoldings : Option String
  deriving DecidableEq

/-- A mutation of `sessionStorage`, as recorded in the trace of a run. -/
inductive StorageOp where
  | setItem (key value : String)
  | removeItem (key : String)
  deriving DecidableEq

/-- Whether a call completed or threw. -/
inductive Completion where
  | normal
  | thrown
  deriving DecidableEq

/-- The join `Promise.all([a, b])`: it rejects as soon as one call rejects. -/
def promiseAll : Option JSVal → Option JSVal → Option (JSVal × JSVal)
  | some a, some b => some (a, b)
  | _, _ => none

/-! ## Home.js -/

namespace Home

/-- The React state and refs of the Home component that `fetchData` touches
(Home.js 52-56). -/
structure State where
  transactions : JSVal
  portfolioSummary : JSVal
  loading : Bool
  isInitialLoadRef : Bool
  hasDataRef : Bool

/-- The state of a freshly mounted Home component. -/
def State.initial : State :=
  { transactions := arr [], portfolioSummary := null, loading := true,
    isInitialLoadRef := true, hasDataRef := false }

/-- What a run of `fetchData` reads and changes: the component, the session
storage, and the trace of storage mutations the run performed. -/
structure World where
  state : State
  session : SessionStorage
  trace : List StorageOp

def setPortfolioSummary (v : JSVal) (w : World) : World :=
  { w with state := { w.state with portfolioSummary := v } }

def setTransactions (v : JSVal) (w : World) : World :=
  { w with state := { w.state with transactions := v } }

def setLoading (b : Bool) (w : World) : World :=
  { w with state := { w.state with loading := b } }

def setIsInitialLoadRef (b : Bool) (w : World) : World :=
  { w with state := { w.state with isInitialLoadRef := b } }

def setHasDataRef (b : Bool) (w : World) : World :=
  { w with state := { w.state with hasDataRef := b } }

/-- The call `sessionStorage.setItem('portfolioSummary', value)`. -/
def setItemSummary (value : String) (w : World) : World :=
  { w with
    session := { w.session with portfolioSummary := some value }
    trace := w.trace ++ [StorageOp.setItem "portfolioSummary" value] }

/-- The block `try { parsed = JSON.parse(cachedSummary); if (parsed && typeof
parsed.total_equity === 'number') { setPortfolioSummary(parsed);
hasDataRef.current = true } } catch {}` of Home.js 106-114, repeated at
175-183, 230-237 and 257-265. -/
def adoptCached (P : Platform) (cachedSummary : Option String) (w : World) : World :=
  match parseItem P cachedSummary with
  | some parsed =>
    if truthy parsed && typeofNumber (getProp parsed "total_equity") then
      setHasDataRef true (setPortfolioSummary parsed w)
    else w
  | none => w

/-- The block of Home.js 138-150 (again at 191-204): the result is the flag
`useCached` and the world after it. -/
def adoptPositiveCached (P : Platform) (cachedSummary : Option String) (w : World) :
    Bool × World :=
  if itemTruthy cachedSummary then
    match parseItem P cachedSummary with
    | some parsed =>
      if truthy parsed && typeofNumber (getProp parsed "total_equity")
          && jsGtZero P (getProp parsed "total_equity") then
        (true, setHasDataRef true (setPortfolioSummary parsed w))
      else (false, w)
    | none => (false, w)
  else (false, w)

/-- Home.js 131-185: the response has a truthy `summary` property. -/
def withSummary (P : Platform) (portfolioSummary : JSVal) (cachedSummary : Option String)
    (summary : JSVal) (w : World) : World :=
  if typeofNumber (getProp summary "total_equity") && notNaN (getProp summary "total_equity") then
    if strictEqZero (getProp summary "total_equity") then
      let r := adoptPositiveCached P cachedSummary w
      if !r.1 && truthy portfolioSummary
          && jsGtZero P (getProp portfolioSummary "total_equity") then
        setHasDataRef true r.2
      else if !r.1 then
        setPortfolioSummary summary r.2
      else r.2
    else
      let w1 := setPortfolioSummary summary w
      let w2 :=
        if jsGtZero P (getProp summary "total_equity") then
          setItemSummary (P.stringify summary) w1
        else w1
      setHasDataRef true w2
  else
    if !w.state.hasDataRef && itemTruthy cachedSummary then adoptCached P cachedSummary w
    else w

/-- Home.js 187-225: the response is itself the summary object. -/
def bareSummary (P : Platform) (portfolioSummary : JSVal) (cachedSummary : Option String)
    (portfolioData : JSVal) (w : World) : World :=
  if strictEqZero (getProp portfolioData "total_equity") then
    let r := adoptPositiveCached P cachedSummary w
    if !r.1 && truthy portfolioSummary
        && jsGtZero P (getProp portfolioSummary "total_equity") then
      setHasDataRef true r.2
    else if !r.1 then
      setHasDataRef true (setPortfolioSummary portfolioData r.2)
    else r.2
  else
    let w1 := setPortfolioSummary portfolioData w
    let w2 :=
      if jsGtZero P (getProp portfolioData "total_equity") then
        setItemSummary (P.stringify portfolioData) w1
      else w1
    setHasDataRef true w2

/-- Home.js 101-120, the statements before the `await`: the restore from the
cache for the first paint, and the spinner. -/
def firstPaint (P : Platform) (showLoading : Bool) (portfolioSummary : JSVal) (w : World) :
    World :=
  let isInitialLoad := w.state.isInitialLoadRef
  let cachedSummary := w.session.portfolioSummary
  let w1 :=
    if itemTruthy cachedSummary && !truthy portfolioSummary then adoptCached P cachedSummary w
    else w
  if showLoading || isInitialLoad then setLoading true w1 else w1

/-- Home.js 129-239: the arbitration between the response, the cache and the
state in memory.  `cachedSummary` is the constant read at line 104. -/
def resolve (P : Platform) (portfolioSummary : JSVal) (cachedSummary : Option String)
    (portfolioData : JSVal) (w : World) : World :=
  if truthy portfolioData && truthy (getProp portfolioData "summary") then
    withSummary P portfolioSummary cachedSummary (getProp portfolioData "summary") w
  else if truthy portfolioData && typeofNumber (getProp portfolioData "total_equity")
      && notNaN (getProp portfolioData "total_equity") then
    bareSummary P portfolioSummary cachedSummary portfolioData w
  else if !w.state.hasDataRef && itemTruthy cachedSummary then
    adoptCached P cachedSummary w
  else w

/-- Home.js 127-241, the statements after the `await`. -/
def afterResponse (P : Platform) (portfolioSummary : JSVal) (cachedSummary : Option String)
    (transactionsData portfolioData : JSVal) (w : World) : World :=
  let w3 := setTransactions (if isArray transactionsData then transactionsData else arr []) w
  let w4 := resolve P portfolioSummary cachedSummary portfolioData w3
  setIsInitialLoadRef false (setLoading false w4)

/-- Home.js 100-241: the body of the `try`.  `portfolioSummary` is the state
variable as the closure captured it; `hasDataRef.current` is read from the
world.  The only statement that can throw is the `await Promise.all`. -/
def tryBlock (P : Platform) (showLoading : Bool) (responses : Option (JSVal × JSVal))
    (portfolioSummary : JSVal) (w : World) : Completion × World :=
  let cachedSummary := w.session.portfolioSummary
  let w2 := firstPaint P showLoading portfolioSummary w
  match responses with
  | none => (Completion.thrown, w2)
  | some (transactionsData, portfolioData) =>
    (Completion.normal,
      afterResponse P portfolioSummary cachedSummary transactionsData portfolioData w2)

/-- Home.js 242-268: the `catch` (the toast is not part of the model). -/
def catchBlock (P : Platform) (w : World) : World :=
  let w1 := setIsInitialLoadRef false (setLoading false w)
  if !w1.state.hasDataRef then
    let cachedSummary := w1.session.portfolioSummary
    if itemTruthy cachedSummary then adoptCached P cachedSummary w1 else w1
  else w1

/-- Home.js 99-269, `fetchData(showLoading)`.  `transactionsResult` and
`portfolioResult` are what `api.getTransactions()` and `api.getPortfolio()`
settle to (`none` for a rejection).  `portfolioSummary` is the state variable
as the function value that is called captured it: a handler of the current
render (Home.js 293-310, 640) calls the function of that render, which holds
the summary on display; the mount effect (272-277) and the `visibilitychange`
listener (280-291) call the function of the render in which the effect ran,
the first one, which holds `null`. -/
def fetchData (P : Platform) (showLoading : Bool) (transactionsResult portfolioResult : Option JSVal)
    (portfolioSummary : JSVal) (w : World) : Completion × World :=
  match tryBlock P showLoading (promiseAll transactionsResult portfolioResult)
      portfolioSummary w with
  | (Completion.normal, w1) => (Completion.normal, w1)
  | (Completion.thrown, w1) => (Completion.normal, catchBlock P w1)

/-- The summary object `fetchData` reads out of a response: its `summary`
property when there is one, else the response itself (Home.js 130 and 186). -/
def freshSummary (portfolioData : JSVal) : JSVal :=
  if truthy portfolioData && truthy (getProp portfolioData "summary") then
    getProp portfolioData "summary"
  else portfolioData

end Home

/-! ## Analysis.js -/

namespace Analysis

/-- The React state of the Analysis component that `fetchPortfolioData`
touches (Analysis.js 26-27). -/
structure State where
  portfolioData : JSVal
  loading : Bool

/-- The state of a freshly mounted Analysis component. -/
def State.initial : State :=
  { portfolioData := null, loading := true }

/-- What a run of `fetchPortfolioData` reads and changes. -/
structure World where
  state : State
  session : SessionStorage
  trace : List StorageOp

def setPortfolioData (v : JSVal) (w : World) : World :=
  { w with state := { w.state with portfolioData := v } }

def setLoading (b : Bool) (w : World) : World :=
  { w with state := { w.state with loading := b } }

/-- The call `sessionStorage.setItem('portfolioSummary', value)`. -/
def setItemSummary (value : String) (w : World) : World :=
  { w with
    session := { w.session with portfolioSummary := some value }
    trace := w.trace ++ [StorageOp.setItem "portfolioSummary" value] }

/-- The call `sessionStorage.setItem('portfolioHoldings', value)`. -/
def setItemHoldings (value : String) (w : World) : World :=
  { w with
    session := { w.session with portfolioHoldings := some value }
    trace := w.trace ++ [StorageOp.setItem "portfolioHoldings" value] }

/-- The test of Analysis.js 45-47 (again at 75-77 and 133-135): the parsed
cached summary when `JSON.parse` succeeds and `parsed && typeof
parsed.total_equity === 'number' && parsed.total_equity > 0` holds. -/
def cachedPositive (P : Platform) (cachedSummary : Option String) : Option JSVal :=
  match parseItem P cachedSummary with
  | some parsed =>
    if truthy parsed && typeofNumber (getProp parsed "total_equity")
        && jsGtZero P (getProp parsed "total_equity") then
      some parsed
    else none
  | none => none

/-- Analysis.js 49-56: the cached holdings, `[]` when absent or unparseable. -/
def restoredHoldings (P : Platform) (cachedHoldings : Option String) : JSVal :=
  if itemTruthy cachedHoldings then
    match parseItem P cachedHoldings with
    | some holdings => holdings
    | none => arr []
  else arr []

/-- Analysis.js 44-65: the restore for the first paint. -/
def restore (P : Platform) (cachedSummary cachedHoldings : Option String) (w : World) : World :=
  match cachedPositive P cachedSummary with
  | some parsed =>
    setPortfolioData
      (obj [("summary", parsed), ("holdings", restoredHoldings P cachedHoldings)]) w
  | none => w

/-- The expression `data.holdings && data.holdings.length > 0` of Analysis.js
82 and 97. -/
def hasHoldings (P : Platform) (data : JSVal) : Bool :=
  truthy (getProp data "holdings") && jsGtZero P (getProp (getProp data "holdings") "length")

/-- The expression `portfolioData?.holdings || []` of Analysis.js 82. -/
def previousHoldings (portfolioData : JSVal) : JSVal :=
  let h := if isNullish portfolioData then undefined else getProp portfolioData "holdings"
  if truthy h then h else arr []

/-- Analysis.js 72-102: the response reports `total_equity === 0`.  The result
is `some` when the function returns from inside this block. -/
def suspectBranch (P : Platform) (portfolioData : JSVal) (cachedSummary : Option String)
    (data : JSVal) (w : World) : Option World :=
  if truthy data && truthy (getProp data "summary")
      && strictEqZero (getProp (getProp data "summary") "total_equity") then
    match (if itemTruthy cachedSummary then cachedPositive P cachedSummary else none) with
    | some parsed =>
      some (setLoading false (setPortfolioData
        (obj (setField (setField (spread data) "summary" parsed) "holdings"
          (if hasHoldings P data then getProp data "holdings"
           else previousHoldings portfolioData))) w))
    | none =>
      if truthy portfolioData && truthy (getProp portfolioData "summary")
          && jsGtZero P (getProp (getProp portfolioData "summary") "total_equity") then
        some (setLoading false (setPortfolioData
          (obj (setField (spread portfolioData) "holdings"
            (if hasHoldings P data then getProp data "holdings"
             else getProp portfolioData "holdings"))) w))
      else none
  else none

/-- Analysis.js 104-120: the normal case.  The read `data.holdings` throws
when `data` is `null`. -/
def normalCase (P : Platform) (data : JSVal) (w : World) : Completion × World :=
  if isNullish data then (Completion.thrown, w)
  else
    let holdings := if truthy (getProp data "holdings") then getProp data "holdings" else arr []
    let w1 := setPortfolioData (obj (setField (spread data) "holdings" holdings)) w
    let w2 :=
      if truthy data && truthy (getProp data "summary")
          && typeofNumber (getProp (getProp data "summary") "total_equity")
          && jsGtZero P (getProp (getProp data "summary") "total_equity") then
        let w3 := setItemSummary (P.stringify (getProp data "summary")) w1
        if jsGtZero P (getProp holdings "length") then
          setItemHoldings (P.stringify holdings) w3
        else w3
      else w1
    (Completion.normal, setLoading false w2)

/-- Analysis.js 42-67, the statements before the `await`: the restore from the
cache for the first paint, and the spinner. -/
def firstPaint (P : Platform) (portfolioData : JSVal) (w : World) : World :=
  let cachedSummary := w.session.portfolioSummary
  let cachedHoldings := w.session.portfolioHoldings
  let w1 :=
    if itemTruthy cachedSummary && !truthy portfolioData then
      restore P cachedSummary cachedHoldings w
    else w
  setLoading true w1

/-- Analysis.js 40-120: the body of the `try`.  `portfolioData` is the state
variable as the closure captured it, `cachedSummary` the constant read at
line 42. -/
def tryBlock (P : Platform) (response : Option JSVal) (portfolioData : JSVal) (w : World) :
    Completion × World :=
  let cachedSummary := w.session.portfolioSummary
  let w2 := firstPaint P portfolioData w
  match response with
  | none => (Completion.thrown, w2)
  | some data =>
    match suspectBranch P portfolioData cachedSummary data w2 with
    | some w3 => (Completion.normal, w3)
    | none => normalCase P data w2

/-- Analysis.js 121-147: the `catch` (the toast is not part of the model). -/
def catchBlock (P : Platform) (portfolioData : JSVal) (w : World) : World :=
  let cachedSummary := w.session.portfolioSummary
  let w1 :=
    if itemTruthy cachedSummary && !truthy portfolioData then
      match cachedPositive P cachedSummary with
      | some parsed => setPortfolioData (obj [("summary", parsed), ("holdings", arr [])]) w
      | none => w
    else w
  setLoading false w1

/-- Analysis.js 39-148, `fetchPortfolioData()`.  `response` is what
`api.getPortfolio()` settles to (`none` for a rejection). -/
def fetchPortfolioData (P : Platform) (response : Option JSVal) (w : World) :
    Completion × World :=
  match tryBlock P response w.state.portfolioData w with
  | (Completion.normal, w1) => (Completion.normal, w1)
  | (Completion.thrown, w1) => (Completion.normal, catchBlock P w.state.portfolioData w1)

end Analysis

/-! ## App.js, Login.js and Layout.js: the session handlers -/

/-- The four `localStorage` entries of the application. -/
structure LocalStorage where
  authToken : Option String
  userEmail : Option String
  userId : Option String
  authProvider : Option String
  deriving DecidableEq

/-- The fields of a Supabase session that the application reads:
`session.access_token`, `session.user.email` and `session.user.id`. -/
structure AuthSession where
  access_token : String
  email : String
  id : String
  deriving DecidableEq

/-- The two browser stores. -/
structure Storage where
  sessionStorage : SessionStorage
  localStorage : LocalStorage
  deriving DecidableEq

/-- The two calls `sessionStorage.removeItem('portfolioSummary')` and
`sessionStorage.removeItem('portfolioHoldings')`. -/
def removeSnapshot (s : SessionStorage) : SessionStorage :=
  { { s with portfolioSummary := none } with portfolioHoldings := none }

namespace App

/-- App.js 38-60: the callback given to `supabase.auth.onAuthStateChange`. -/
def onAuthStateChange (event : String) (session : Option AuthSession) (st : Storage) : Storage :=
  match session with
  | some sess =>
    let ss :=
      if event = "SIGNED_IN" || event = "SIGNED_UP" then removeSnapshot st.sessionStorage
      else st.sessionStorage
    { sessionStorage := ss
      localStorage :=
        { st.localStorage with
          authToken := some sess.access_token
          userEmail := some sess.email
          userId := some sess.id } }
  | none =>
    { sessionStorage := removeSnapshot st.sessionStorage
      localStorage :=
        { authToken := none, userEmail := none, userId := none, authProvider := none } }

/-- App.js 23-33, the session sync of `ProtectedRoute` on mount (the same
three writes again in `App`, lines 81-87): the continuation of
`supabase.auth.getSession()`. -/
def syncSession (session : Option AuthSession) (st : Storage) : Storage :=
  match session with
  | some sess =>
    { st with
      localStorage :=
        { st.localStorage with
          authToken := some sess.access_token
          userEmail := some sess.email
          userId := some sess.id } }
  | none => st

end App

namespace Login

/-- The JavaScript `s.length`: the number of UTF-16 code units. -/
def jsLength (s : String) : Nat :=
  (s.toList.map (fun c => if c.val.toNat < 65536 then 1 else 2)).sum

/-- Login.js 68-82, `validate()`: whether no error was recorded.  `emailShape`
is the test of the regular expression of line 72. -/
def validate (emailShape : String → Bool) (email password : String) : Bool :=
  let emailError := if email = "" then true else !emailShape email
  let passwordError := if password = "" then true else decide (jsLength password < 6)
  !emailError && !passwordError

/-- What `supabase.auth.signInWithPassword` settles to: a failure (a rejection,
an `error`, or a user without a session, each of which ends in the `catch`), no
user, or a user with their session. -/
inductive SignIn where
  | failed
  | noUser
  | signedIn (session : AuthSession)

/-- Login.js 112-156, `handleSubmit`: its effect on the browser stores. -/
def handleSubmit (emailShape : String → Bool) (email password : String) (result : SignIn)
    (st : Storage) : Storage :=
  if !validate emailShape email password then st
  else
    match result with
    | SignIn.signedIn sess =>
      { st with
        localStorage :=
          { authToken := some sess.access_token
            userEmail := some sess.email
            userId := some sess.id
            authProvider := some "email" } }
    | _ => st

end Login

namespace Layout

/-- Layout.js 130-142: the click handler of the Logout button, after
`supabase.auth.signOut()` has settled. -/
def logout (st : Storage) : Storage :=
  { sessionStorage := removeSnapshot st.sessionStorage
    localStorage :=
      { authToken := none, userEmail := none, userId := none, authProvider := none } }

end Layout

/-! ## A browser tab: the components and the stores together -/

/-- One browser tab: its two stores and the two screens. -/
structure Tab where
  storage : Storage
  home : Home.State
  analysis : Analysis.State

/-- What can happen in a tab, with what the backend or the identity provider
answers.  `homeFetch` is a call of `fetchData` from the mount effect or from a
handler of the current render, `homeVisible` the call of the
`visibilitychange` listener (Home.js 280-291), whose `fetchData` is the one of
the first render. -/
inductive Event where
  | homeFetch (showLoading : Bool) (transactionsResult portfolioResult : Option JSVal)
  | homeVisible (transactionsResult portfolioResult : Option JSVal)
  | analysisFetch (response : Option JSVal)
  | homeMount
  | analysisMount
  | authStateChange (event : String) (session : Option AuthSession)
  | sessionSync (session : Option AuthSession)
  | loginSubmit (emailShape : String → Bool) (email password : String) (result : Login.SignIn)
  | logout

/-- The effect of one event on the tab. -/
def step (P : Platform) (t : Tab) : Event → Tab
  | Event.homeFetch showLoading transactionsResult portfolioResult =>
    let r := Home.fetchData P showLoading transactionsResult portfolioResult
      t.home.portfolioSummary
      { state := t.home, session := t.storage.sessionStorage, trace := [] }
    { t with
      home := r.2.state
      storage := { t.storage with sessionStorage := r.2.session } }
  | Event.homeVisible transactionsResult portfolioResult =>
    let r := Home.fetchData P false transactionsResult portfolioResult null
      { state := t.home, session := t.storage.sessionStorage, trace := [] }
    { t with
      home := r.2.state
      storage := { t.storage with sessionStorage := r.2.session } }
  | Event.analysisFetch response =>
    let r := Analysis.fetchPortfolioData P response
      { state := t.analysis, session := t.storage.sessionStorage, trace := [] }
    { t with
      analysis := r.2.state
      storage := { t.storage with sessionStorage := r.2.session } }
  | Event.homeMount => { t with home := Home.State.initial }
  | Event.analysisMount => { t with analysis := Analysis.State.initial }
  | Event.authStateChange event session =>
    { t with storage := App.onAuthStateChange event session t.storage }
  | Event.sessionSync session => { t with storage := App.syncSession session t.storage }
  | Event.loginSubmit emailShape email password result =>
    { t with storage := Login.handleSubmit emailShape email password result t.storage }
  | Event.logout => { t with storage := Layout.logout t.storage }

/-- The effect of a sequence of events. -/
def run (P : Platform) (t : Tab) (events : List Event) : Tab :=
  events.foldl (step P) t

/-! ## services/api.js -/

namespace ApiService

/-- api.js 10-12, `getUserId()`: `localStorage.getItem('userId') || 'default'`. -/
def getUserId (ls : LocalStorage) : String :=
  match ls.userId with
  | some s => if s ≠ "" then s else "default"
  | none => "default"

/-- The expression `userId || getUserId()` that opens every method with a
`userId` parameter (api.js 51, 67, 75, 83, 89, 110, 115, 120).  The argument
is `null` (its default, `none` here) or a string. -/
def uid (userId : Option String) (ls : LocalStorage) : String :=
  match userId with
  | some s => if s ≠ "" then s else getUserId ls
  | none => getUserId ls

/-- The two arguments a method hands to `this.request`: the endpoint, and the
`method` and `body` of the options (absent for a plain GET). -/
structure Request where
  endpoint : String
  method : Option String
  body : Option JSVal

/-- api.js 50-53. -/
def getTransactions (userId : Option String) (limit : Nat) (ls : LocalStorage) : Request :=
  { endpoint := "/transactions?userId=" ++ uid userId ls ++ "&limit=" ++ toString limit
    method := none, body := none }

/-- api.js 66-72. -/
def updateTransaction (transactionId : String) (transaction : JSVal) (userId : Option String)
    (ls : LocalStorage) : Request :=
  { endpoint := "/transactions/" ++ transactionId ++ "?userId=" ++ uid userId ls
    method := some "PUT", body := some transaction }

/-- api.js 74-79. -/
def deleteTransaction (transactionId : String) (userId : Option String) (ls : LocalStorage) :
    Request :=
  { endpoint := "/transactions/" ++ transactionId ++ "?userId=" ++ uid userId ls
    method := some "DELETE", body := none }

/-- api.js 82-85. -/
def getPortfolio (userId : Option String) (ls : LocalStorage) : Request :=
  { endpoint := "/portfolio?userId=" ++ uid userId ls, method := none, body := none }

/-- api.js 88-101. -/
def importBrokerTransactions (broker credentials : JSVal) (userId : Option String)
    (startDate endDate useMockData : JSVal) (ls : LocalStorage) : Request :=
  { endpoint := "/broker/import"
    method := some "POST"
    body := some (obj [("broker", broker), ("credentials", credentials),
      ("userId", str (uid userId ls)), ("start_date", startDate), ("end_date", endDate),
      ("use_mock_data", useMockData)]) }

/-- api.js 109-112. -/
def getPerformance (userId : Option String) (period : String) (ls : LocalStorage) : Request :=
  { endpoint := "/analytics/performance?userId=" ++ uid userId ls ++ "&period=" ++ period
    method := none, body := none }

/-- api.js 114-117. -/
def getPerformers (userId : Option String) (limit : Nat) (ls : LocalStorage) : Request :=
  { endpoint := "/analytics/performers?userId=" ++ uid userId ls ++ "&limit=" ++ toString limit
    method := none, body := none }

/-- api.js 119-122.  The number of days is an integer (see
`PerformanceAnalytics.historyDays`). -/
def getPortfolioHistory (userId : Option String) (days : Int) (ls : LocalStorage) : Request :=
  { endpoint := "/analytics/history?userId=" ++ uid userId ls ++ "&days=" ++ toString days
    method := none, body := none }

/-- What `fetch` resolves to, as far as `request` reads it: `response.ok`,
`response.status` and the text of the body that `response.json()` parses. -/
structure Response where
  ok : Bool
  status : Nat
  body : String

/-- What `request` can throw: the `Error` built at line 39, the SyntaxError of
`response.json()` on a body that is not JSON, the TypeError of the read
`data.error` on a `null` body, and the rejection of `fetch` itself. -/
inductive Thrown where
  | error (message : String)
  | bodyNotJson
  | typeError
  | fetchRejected
  deriving DecidableEq

/-- The message of `new Error(v)` for a truthy `v`: a string is its own
message, any other value is converted by `text` (the built-in `ToString`). -/
def messageOf (text : JSVal → String) : JSVal → String
  | .str s => s
  | v => text v

/-- api.js 34-46, the `try` of `request` (its `catch` logs and rethrows).
`fetched` is what `fetch(url, config)` settles to, `none` for a rejection. -/
def request (P : Platform) (text : JSVal → String) (fetched : Option Response) :
    Except Thrown JSVal :=
  match fetched with
  | none => Except.error Thrown.fetchRejected
  | some response =>
    match P.parse response.body with
    | none => Except.error Thrown.bodyNotJson
    | some data =>
      if !response.ok then
        if isNullish data then Except.error Thrown.typeError
        else if truthy (getProp data "error") then
          Except.error (Thrown.error (messageOf text (getProp data "error")))
        else
          Except.error (Thrown.error ("HTTP error! status: " ++ toString response.status))
      else Except.ok data

end ApiService

/-! ## components/PerformanceAnalytics.js -/

namespace PerformanceAnalytics

/-- PerformanceAnalytics.js 36-43: the selectable periods, value and label. -/
def PERIODS : List (String × String) :=
  [("1d", "1 Day"), ("7d", "7 Days"), ("30d", "30 Days"), ("90d", "90 Days"),
   ("1y", "1 Year"), ("all", "All Time")]

/-- The code points of ECMAScript white space and line terminators, which
`parseInt` skips at the start of its argument. -/
def isStrWhiteSpace (c : Nat) : Bool :=
  decide (c ∈ [9, 10, 11, 12, 13, 32, 160, 5760, 8232, 8233, 8239, 8287, 12288, 65279])
    || (decide (8192 ≤ c) && decide (c ≤ 8202))

/-- The value of a code point as a digit: `0`-`9`, then the letters of either
case from 10 on. -/
def digitValue (c : Nat) : Option Nat :=
  if 48 ≤ c ∧ c ≤ 57 then some (c - 48)
  else if 97 ≤ c ∧ c ≤ 122 then some (c - 87)
  else if 65 ≤ c ∧ c ≤ 90 then some (c - 55)
  else none

/-- The longest run of digits of radix `R` at the start of the code points. -/
def radixDigits (R : Nat) : List Nat → List Nat
  | [] => []
  | c :: cs =>
    match digitValue c with
    | some d => if d < R then d :: radixDigits R cs else []
    | none => []

/-- The built-in `parseInt(s)` without a radix (ECMAScript 19.2.5): leading
white space is skipped, a sign is read, `0x` or `0X` selects radix 16, and the
longest run of digits is the value; `none` is NaN.  The result is the exact
integer: JavaScript returns it as a double, which rounds an integer above 2^53,
so the model is faithful up to 2^53, far above the digits of a period.  -0 is
identified with 0. -/
def parseInt (s : String) : Option Int :=
  let S := (s.toList.map Char.toNat).dropWhile isStrWhiteSpace
  let negative := decide (S.head? = some 45)
  let S1 := if S.head? = some 45 ∨ S.head? = some 43 then S.tail else S
  let hex := decide (S1.take 2 = [48, 120]) || decide (S1.take 2 = [48, 88])
  let R := if hex then 16 else 10
  let S2 := if hex then S1.drop 2 else S1
  let Z := radixDigits R S2
  if Z = [] then none
  else
    let m : Int := ((Z.foldl (fun acc d => acc * R + d) 0 : Nat) : Int)
    some (if negative then -m else m)

/-- PerformanceAnalytics.js 74: the `days` argument of `api.getPortfolioHistory`,
`selectedPeriod === 'all' ? 365 : parseInt(selectedPeriod) || 30`. -/
def historyDays (selectedPeriod : String) : Int :=
  if selectedPeriod = "all" then 365
  else
    match parseInt selectedPeriod with
    | some n => if n ≠ 0 then n else 30
    | none => 30

/-- PerformanceAnalytics.js 72-76: the three requests of `fetchAnalytics`. -/
def fetchAnalytics (selectedPeriod : String) (ls : LocalStorage) : List ApiService.Request :=
  [ApiService.getPerformance none selectedPeriod ls,
   ApiService.getPortfolioHistory none (historyDays selectedPeriod) ls,
   ApiService.getPerformers none 5 ls]

end PerformanceAnalytics

/-! ## utils/exportUtils.js -/

namespace ExportUtils

/-- What a call of an export function leaves behind: nothing (the early
`return`), a downloaded file, or a TypeError. -/
inductive Download where
  | nothing
  | file (content filename : String)
  | thrown
  deriving DecidableEq

/-- exportUtils.js 13-23. -/
def headers : List String :=
  ["Date", "Symbol", "Name", "Type", "Coins", "Price", "Value (USD)", "Source", "Status"]

/-- The expression `a || b`. -/
def orElse (a b : JSVal) : JSVal :=
  if truthy a then a else b

/-- exportUtils.js 26-40: the cells of one transaction.  `localeDate v` is
`new Date(v).toLocaleDateString()`. -/
def transactionRow (localeDate : JSVal → String) (tx : JSVal) : List JSVal :=
  [ (if truthy (getProp tx "date") then str (localeDate (getProp tx "date")) else str ""),
    orElse (getProp tx "symbol") (str ""),
    orElse (getProp tx "name") (str ""),
    orElse (getProp tx "type") (str ""),
    orElse (getProp tx "coins") (num (JSNum.fin 0)),
    orElse (getProp tx "purchased_price") (num (JSNum.fin 0)),
    orElse (getProp tx "value_usd") (num (JSNum.fin 0)),
    orElse (getProp tx "source") (str "manual"),
    orElse (getProp tx "status") (str "active") ]

/-- The conversion of a cell inside a template literal: a string is itself,
any other value is converted by `text` (the built-in `ToString`). -/
def cellText (text : JSVal → String) : JSVal → String
  | .str s => s
  | v => text v

/-- The template literal of exportUtils.js 45: the cell between two double
quotes. -/
def quoted (text : JSVal → String) (cell : JSVal) : String :=
  "\"" ++ cellText text cell ++ "\""

/-- One line of the file: `row.map(cell => ...).join(',')`. -/
def rowLine (text : JSVal → String) (row : List JSVal) : String :=
  String.intercalate "," (row.map (quoted text))

/-- exportUtils.js 43-46, `csvContent`. -/
def csvContent (text : JSVal → String) (rows : List (List JSVal)) : String :=
  String.intercalate "\n" (String.intercalate "," headers :: rows.map (rowLine text))

/-- exportUtils.js 8-61, `exportTransactionsToCSV(transactions, filename)`.
The read `tx.date` throws on a `null` or `undefined` element, and so does the
call of `map` on a value that is not an array. -/
def exportTransactionsToCSV (text : JSVal → String) (localeDate : JSVal → String)
    (transactions : JSVal) (filename : String) : Download :=
  if !truthy transactions || strictEqZero (getProp transactions "length") then Download.nothing
  else
    match transactions with
    | .arr txs =>
      if txs.any isNullish then Download.thrown
      else Download.file (csvContent text (txs.map (transactionRow localeDate))) filename
    | _ => Download.thrown

end ExportUtils

/-! ## components/AddTransactionModal.js -/

/-- The comparison `n <= 0`. -/
def JSNum.leZero : JSNum → Bool
  | JSNum.fin q => decide (q ≤ 0)
  | JSNum.negInf => true
  | JSNum.posInf => false
  | JSNum.nan => false

namespace AddTransactionModal

/-- AddTransactionModal.js 26-36: the selectable currencies, value and label. -/
def CRYPTO_OPTIONS : List (String × String) :=
  [("BTC", "Bitcoin (BTC)"), ("ETH", "Ethereum (ETH)"), ("XRP", "Ripple (XRP)"),
   ("LTC", "Litecoin (LTC)"), ("BCH", "Bitcoin Cash (BCH)"), ("EOS", "EOS (EOS)"),
   ("XLM", "Stellar (XLM)"), ("ADA", "Cardano (ADA)"), ("SOL", "Solana (SOL)")]

/-- AddTransactionModal.js 39-47: the form data, every field the text of an
input. -/
structure FormData where
  name : String
  symbol : String
  type : String
  purchased_price : String
  date : String
  coins : String
  value_usd : String
  deriving DecidableEq

/-- AddTransactionModal.js 103-110: the object given to `api.addTransaction`. -/
structure Payload where
  name : String
  symbol : String
  type : String
  purchased_price : JSNum
  date : String
  coins : JSNum
  value_usd : JSNum
  source : String
  deriving DecidableEq

/-- What one run of `handleSubmit` did: the call of `api.addTransaction`, if
any, the form data after the run, and the toast it showed. -/
structure Effect where
  apiCall : Option Payload
  formData : FormData
  toast : String
  deriving DecidableEq

/-- The form data written after a successful call (lines 119-127); `today` is
`new Date().toISOString().split('T')[0]`. -/
def emptyForm (today : String) : FormData :=
  { name := "", symbol := "", type := "buy", purchased_price := "", date := today,
    coins := "", value_usd := "" }

/-- The expression of line 105: `formData.name || CRYPTO_OPTIONS.find(c =>
c.value === formData.symbol)?.label || formData.symbol`. -/
def payloadName (formData : FormData) : String :=
  if formData.name ≠ "" then formData.name
  else
    match CRYPTO_OPTIONS.find? (fun c => decide (c.1 = formData.symbol)) with
    | some c => if c.2 ≠ "" then c.2 else formData.symbol
    | none => formData.symbol

/-- AddTransactionModal.js 75-136, `handleSubmit`.  `parseFloat` is the
built-in, `times` the floating-point product, `apiSucceeds` whether the promise
of `api.addTransaction` fulfils. -/
def handleSubmit (parseFloat : String → JSNum) (times : JSNum → JSNum → JSNum) (today : String)
    (apiSucceeds : Bool) (formData : FormData) : Effect :=
  if formData.symbol = "" || formData.coins = "" || formData.purchased_price = "" then
    { apiCall := none, formData := formData, toast := "Validation Error" }
  else
    let coins := parseFloat formData.coins
    let price := parseFloat formData.purchased_price
    if coins.isNaN || price.isNaN || coins.leZero || price.leZero then
      { apiCall := none, formData := formData, toast := "Validation Error" }
    else
      let payload : Payload :=
        { name := payloadName formData, symbol := formData.symbol, type := formData.type,
          purchased_price := price, date := formData.date, coins := coins,
          value_usd := times coins price, source := "manual" }
      if apiSucceeds then
        { apiCall := some payload, formData := emptyForm today, toast := "Success" }
      else
        { apiCall := some payload, formData := formData, toast := "Error" }

end AddTransactionModal

/-! ## Vocabulary of the statements -/

/-- The summary has a `total_equity` that is a number greater than zero. -/
def hasPositiveTotal (v : JSVal) : Bool :=
  match getProp v "total_equity" with
  | num n => n.gtZero
  | _ => false

/-- The summary has a `total_equity` that is the number zero. -/
def hasZeroTotal (v : JSVal) : Bool :=
  strictEqZero (getProp v "total_equity")

/-- The summary on display in the Analysis screen. -/
def Analysis.State.summary (st : Analysis.State) : JSVal :=
  getProp st.portfolioData "summary"

/-- The holdings on display in the Analysis screen. -/
def Analysis.State.holdings (st : Analysis.State) : JSVal :=
  getProp st.portfolioData "holdings"

/-- Two Home worlds that differ at most in the stored `portfolioSummary`. -/
def Home.World.sameView (w v : Home.World) : Prop :=
  w.state = v.state ∧ w.trace = v.trace
    ∧ w.session.portfolioHoldings = v.session.portfolioHoldings

/-- Two Analysis worlds that differ at most in the stored `portfolioSummary`. -/
def Analysis.World.sameView (w v : Analysis.World) : Prop :=
  w.state = v.state ∧ w.trace = v.trace
    ∧ w.session.portfolioHoldings = v.session.portfolioHoldings

/-- The same Home world with no `portfolioSummary` entry in sessionStorage. -/
def Home.World.dropSummary (w : Home.World) : Home.World :=
  { w with session := { w.session with portfolioSummary := none } }

/-- The same Analysis world with no `portfolioSummary` entry in sessionStorage. -/
def Analysis.World.dropSummary (w : Analysis.World) : Analysis.World :=
  { w with session := { w.session with portfolioSummary := none } }

/-- The stored text is not usable as a summary: `JSON.parse` throws on it, or
gives a value whose `total_equity` is not of type number. -/
def unusableText (P : Platform) (s : String) : Prop :=
  P.parse s = none ∨ ∃ v, P.parse s = some v ∧ typeofNumber (getProp v "total_equity") = false

/-- The store is empty or holds a summary with `total_equity > 0`. -/
def storeValid (P : Platform) (σ : SessionStorage) : Prop :=
  σ.portfolioSummary = none
    ∨ ∃ s v, σ.portfolioSummary = some s ∧ P.parse s = some v ∧ hasPositiveTotal v = true

/-- The summary has a `total_equity` that is one of the two infinities. -/
def hasInfiniteTotal (v : JSVal) : Bool :=
  match getProp v "total_equity" with
  | num JSNum.posInf => true
  | num JSNum.negInf => true
  | _ => false

/-- The law of `JSON.parse` and `JSON.stringify` the store relies on: the text
written for a summary with a finite positive total parses to a summary with a
positive total.  (For an infinite total the built-ins do not have it:
`JSON.stringify` writes `Infinity` as `null`.) -/
def Platform.keepsFinitePositiveTotal (P : Platform) : Prop :=
  ∀ v, hasPositiveTotal v = true → hasInfiniteTotal v = false →
    ∃ u, P.parse (P.stringify v) = some u ∧ hasPositiveTotal u = true

/-- The `portfolioSummary` entry after a run is the one before it, or the text
of the fresh summary of the run, whose total is positive. -/
def summaryKeptOrWritten (P : Platform) (fresh : Option JSVal)
    (before after : SessionStorage) : Prop :=
  after.portfolioSummary = before.portfolioSummary
    ∨ ∃ v, fresh = some v ∧ hasPositiveTotal v = true
        ∧ after.portfolioSummary = some (P.stringify v)

/-- The summary a response carries into an event, if the event has one. -/
def Event.fresh : Event → Option JSVal
  | Event.homeFetch _ transactionsResult portfolioResult =>
    (promiseAll transactionsResult portfolioResult).map
      (fun r : JSVal × JSVal => Home.freshSummary r.2)
  | Event.homeVisible transactionsResult portfolioResult =>
    (promiseAll transactionsResult portfolioResult).map
      (fun r : JSVal × JSVal => Home.freshSummary r.2)
  | Event.analysisFetch response => response.map (fun data => getProp data "summary")
  | _ => none

/-- No response of the event carries an infinite total. -/
def Event.finiteTotal (e : Event) : Prop :=
  ∀ v, e.fresh = some v → hasInfiniteTotal v = false

/-- Whenever a positive summary is displayed, `hasDataRef` is set. -/
def Home.State.flagged (st : Home.State) : Prop :=
  hasPositiveTotal st.portfolioSummary = true → st.hasDataRef = true

/-- How one arbitration changes the displayed summary and the flag
`hasDataRef`: it keeps the summary; or it sets the flag, with a summary that is
not zero unless the flag was unset or no positive summary was in memory; or it
displays a zero summary, which needs that no positive summary was in memory. -/
def Home.Outcome (P : Platform) (ps : JSVal) (w r : Home.World) : Prop :=
  (r.state.portfolioSummary = w.state.portfolioSummary
      ∧ (r.state.hasDataRef = w.state.hasDataRef ∨ r.state.hasDataRef = true))
  ∨ (r.state.hasDataRef = true
      ∧ (hasZeroTotal r.state.portfolioSummary = false ∨ w.state.hasDataRef = false
          ∨ (truthy ps && jsGtZero P (getProp ps "total_equity")) = false))
  ∨ (hasZeroTotal r.state.portfolioSummary = true ∧ r.state.hasDataRef = w.state.hasDataRef
      ∧ (truthy ps && jsGtZero P (getProp ps "total_equity")) = false)

/-- The holdings merge as the specification words it (section 4.3): the
incoming list unless it is empty, in which case the previous list. -/
def specMergeHoldings (previous incoming : List JSVal) : List JSVal :=
  match incoming with
  | [] => previous
  | _ :: _ => incoming

/-- The summary `r` is, as a whole, the one in memory before the run, the
parsed text of the cache, or the fresh one. -/
def pickedWhole (P : Platform) (cachedSummary : Option String) (prior : JSVal)
    (fresh : Option JSVal) (r : JSVal) : Prop :=
  r = prior ∨ (∃ s, cachedSummary = some s ∧ P.parse s = some r) ∨ fresh = some r

/-- The user id of a request as the specification words it: the explicit
argument when one is given (a string that is not empty; `null`, the default of
the parameter, is `none`), otherwise the stored `userId` when one is stored and
not empty, otherwise the literal `default`. -/
def specUserId (explicit stored : Option String) : String :=
  match explicit.filter (fun e => decide (e ≠ "")) with
  | some e => e
  | none =>
    match stored.filter (fun s => decide (s ≠ "")) with
    | some s => s
    | none => "default"

/-- The columns of the transactions export with the default the specification
gives for a missing field, in the order of the header. -/
def specDefaults : List (String × JSVal) :=
  [("date", str ""), ("symbol", str ""), ("name", str ""), ("type", str ""),
   ("coins", num (JSNum.fin 0)), ("purchased_price", num (JSNum.fin 0)),
   ("value_usd", num (JSNum.fin 0)), ("source", str "manual"), ("status", str "active")]

/-- Where a reader of CSV text stands: at the start of a field, inside an
unquoted field, inside a quoted field, or just after a double quote met inside a
quoted field. -/
inductive CsvState where
  | fieldStart
  | unquoted
  | inQuotes
  | quoteSeen
  deriving DecidableEq

/-- The reader of CSV text by the quoting rules of RFC 4180, on the code points
of the text: fields are separated by a comma (44) and records by a line feed
(10); a field that starts with a double quote (34) runs to the next single
double quote, two double quotes in a row standing for one, and may contain
commas and line feeds; a double quote inside an unquoted field, a character
other than a separator after the closing quote, and text that ends inside a
quoted field are malformed (`none`). -/
def readCsvFrom : List Nat → CsvState → List Nat → List String → List (List String) →
    Option (List (List String))
  | [], st, field, record, records =>
    match st with
    | CsvState.inQuotes => none
    | _ => some (records ++ [record ++ [String.mk (field.map Char.ofNat)]])
  | c :: cs, CsvState.fieldStart, _, record, records =>
    if c = 34 then readCsvFrom cs CsvState.inQuotes [] record records
    else if c = 44 then readCsvFrom cs CsvState.fieldStart [] (record ++ [""]) records
    else if c = 10 then readCsvFrom cs CsvState.fieldStart [] [] (records ++ [record ++ [""]])
    else readCsvFrom cs CsvState.unquoted [c] record records
  | c :: cs, CsvState.unquoted, field, record, records =>
    if c = 34 then none
    else if c = 44 then
      readCsvFrom cs CsvState.fieldStart [] (record ++ [String.mk (field.map Char.ofNat)]) records
    else if c = 10 then
      readCsvFrom cs CsvState.fieldStart [] []
        (records ++ [record ++ [String.mk (field.map Char.ofNat)]])
    else readCsvFrom cs CsvState.unquoted (field ++ [c]) record records
  | c :: cs, CsvState.inQuotes, field, record, records =>
    if c = 34 then readCsvFrom cs CsvState.quoteSeen field record records
    else readCsvFrom cs CsvState.inQuotes (field ++ [c]) record records
  | c :: cs, CsvState.quoteSeen, field, record, records =>
    if c = 34 then readCsvFrom cs CsvState.inQuotes (field ++ [34]) record records
    else if c = 44 then
      readCsvFrom cs CsvState.fieldStart [] (record ++ [String.mk (field.map Char.ofNat)]) records
    else if c = 10 then
      readCsvFrom cs CsvState.fieldStart [] []
        (records ++ [record ++ [String.mk (field.map Char.ofNat)]])
    else none

/-- The records and fields of a CSV text, `none` when it is malformed. -/
def readCsv (content : String) : Option (List (List String)) :=
  readCsvFrom (content.toList.map Char.toNat) CsvState.fieldStart [] [] []

/-- Reading the text gives back the header and, for each row, the text of
each cell that was written. -/
def recoversCells (text : JSVal → String) (rows : List (List JSVal)) (content : String) : Prop :=
  readCsv content
    = some (ExportUtils.headers :: rows.map (fun row => row.map (ExportUtils.cellText text)))

/-- The cached summary with a total greater than zero, as both screens test
it (Home.js 139-142, Analysis.js 74-77): the stored item is truthy, parses, and
has a `total_equity` that is a number greater than zero. -/
def positiveCache (P : Platform) (c : Option String) : Option JSVal :=
  if itemTruthy c then Analysis.cachedPositive P c else none

/-- The cached summary Home falls back on (Home.js 105-110): the stored item
is truthy, parses, and has a `total_equity` of type number. -/
def Home.usableCache (P : Platform) (c : Option String) : Option JSVal :=
  if itemTruthy c then
    match parseItem P c with
    | some parsed =>
      if truthy parsed && typeofNumber (getProp parsed "total_equity") then some parsed
      else none
    | none => none
  else none

/-- The response carries a summary Home accepts: its `total_equity` is a
number other than NaN (Home.js 133 and 186). -/
def Home.validFresh (pd : JSVal) : Bool :=
  truthy pd && typeofNumber (getProp (Home.freshSummary pd) "total_equity")
    && notNaN (getProp (Home.freshSummary pd) "total_equity")

/-- The test `portfolioSummary && portfolioSummary.total_equity > 0`. -/
def memoryPositive (P : Platform) (ps : JSVal) : Bool :=
  truthy ps && jsGtZero P (getProp ps "total_equity")

/-- The summary and the flag Home ends with when it has no accepted fresh
summary: the usable cached summary when the captured summary is empty or the
flag is unset, else the summary `shown` and the flag it had. -/
def Home.fallback (P : Platform) (c : Option String) (captured shown : JSVal) (flag : Bool) :
    JSVal × Bool :=
  match Home.usableCache P c with
  | some v => if !truthy captured || !flag then (v, true) else (shown, flag)
  | none => (shown, flag)

/-- The summary Home ends with on an accepted fresh summary: the fresh one,
unless its total is zero, in which case the positive cached summary, else the
summary `shown` when the captured summary is positive, else the fresh one. -/
def Home.summaryOnFresh (P : Platform) (c : Option String) (captured shown pd : JSVal) :
    JSVal :=
  if hasZeroTotal (Home.freshSummary pd) then
    match positiveCache P c with
    | some v => v
    | none => if memoryPositive P captured then shown else Home.freshSummary pd
  else Home.freshSummary pd

/-- The session storage after a run that received the summary `fresh`: its
text is stored when its total is positive. -/
def sessionOnFresh (P : Platform) (σ : SessionStorage) (fresh : JSVal) : SessionStorage :=
  if hasPositiveTotal fresh then { σ with portfolioSummary := some (P.stringify fresh) } else σ

/-- The value `Analysis.suspectBranch` displays, `none` when it falls through
to the normal case. -/
def Analysis.suspectData (P : Platform) (portfolioData : JSVal) (c : Option String)
    (data : JSVal) : Option JSVal :=
  if truthy data && truthy (getProp data "summary")
      && strictEqZero (getProp (getProp data "summary") "total_equity") then
    match positiveCache P c with
    | some parsed =>
      some (obj (setField (setField (spread data) "summary" parsed) "holdings"
        (if Analysis.hasHoldings P data then getProp data "holdings"
         else Analysis.previousHoldings portfolioData)))
    | none =>
      if truthy portfolioData && truthy (getProp portfolioData "summary")
          && jsGtZero P (getProp (getProp portfolioData "summary") "total_equity") then
        some (obj (setField (spread portfolioData) "holdings"
          (if Analysis.hasHoldings P data then getProp data "holdings"
           else getProp portfolioData "holdings")))
      else none
  else none

/-- The value the normal case of Analysis displays. -/
def Analysis.normalData (data : JSVal) : JSVal :=
  obj (setField (spread data) "holdings"
    (if truthy (getProp data "holdings") then getProp data "holdings" else arr []))

/-- The session storage after the normal case of Analysis. -/
def Analysis.normalSession (P : Platform) (data : JSVal) (σ : SessionStorage) : SessionStorage :=
  if hasPositiveTotal (getProp data "summary") then
    { portfolioSummary := some (P.stringify (getProp data "summary"))
      portfolioHoldings :=
        if jsGtZero P (getProp
            (if truthy (getProp data "holdings") then getProp data "holdings" else arr [])
            "length") then
          some (P.stringify
            (if truthy (getProp data "holdings") then getProp data "holdings" else arr []))
        else σ.portfolioHoldings }
  else σ

/-- The value Analysis displays after a failed call: the positive cached
summary with no holdings when nothing was displayed, else what it had. -/
def Analysis.dataOnFailure (P : Platform) (c : Option String) (portfolioData : JSVal) : JSVal :=
  match positiveCache P c with
  | some parsed =>
    if truthy portfolioData then portfolioData
    else obj [("summary", parsed), ("holdings", arr [])]
  | none => portfolioData

/-- The two screens hold the same summary in memory: neither holds any, or
Analysis holds an object whose `summary` is the one Home holds. -/
def sameMemory (ps pd : JSVal) : Prop :=
  (ps = null ∧ pd = null)
    ∨ (truthy ps = true ∧ isNullish pd = false ∧ getProp pd "summary" = ps)

/-! ## Concrete inputs -/

/-- A summary object whose only property is `total_equity`. -/
def summaryOf (q : ℚ) : JSVal :=
  obj [("total_equity", num (JSNum.fin q))]

/-- The JSON text of `summaryOf 1000`. -/
def text1000 : String := "\x7b\"total_equity\":1000\x7d"

/-- The JSON text of `summaryOf 1500`. -/
def text1500 : String := "\x7b\"total_equity\":1500\x7d"

/-- The JSON text of `summaryOf 0`. -/
def text0 : String := "\x7b\"total_equity\":0\x7d"

/-- A platform that knows the JSON text of three summaries, for running the
model on concrete inputs with finite totals: `JSON.parse` reads these three
texts and rejects every other string; `JSON.stringify` writes them, a finite
positive total other than 1500 as the text for 1000 and every other finite
total as the text for 0.  (`samplePlatformNonFinite` adds the totals that are
not finite.) -/
def samplePlatform : Platform :=
  { parse := fun s =>
      if s = text1000 then some (summaryOf 1000)
      else if s = text1500 then some (summaryOf 1500)
      else if s = text0 then some (summaryOf 0)
      else none
    stringify := fun v =>
      match getProp v "total_equity" with
      | num (JSNum.fin q) =>
        if q = 1500 then text1500 else if 0 < q then text1000 else text0
      | _ => "null"
    coercedGtZero := fun _ => false }

/-- A holdings list with one row. -/
def holdingsBTC : JSVal :=
  arr [obj [("symbol", str "BTC"), ("coins", num (JSNum.fin 2))]]

/-- A response `{summary: {total_equity: q}, holdings: h}`. -/
def responseOf (q : ℚ) (h : JSVal) : JSVal :=
  obj [("summary", summaryOf q), ("holdings", h)]

/-- A freshly mounted Home screen over a given session storage. -/
def Home.World.fresh (session : SessionStorage) : Home.World :=
  { state := Home.State.initial, session := session, trace := [] }

/-- A freshly mounted Analysis screen over a given session storage. -/
def Analysis.World.fresh (session : SessionStorage) : Analysis.World :=
  { state := Analysis.State.initial, session := session, trace := [] }

/-- A session storage holding only the text of `summaryOf 1000`. -/
def session1000 : SessionStorage :=
  { portfolioSummary := some text1000, portfolioHoldings := none }

/-- A session storage whose `portfolioSummary` is not JSON. -/
def sessionGarbage : SessionStorage :=
  { portfolioSummary := some "not json", portfolioHoldings := none }

/-- A tab whose two screens are freshly mounted, over given stores. -/
def Tab.fresh (storage : Storage) : Tab :=
  { storage := storage, home := Home.State.initial, analysis := Analysis.State.initial }

/-- The stores of a signed-out browser with an empty session storage. -/
def storageEmpty : Storage :=
  { sessionStorage := { portfolioSummary := none, portfolioHoldings := none }
    localStorage :=
      { authToken := none, userEmail := none, userId := none, authProvider := none } }

/-- Two fetches that leave the total 1500 on display in both screens. -/
def eventsShowing1500 : List Event :=
  [Event.homeFetch true (some (arr [])) (some (responseOf 1500 holdingsBTC)),
   Event.analysisFetch (some (responseOf 1500 holdingsBTC))]

/-- A Home screen that displays `summaryOf 1000`, over a session storage that
holds the text of a summary with total 0. -/
def homeShowing1000 : Home.World :=
  { state :=
      { transactions := arr [], portfolioSummary := summaryOf 1000, loading := false,
        isInitialLoadRef := false, hasDataRef := true }
    session := { portfolioSummary := some text0, portfolioHoldings := none }
    trace := [] }

/-- An Analysis screen that displays `responseOf 1000 holdingsBTC`, over an
empty session storage. -/
def analysisShowing1000NoCache : Analysis.World :=
  { state := { portfolioData := responseOf 1000 holdingsBTC, loading := false }
    session := { portfolioSummary := none, portfolioHoldings := none }
    trace := [] }

/-- The empty session storage. -/
def sessionEmpty : SessionStorage :=
  { portfolioSummary := none, portfolioHoldings := none }

/-- An Analysis screen that already displays `responseOf 1000 holdingsBTC`,
over the session storage a positive response leaves behind. -/
def analysisShowing1000 : Analysis.World :=
  { state := { portfolioData := responseOf 1000 holdingsBTC, loading := false }
    session := session1000
    trace := [] }

/-- A session storage holding only the text of `summaryOf 1500`. -/
def session1500 : SessionStorage :=
  { portfolioSummary := some text1500, portfolioHoldings := none }

/-- A Home screen that displays `summaryOf 1000` with `hasDataRef` set, over a
session storage that holds the text of `summaryOf 1500`. -/
def homeShowing1000Cache1500 : Home.World :=
  { state :=
      { transactions := arr [], portfolioSummary := summaryOf 1000, loading := false,
        isInitialLoadRef := false, hasDataRef := true }
    session := session1500
    trace := [] }

/-- An Analysis screen that displays `responseOf 1000 holdingsBTC`, over a
session storage that holds the text of `summaryOf 1500`. -/
def analysisShowing1000Cache1500 : Analysis.World :=
  { state := { portfolioData := responseOf 1000 holdingsBTC, loading := false }
    session := session1500
    trace := [] }

/-- The JSON text of `holdingsBTC`. -/
def textBTC : String := "[\x7b\"symbol\":\"BTC\",\"coins\":2\x7d]"

/-- The sample platform, extended with the text of one holdings list:
`JSON.parse` also reads `textBTC`, and `JSON.stringify` writes every list as
`textBTC`. -/
def samplePlatformWithHoldings : Platform :=
  { parse := fun s => if s = textBTC then some holdingsBTC else samplePlatform.parse s
    stringify := fun v =>
      match v with
      | arr _ => textBTC
      | _ => samplePlatform.stringify v
    coercedGtZero := fun _ => false }

/-- A session storage holding the snapshot of `responseOf 1000 holdingsBTC`. -/
def sessionSnapshot1000 : SessionStorage :=
  { portfolioSummary := some text1000, portfolioHoldings := some textBTC }

/-- The stores of a tab in which user A is signed in and whose session storage
holds A's snapshot. -/
def storageUserA : Storage :=
  { sessionStorage := sessionSnapshot1000
    localStorage :=
      { authToken := some "token-a", userEmail := some "a@example.com",
        userId := some "user-a", authProvider := some "email" } }

/-- A session of user B. -/
def sessionUserB : AuthSession :=
  { access_token := "token-b", email := "b@example.com", id := "user-b" }

/-- A session storage holding only the text of `summaryOf 0`. -/
def session0 : SessionStorage :=
  { portfolioSummary := some text0, portfolioHoldings := none }

/-- A response whose summary has a `total_equity` that is not a number. -/
def responseWithTextTotal : JSVal :=
  obj [("summary", obj [("total_equity", str "n/a")])]

/-- A local storage in which user A is signed in. -/
def localUserA : LocalStorage :=
  { authToken := some "token-a", userEmail := some "a@example.com",
    userId := some "user-a", authProvider := some "email" }

/-- A non-ok response whose body is not JSON, as a gateway in front of the
backend answers. -/
def responseBadGateway : ApiService.Response :=
  { ok := false, status := 502, body := "Bad Gateway" }

/-- A non-ok response whose JSON body has no `error` field. -/
def responseZeroTotal503 : ApiService.Response :=
  { ok := false, status := 503, body := text0 }

/-- The conversion of a whole number to text; the empty text for every other
value.  It stands for `ToString` on the inputs below. -/
def wholeNumberText : JSVal → String
  | .num (JSNum.fin q) => if q.den = 1 then toString q.num else ""
  | _ => ""

/-- A date formatter that writes every date as the same text. -/
def sampleDate : JSVal → String :=
  fun _ => "1/2/2024"

/-- A transaction whose name contains a comma and a line feed. -/
def txCommaName : JSVal :=
  obj [("symbol", str "BTC"), ("name", str "Bitcoin, the\ncoin"), ("type", str "buy"),
    ("coins", num (JSNum.fin 2))]

/-- A transaction whose name contains double quotes: the name is the seven
characters `a","b"c`. -/
def txQuoteName : JSVal :=
  obj [("symbol", str "BTC"), ("name", str "a\",\"b\"c"), ("type", str "buy"),
    ("coins", num (JSNum.fin 2))]

/-- A filled-in form: two coins of BTC at 100. -/
def formTwoBTC : AddTransactionModal.FormData :=
  { name := "", symbol := "BTC", type := "buy", purchased_price := "100", date := "2024-01-02",
    coins := "2", value_usd := "200.00" }

/-- A stand-in for `parseFloat` on the inputs below: it reads a run of decimal
digits and gives NaN for every other text. -/
def sampleParseFloat (s : String) : JSNum :=
  if s ≠ "" ∧ s.toList.all Char.isDigit then
    JSNum.fin ((s.toList.foldl (fun acc c => acc * 10 + (c.toNat - 48)) 0 : Nat) : ℚ)
  else JSNum.nan

/-- The exact product, NaN when an operand is NaN. -/
def sampleTimes : JSNum → JSNum → JSNum
  | JSNum.fin a, JSNum.fin b => JSNum.fin (a * b)
  | _, _ => JSNum.nan

/-- A response `{summary: s}`. -/
def wrapSummary (s : JSVal) : JSVal :=
  obj [("summary", s)]

/-- A Home screen that displays `summaryOf 0` with `hasDataRef` unset, the
state a cold start on a zero response leaves, over a session storage that
holds the text of `summaryOf 1000`. -/
def homeShowingZeroCache1000 : Home.World :=
  { state :=
      { transactions := arr [], portfolioSummary := summaryOf 0, loading := false,
        isInitialLoadRef := false, hasDataRef := false }
    session := session1000
    trace := [] }

/-- An Analysis screen that displays `responseOf 0 (arr [])`, over a session
storage that holds the text of `summaryOf 1000`. -/
def analysisShowingZeroCache1000 : Analysis.World :=
  { state := { portfolioData := responseOf 0 (arr []), loading := false }
    session := session1000
    trace := [] }

/-- A summary whose `total_equity` is `Infinity`, as `response.json()` reads
the body `\x7b"total_equity":1e999\x7d`. -/
def summaryInfinite : JSVal :=
  obj [("total_equity", num JSNum.posInf)]

/-- A summary whose `total_equity` is `null`. -/
def summaryNullTotal : JSVal :=
  obj [("total_equity", null)]

/-- The JSON text of `summaryNullTotal`, which is also what `JSON.stringify`
writes for `summaryInfinite`. -/
def textNullTotal : String := "\x7b\"total_equity\":null\x7d"

/-- The sample platform, extended with the totals that are not finite:
`JSON.stringify` writes an infinite or NaN total as `null`, and `JSON.parse`
reads that text as a summary whose total is `null`. -/
def samplePlatformNonFinite : Platform :=
  { parse := fun s => if s = textNullTotal then some summaryNullTotal else samplePlatform.parse s
    stringify := fun v =>
      match getProp v "total_equity" with
      | num (JSNum.fin _) => samplePlatform.stringify v
      | num _ => textNullTotal
      | _ => samplePlatform.stringify v
    coercedGtZero := fun _ => false }

/-- A Home screen that displays `summaryOf 1000` with `hasDataRef` set, over an
empty session storage. -/
def homeShowing1000NoCache : Home.World :=
  { state :=
      { transactions := arr [], portfolioSummary := summaryOf 1000, loading := false,
        isInitialLoadRef := false, hasDataRef := true }
    session := { portfolioSummary := none, portfolioHoldings := none }
    trace := [] }

/-- A mount of Home that receives the total 1000, followed by a `SIGNED_IN`
event of the identity provider, which clears the snapshot: the total 1000 is on
display over an empty session storage. -/
def eventsShowing1000Cleared : List Event :=
  [Event.homeFetch true (some (arr [])) (some (responseOf 1000 holdingsBTC)),
   Event.authStateChange "SIGNED_IN" (some sessionUserB)]

/-! ## Lemmas on values -/

theorem getField_setField_same (fs : List (String × JSVal)) (k : String) (v : JSVal) :
    getField (setField fs k v) k = v := by
  induction fs with
  | nil => simp [setField, getField]
  | cons hd tl ih =>
    obtain ⟨k1, v1⟩ := hd
    by_cases h : k1 = k
    · simp [setField, getField, h]
    · simp [setField, getField, h, ih]

theorem getField_setField_other (fs : List (String × JSVal)) (k k2 : String) (v : JSVal)
    (hne : k ≠ k2) : getField (setField fs k v) k2 = getField fs k2 := by
  induction fs with
  | nil => simp [setField, getField, hne]
  | cons hd tl ih =>
    obtain ⟨k1, v1⟩ := hd
    by_cases h : k1 = k
    · subst h
      simp [setField, getField, hne]
    · by_cases h2 : k1 = k2
      · subst h2
        simp [setField, getField, h]
      · simp [setField, getField, h, h2, ih]

theorem hasPositiveTotal_iff (v : JSVal) :
    hasPositiveTotal v = true ↔ ∃ n, getProp v "total_equity" = num n ∧ n.gtZero = true := by
  unfold hasPositiveTotal
  split
  · next n h => simp [h]
  · next h =>
    constructor
    · intro hf
      cases hf
    · rintro ⟨n, hn, _⟩
      exact absurd hn (h n)

theorem hasZeroTotal_iff (v : JSVal) :
    hasZeroTotal v = true ↔ ∃ n, getProp v "total_equity" = num n ∧ n.isZero = true := by
  unfold hasZeroTotal
  cases h : getProp v "total_equity" <;> simp [strictEqZero]

/-- Only an object has a numeric `total_equity`. -/
theorem obj_of_total_equity_num (v : JSVal) (n : JSNum)
    (h : getProp v "total_equity" = num n) : ∃ fs, v = obj fs := by
  cases v with
  | obj fs => exact ⟨fs, rfl⟩
  | arr items => simp [getProp] at h
  | str s => simp [getProp] at h
  | undefined => simp [getProp] at h
  | null => simp [getProp] at h
  | bool b => simp [getProp] at h
  | num m => simp [getProp] at h

theorem truthy_of_total_equity_num (v : JSVal) (n : JSNum)
    (h : getProp v "total_equity" = num n) : truthy v = true := by
  obtain ⟨fs, rfl⟩ := obj_of_total_equity_num v n h
  rfl

theorem gtZero_not_isZero (n : JSNum) (h : n.gtZero = true) : n.isZero = false := by
  cases n with
  | nan => rfl
  | posInf => rfl
  | negInf => rfl
  | fin q =>
    simp only [JSNum.gtZero, decide_eq_true_eq] at h
    simp [JSNum.isZero, ne_of_gt h]

theorem isZero_not_gtZero (n : JSNum) (h : n.isZero = true) : n.gtZero = false := by
  cases n with
  | nan => rfl
  | posInf => simp [JSNum.isZero] at h
  | negInf => rfl
  | fin q =>
    simp only [JSNum.isZero, decide_eq_true_eq] at h
    simp [JSNum.gtZero, h]

theorem isZero_not_isNaN (n : JSNum) (h : n.isZero = true) : n.isNaN = false := by
  cases n with
  | nan => simp [JSNum.isZero] at h
  | fin q => rfl
  | posInf => rfl
  | negInf => rfl

theorem gtZero_not_isNaN (n : JSNum) (h : n.gtZero = true) : n.isNaN = false := by
  cases n with
  | nan => simp [JSNum.gtZero] at h
  | fin q => rfl
  | posInf => rfl
  | negInf => rfl

/-! ## Lemmas on `Home.fetchData` -/

theorem Home.fetchData_ok (P : Platform) (showLoading : Bool) (transactionsData portfolioData : JSVal)
    (ps : JSVal) (w : Home.World) :
    Home.fetchData P showLoading (some transactionsData) (some portfolioData) ps w
      = (Completion.normal,
          Home.afterResponse P ps w.session.portfolioSummary
            transactionsData portfolioData (Home.firstPaint P showLoading ps w)) := by
  simp [Home.fetchData, Home.tryBlock, promiseAll]

theorem Home.fetchData_fail (P : Platform) (showLoading : Bool)
    (transactionsResult portfolioResult : Option JSVal) (ps : JSVal) (w : Home.World)
    (h : promiseAll transactionsResult portfolioResult = none) :
    Home.fetchData P showLoading transactionsResult portfolioResult ps w
      = (Completion.normal,
          Home.catchBlock P (Home.firstPaint P showLoading ps w)) := by
  simp [Home.fetchData, Home.tryBlock, h]

theorem Home.adoptPositiveCached_pos (P : Platform) (s : String) (cached : JSVal) (w : Home.World)
    (hs : s ≠ "") (hparse : P.parse s = some cached) (hpos : hasPositiveTotal cached = true) :
    Home.adoptPositiveCached P (some s) w
      = (true, Home.setHasDataRef true (Home.setPortfolioSummary cached w)) := by
  obtain ⟨n, hn, hgt⟩ := (hasPositiveTotal_iff cached).1 hpos
  have ht := truthy_of_total_equity_num cached n hn
  simp [Home.adoptPositiveCached, itemTruthy, hs, parseItem, hparse, ht, hn, typeofNumber,
    jsGtZero, hgt]

theorem Analysis.cachedPositive_pos (P : Platform) (s : String) (cached : JSVal)
    (hparse : P.parse s = some cached) (hpos : hasPositiveTotal cached = true) :
    Analysis.cachedPositive P (some s) = some cached := by
  obtain ⟨n, hn, hgt⟩ := (hasPositiveTotal_iff cached).1 hpos
  have ht := truthy_of_total_equity_num cached n hn
  simp [Analysis.cachedPositive, parseItem, hparse, ht, hn, typeofNumber, jsGtZero, hgt]

/-- A response whose `summary` has a numeric `total_equity` is an object. -/
theorem truthy_of_summary_total (response : JSVal) (n : JSNum)
    (h : getProp (getProp response "summary") "total_equity" = num n) :
    truthy response = true ∧ truthy (getProp response "summary") = true := by
  refine ⟨?_, truthy_of_total_equity_num _ n h⟩
  cases response <;> simp_all [getProp, truthy]

/-! ## Lemmas on `Analysis.fetchPortfolioData` -/

theorem Analysis.fetchPortfolioData_suspect (P : Platform) (data : JSVal) (w w3 : Analysis.World)
    (h : Analysis.suspectBranch P w.state.portfolioData w.session.portfolioSummary data
      (Analysis.firstPaint P w.state.portfolioData w) = some w3) :
    Analysis.fetchPortfolioData P (some data) w = (Completion.normal, w3) := by
  simp [Analysis.fetchPortfolioData, Analysis.tryBlock, h]

theorem Analysis.fetchPortfolioData_normal (P : Platform) (data : JSVal) (w : Analysis.World)
    (h : Analysis.suspectBranch P w.state.portfolioData w.session.portfolioSummary data
      (Analysis.firstPaint P w.state.portfolioData w) = none)
    (hd : isNullish data = false) :
    Analysis.fetchPortfolioData P (some data) w
      = Analysis.normalCase P data (Analysis.firstPaint P w.state.portfolioData w) := by
  simp [Analysis.fetchPortfolioData, Analysis.tryBlock, h, Analysis.normalCase, hd]

theorem Analysis.fetchPortfolioData_null (P : Platform) (data : JSVal) (w : Analysis.World)
    (hd : isNullish data = true) :
    Analysis.fetchPortfolioData P (some data) w
      = (Completion.normal, Analysis.catchBlock P w.state.portfolioData
          (Analysis.firstPaint P w.state.portfolioData w)) := by
  have ht : truthy data = false := by cases data <;> simp_all [isNullish, truthy]
  simp [Analysis.fetchPortfolioData, Analysis.tryBlock, Analysis.suspectBranch, ht,
    Analysis.normalCase, hd]

theorem Analysis.fetchPortfolioData_fail (P : Platform) (w : Analysis.World) :
    Analysis.fetchPortfolioData P none w
      = (Completion.normal, Analysis.catchBlock P w.state.portfolioData
          (Analysis.firstPaint P w.state.portfolioData w)) := by
  simp [Analysis.fetchPortfolioData, Analysis.tryBlock]

/-- C1: when the store holds a summary with `total_equity > 0` and the backend
answers with a summary whose `total_equity` is exactly 0, `Home.fetchData` and
`Analysis.fetchPortfolioData` display the cached summary, not the fresh zero
one, whatever the in-memory state was, and Home sets `hasDataRef`. -/
theorem suspect_fresh_resolves_to_cached (P : Platform) (showLoading : Bool)
    (transactionsData response : JSVal) (s : String) (cached : JSVal)
    (captured : JSVal) (wh : Home.World) (wa : Analysis.World)
    (hs : s ≠ "") (hparse : P.parse s = some cached) (hpos : hasPositiveTotal cached = true)
    (hh : wh.session.portfolioSummary = some s) (ha : wa.session.portfolioSummary = some s)
    (hzero : hasZeroTotal (getProp response "summary") = true) :
    (Home.fetchData P showLoading (some transactionsData) (some response)
      captured wh).2.state.portfolioSummary
        = cached
    ∧ (Home.fetchData P showLoading (some transactionsData) (some response)
        captured wh).2.state.hasDataRef
        = true
    ∧ (Analysis.fetchPortfolioData P (some response) wa).2.state.summary = cached
    ∧ cached ≠ getProp response "summary" := by
  obtain ⟨z, hz, hz0⟩ := (hasZeroTotal_iff _).1 hzero
  obtain ⟨hrt, hst⟩ := truthy_of_summary_total response z hz
  have hhome : ∀ w : Home.World,
      Home.afterResponse P captured (some s) transactionsData response w
        = Home.setIsInitialLoadRef false (Home.setLoading false
            (Home.setHasDataRef true (Home.setPortfolioSummary cached
              (Home.setTransactions
                (if isArray transactionsData then transactionsData else arr []) w)))) := by
    intro w
    simp [Home.afterResponse, Home.resolve, hrt, hst, Home.withSummary, hz, typeofNumber, notNaN, strictEqZero,
      hz0, isZero_not_isNaN z hz0, Home.adoptPositiveCached_pos P s cached _ hs hparse hpos]
  refine ⟨?_, ?_, ?_, ?_⟩
  · rw [Home.fetchData_ok, hh, hhome]
    rfl
  · rw [Home.fetchData_ok, hh, hhome]
    rfl
  · have hsb : Analysis.suspectBranch P wa.state.portfolioData wa.session.portfolioSummary response
        (Analysis.firstPaint P wa.state.portfolioData wa)
        = some (Analysis.setLoading false (Analysis.setPortfolioData
            (obj (setField (setField (spread response) "summary" cached) "holdings"
              (if Analysis.hasHoldings P response then getProp response "holdings"
               else Analysis.previousHoldings wa.state.portfolioData)))
            (Analysis.firstPaint P wa.state.portfolioData wa))) := by
      simp [Analysis.suspectBranch, hrt, hst, hz, strictEqZero, hz0, ha, itemTruthy, hs,
        Analysis.cachedPositive_pos P s cached hparse hpos]
    rw [Analysis.fetchPortfolioData_suspect P response wa _ hsb]
    simp [Analysis.State.summary, Analysis.setLoading, Analysis.setPortfolioData, getProp,
      getField_setField_other, getField_setField_same]
  · intro heq
    obtain ⟨n, hn, hgt⟩ := (hasPositiveTotal_iff cached).1 hpos
    rw [heq, hz] at hn
    cases hn
    rw [isZero_not_gtZero z hz0] at hgt
    cases hgt

theorem suspect_fresh_resolves_to_cached_witness :
    (Home.fetchData samplePlatform false (some (arr [])) (some (responseOf 0 (arr [])))
        null (Home.World.fresh session1000)).2.state.portfolioSummary = summaryOf 1000
    ∧ (Home.fetchData samplePlatform false (some (arr [])) (some (responseOf 0 (arr [])))
        null (Home.World.fresh session1000)).2.state.hasDataRef = true
    ∧ (Analysis.fetchPortfolioData samplePlatform (some (responseOf 0 (arr [])))
        (Analysis.World.fresh session1000)).2.state.summary = summaryOf 1000
    ∧ summaryOf 1000 ≠ getProp (responseOf 0 (arr [])) "summary" :=
  suspect_fresh_resolves_to_cached samplePlatform false (arr []) (responseOf 0 (arr []))
    text1000 (summaryOf 1000) null (Home.World.fresh session1000) (Analysis.World.fresh session1000)
    (by decide) (by simp [samplePlatform])
    (by simp [hasPositiveTotal, summaryOf, getProp, getField, JSNum.gtZero])
    rfl rfl
    (by simp [hasZeroTotal, responseOf, summaryOf, getProp, getField, strictEqZero, JSNum.isZero])

theorem Home.adoptCached_session (P : Platform) (c : Option String) (w : Home.World) :
    (Home.adoptCached P c w).session = w.session ∧ (Home.adoptCached P c w).trace = w.trace := by
  unfold Home.adoptCached
  split
  · split <;> simp [Home.setHasDataRef, Home.setPortfolioSummary]
  · simp

theorem Home.adoptPositiveCached_session (P : Platform) (c : Option String) (w : Home.World) :
    (Home.adoptPositiveCached P c w).2.session = w.session
      ∧ (Home.adoptPositiveCached P c w).2.trace = w.trace := by
  unfold Home.adoptPositiveCached
  split
  · split
    · split <;> simp [Home.setHasDataRef, Home.setPortfolioSummary]
    · simp
  · simp

theorem Home.firstPaint_session (P : Platform) (showLoading : Bool) (ps : JSVal) (w : Home.World) :
    (Home.firstPaint P showLoading ps w).session = w.session
      ∧ (Home.firstPaint P showLoading ps w).trace = w.trace := by
  have h := Home.adoptCached_session P w.session.portfolioSummary w
  simp only [Home.firstPaint]
  split_ifs <;> simp [Home.setLoading, h]

theorem Home.catchBlock_session (P : Platform) (w : Home.World) :
    (Home.catchBlock P w).session = w.session ∧ (Home.catchBlock P w).trace = w.trace := by
  unfold Home.catchBlock
  have h := Home.adoptCached_session P w.session.portfolioSummary
    (Home.setIsInitialLoadRef false (Home.setLoading false w))
  simp only [Home.setIsInitialLoadRef, Home.setLoading] at h ⊢
  split
  · split
    · exact h
    · simp
  · simp

theorem Analysis.firstPaint_keeps_session (P : Platform) (pd : JSVal) (w : Analysis.World) :
    (Analysis.firstPaint P pd w).session = w.session
      ∧ (Analysis.firstPaint P pd w).trace = w.trace := by
  simp only [Analysis.firstPaint, Analysis.restore]
  cases Analysis.cachedPositive P w.session.portfolioSummary <;>
    split_ifs <;> simp [Analysis.setLoading, Analysis.setPortfolioData]

theorem Analysis.catchBlock_keeps_session (P : Platform) (pd : JSVal) (w : Analysis.World) :
    (Analysis.catchBlock P pd w).session = w.session
      ∧ (Analysis.catchBlock P pd w).trace = w.trace := by
  simp only [Analysis.catchBlock]
  cases Analysis.cachedPositive P w.session.portfolioSummary <;>
    split_ifs <;> simp [Analysis.setLoading, Analysis.setPortfolioData]

/-- The holdings the normal case of Analysis.js 106 resolves to. -/
theorem Analysis.normalCase_data (P : Platform) (data : JSVal) (w : Analysis.World)
    (hd : isNullish data = false) :
    (Analysis.normalCase P data w).1 = Completion.normal
    ∧ (Analysis.normalCase P data w).2.state.portfolioData
      = obj (setField (spread data) "holdings"
          (if truthy (getProp data "holdings") then getProp data "holdings" else arr [])) := by
  simp only [Analysis.normalCase, hd, Bool.false_eq_true, ↓reduceIte]
  split_ifs <;>
    simp [Analysis.setLoading, Analysis.setPortfolioData, Analysis.setItemSummary,
      Analysis.setItemHoldings]

theorem Analysis.normalCase_session_pos (P : Platform) (data : JSVal) (w : Analysis.World)
    (hpos : hasPositiveTotal (getProp data "summary") = true) :
    (Analysis.normalCase P data w).2.session.portfolioSummary
      = some (P.stringify (getProp data "summary")) := by
  obtain ⟨n, hn, hgt⟩ := (hasPositiveTotal_iff _).1 hpos
  obtain ⟨hrt, hst⟩ := truthy_of_summary_total data n hn
  have hd : isNullish data = false := by cases data <;> simp_all [isNullish, truthy]
  simp only [Analysis.normalCase, hd, hrt, hst, hn, typeofNumber, jsGtZero, hgt,
    Bool.false_eq_true, Bool.and_self, ↓reduceIte]
  split_ifs <;>
    simp [Analysis.setLoading, Analysis.setPortfolioData, Analysis.setItemSummary,
      Analysis.setItemHoldings]

theorem Analysis.normalCase_session_nonpos (P : Platform) (data : JSVal) (w : Analysis.World)
    (hpos : hasPositiveTotal (getProp data "summary") = false) :
    (Analysis.normalCase P data w).2.session = w.session
    ∧ (Analysis.normalCase P data w).2.trace = w.trace := by
  have hc : (truthy data && truthy (getProp data "summary")
      && typeofNumber (getProp (getProp data "summary") "total_equity")
      && jsGtZero P (getProp (getProp data "summary") "total_equity")) = false := by
    unfold hasPositiveTotal at hpos
    cases hte : getProp (getProp data "summary") "total_equity" <;>
      simp_all [typeofNumber, jsGtZero]
  simp only [Analysis.normalCase, hc, Bool.false_eq_true, ↓reduceIte]
  split_ifs <;> simp [Analysis.setLoading, Analysis.setPortfolioData]

/-- C2: when the backend answers with a summary whose `total_equity` is a
number greater than 0, then for every cached value and in-memory state
`Home.fetchData` and `Analysis.fetchPortfolioData` display that fresh summary
and leave under `portfolioSummary` in sessionStorage its serialisation. -/
theorem fresh_positive_wins (P : Platform) (showLoading : Bool)
    (transactionsData response : JSVal) (captured : JSVal) (wh : Home.World) (wa : Analysis.World)
    (hpos : hasPositiveTotal (getProp response "summary") = true) :
    (Home.fetchData P showLoading (some transactionsData) (some response)
      captured wh).2.state.portfolioSummary
        = getProp response "summary"
    ∧ (Home.fetchData P showLoading (some transactionsData) (some response)
        captured wh).2.session.portfolioSummary
        = some (P.stringify (getProp response "summary"))
    ∧ (Analysis.fetchPortfolioData P (some response) wa).2.state.summary
        = getProp response "summary"
    ∧ (Analysis.fetchPortfolioData P (some response) wa).2.session.portfolioSummary
        = some (P.stringify (getProp response "summary")) := by
  obtain ⟨n, hn, hgt⟩ := (hasPositiveTotal_iff _).1 hpos
  obtain ⟨hrt, hst⟩ := truthy_of_summary_total response n hn
  have hnz := gtZero_not_isZero n hgt
  have hnn := gtZero_not_isNaN n hgt
  have hhome : ∀ w : Home.World,
      Home.afterResponse P captured wh.session.portfolioSummary
          transactionsData response w
        = Home.setIsInitialLoadRef false (Home.setLoading false
            (Home.setHasDataRef true (Home.setItemSummary (P.stringify (getProp response "summary"))
              (Home.setPortfolioSummary (getProp response "summary")
                (Home.setTransactions
                  (if isArray transactionsData then transactionsData else arr []) w))))) := by
    intro w
    simp [Home.afterResponse, Home.resolve, hrt, hst, Home.withSummary, hn, typeofNumber, notNaN, strictEqZero,
      hnz, hnn, jsGtZero, hgt]
  have hobj : ∃ fs, response = obj fs := by
    cases response <;> simp_all [getProp, truthy]
  obtain ⟨fs, rfl⟩ := hobj
  have hsb : Analysis.suspectBranch P wa.state.portfolioData wa.session.portfolioSummary (obj fs)
      (Analysis.firstPaint P wa.state.portfolioData wa) = none := by
    simp [Analysis.suspectBranch, hn, strictEqZero, hnz]
  refine ⟨?_, ?_, ?_, ?_⟩
  · rw [Home.fetchData_ok, hhome]
    rfl
  · rw [Home.fetchData_ok, hhome]
    rfl
  · rw [Analysis.fetchPortfolioData_normal P _ wa hsb rfl, Analysis.State.summary,
      (Analysis.normalCase_data P (obj fs) _ rfl).2]
    simp [getProp, spread, getField_setField_other]
  · rw [Analysis.fetchPortfolioData_normal P _ wa hsb rfl]
    exact Analysis.normalCase_session_pos P _ _ hpos

theorem fresh_positive_wins_witness :
    (Home.fetchData samplePlatform false (some (arr [])) (some (responseOf 1500 (arr [])))
        null (Home.World.fresh session1000)).2.state.portfolioSummary
      = getProp (responseOf 1500 (arr [])) "summary"
    ∧ (Home.fetchData samplePlatform false (some (arr [])) (some (responseOf 1500 (arr [])))
        null (Home.World.fresh session1000)).2.session.portfolioSummary
      = some (samplePlatform.stringify (getProp (responseOf 1500 (arr [])) "summary"))
    ∧ (Analysis.fetchPortfolioData samplePlatform (some (responseOf 1500 (arr [])))
        (Analysis.World.fresh session1000)).2.state.summary
      = getProp (responseOf 1500 (arr [])) "summary"
    ∧ (Analysis.fetchPortfolioData samplePlatform (some (responseOf 1500 (arr [])))
        (Analysis.World.fresh session1000)).2.session.portfolioSummary
      = some (samplePlatform.stringify (getProp (responseOf 1500 (arr [])) "summary")) :=
  fresh_positive_wins samplePlatform false (arr []) (responseOf 1500 (arr [])) null
    (Home.World.fresh session1000) (Analysis.World.fresh session1000)
    (by simp [hasPositiveTotal, responseOf, summaryOf, getProp, getField, JSNum.gtZero])

theorem jsGtZero_of_not_positive (P : Platform) (v : JSVal)
    (hpos : hasPositiveTotal v = false)
    (hnum : typeofNumber (getProp v "total_equity") = true) :
    jsGtZero P (getProp v "total_equity") = false := by
  unfold hasPositiveTotal at hpos
  cases hte : getProp v "total_equity" <;> simp_all [typeofNumber, jsGtZero]

theorem Home.withSummary_session_nonpos (P : Platform) (ps : JSVal) (c : Option String)
    (summary : JSVal) (w : Home.World) (hpos : hasPositiveTotal summary = false) :
    (Home.withSummary P ps c summary w).session = w.session
    ∧ (Home.withSummary P ps c summary w).trace = w.trace := by
  have h1 := Home.adoptPositiveCached_session P c w
  have h2 := Home.adoptCached_session P c w
  simp only [Home.withSummary]
  split_ifs with ha hb hc hd he hf
  · simpa [Home.setHasDataRef] using h1
  · simpa [Home.setPortfolioSummary] using h1
  · exact h1
  · simp only [Bool.and_eq_true] at ha
    rw [jsGtZero_of_not_positive P summary hpos ha.1] at he
    cases he
  · simp [Home.setHasDataRef, Home.setPortfolioSummary]
  · exact h2
  · simp

theorem Home.bareSummary_session_nonpos (P : Platform) (ps : JSVal) (c : Option String)
    (pd : JSVal) (w : Home.World) (hpos : hasPositiveTotal pd = false)
    (hnum : typeofNumber (getProp pd "total_equity") = true) :
    (Home.bareSummary P ps c pd w).session = w.session
    ∧ (Home.bareSummary P ps c pd w).trace = w.trace := by
  have h1 := Home.adoptPositiveCached_session P c w
  simp only [Home.bareSummary]
  split_ifs with hb hc hd he
  · simpa [Home.setHasDataRef] using h1
  · simpa [Home.setPortfolioSummary, Home.setHasDataRef] using h1
  · exact h1
  · rw [jsGtZero_of_not_positive P pd hpos hnum] at he
    cases he
  · simp [Home.setHasDataRef, Home.setPortfolioSummary]

theorem Home.resolve_session_nonpos (P : Platform) (ps : JSVal) (c : Option String)
    (pd : JSVal) (w : Home.World) (hpos : hasPositiveTotal (Home.freshSummary pd) = false) :
    (Home.resolve P ps c pd w).session = w.session
    ∧ (Home.resolve P ps c pd w).trace = w.trace := by
  simp only [Home.resolve, Home.freshSummary] at hpos ⊢
  split_ifs at hpos ⊢ with ha hb hc
  · exact Home.withSummary_session_nonpos P ps c _ w hpos
  · simp only [Bool.and_eq_true] at hb
    exact Home.bareSummary_session_nonpos P ps c _ w hpos hb.1.2
  · exact Home.adoptCached_session P c w
  · simp

theorem Home.afterResponse_session_nonpos (P : Platform) (ps : JSVal) (c : Option String)
    (tx pd : JSVal) (w : Home.World) (hpos : hasPositiveTotal (Home.freshSummary pd) = false) :
    (Home.afterResponse P ps c tx pd w).session = w.session
    ∧ (Home.afterResponse P ps c tx pd w).trace = w.trace := by
  simpa [Home.afterResponse, Home.setIsInitialLoadRef, Home.setLoading, Home.setTransactions] using
    Home.resolve_session_nonpos P ps c pd
      (Home.setTransactions (if isArray tx then tx else arr []) w) hpos

theorem Analysis.suspectBranch_shape (P : Platform) (pd : JSVal) (c : Option String)
    (data : JSVal) (w w3 : Analysis.World)
    (h : Analysis.suspectBranch P pd c data w = some w3) :
    ∃ v, w3 = Analysis.setLoading false (Analysis.setPortfolioData v w) := by
  simp only [Analysis.suspectBranch] at h
  split at h
  · split at h
    · cases h
      exact ⟨_, rfl⟩
    · split at h
      · cases h
        exact ⟨_, rfl⟩
      · cases h
  · cases h

theorem Analysis.suspectBranch_session (P : Platform) (pd : JSVal) (c : Option String)
    (data : JSVal) (w w3 : Analysis.World)
    (h : Analysis.suspectBranch P pd c data w = some w3) :
    w3.session = w.session ∧ w3.trace = w.trace := by
  obtain ⟨v, rfl⟩ := Analysis.suspectBranch_shape P pd c data w w3 h
  simp [Analysis.setLoading, Analysis.setPortfolioData]

/-- C3: in every run of `Home.fetchData` or `Analysis.fetchPortfolioData` in
which the backend call fails, or the fresh summary has no `total_equity` that
is a number greater than 0 (it is `<= 0`, NaN or not a number), sessionStorage
is exactly what it was before the run and the run performs no storage
mutation. -/
theorem no_write_without_positive_fresh (P : Platform) (showLoading : Bool)
    (transactionsResult portfolioResult response : Option JSVal)
    (captured : JSVal) (wh : Home.World) (wa : Analysis.World)
    (hh : promiseAll transactionsResult portfolioResult = none
      ∨ ∃ tx pd, transactionsResult = some tx ∧ portfolioResult = some pd
          ∧ hasPositiveTotal (Home.freshSummary pd) = false)
    (ha : response = none
      ∨ ∃ data, response = some data ∧ hasPositiveTotal (getProp data "summary") = false) :
    (Home.fetchData P showLoading transactionsResult portfolioResult
      captured wh).2.session = wh.session
    ∧ (Home.fetchData P showLoading transactionsResult portfolioResult
        captured wh).2.trace = wh.trace
    ∧ (Analysis.fetchPortfolioData P response wa).2.session = wa.session
    ∧ (Analysis.fetchPortfolioData P response wa).2.trace = wa.trace := by
  have hfp := Home.firstPaint_session P showLoading captured wh
  have hfa := Analysis.firstPaint_keeps_session P wa.state.portfolioData wa
  have hhome : (Home.fetchData P showLoading transactionsResult portfolioResult
                 captured wh).2.session
        = wh.session
      ∧ (Home.fetchData P showLoading transactionsResult portfolioResult captured wh).2.trace
        = wh.trace := by
    rcases hh with hfail | ⟨tx, pd, rfl, rfl, hnp⟩
    · rw [Home.fetchData_fail P showLoading _ _ _ wh hfail]
      have := Home.catchBlock_session P (Home.firstPaint P showLoading captured wh)
      exact ⟨this.1.trans hfp.1, this.2.trans hfp.2⟩
    · rw [Home.fetchData_ok]
      have := Home.afterResponse_session_nonpos P captured
        wh.session.portfolioSummary tx pd
        (Home.firstPaint P showLoading captured wh) hnp
      exact ⟨this.1.trans hfp.1, this.2.trans hfp.2⟩
  have hana : (Analysis.fetchPortfolioData P response wa).2.session = wa.session
      ∧ (Analysis.fetchPortfolioData P response wa).2.trace = wa.trace := by
    have hcatch := Analysis.catchBlock_keeps_session P wa.state.portfolioData
      (Analysis.firstPaint P wa.state.portfolioData wa)
    rcases ha with rfl | ⟨data, rfl, hnp⟩
    · rw [Analysis.fetchPortfolioData_fail]
      exact ⟨hcatch.1.trans hfa.1, hcatch.2.trans hfa.2⟩
    · cases hsb : Analysis.suspectBranch P wa.state.portfolioData wa.session.portfolioSummary
          data (Analysis.firstPaint P wa.state.portfolioData wa) with
      | some w3 =>
        rw [Analysis.fetchPortfolioData_suspect P data wa w3 hsb]
        have := Analysis.suspectBranch_session P _ _ _ _ _ hsb
        exact ⟨this.1.trans hfa.1, this.2.trans hfa.2⟩
      | none =>
        cases hd : isNullish data with
        | true =>
          rw [Analysis.fetchPortfolioData_null P data wa hd]
          exact ⟨hcatch.1.trans hfa.1, hcatch.2.trans hfa.2⟩
        | false =>
          rw [Analysis.fetchPortfolioData_normal P data wa hsb hd]
          have := Analysis.normalCase_session_nonpos P data
            (Analysis.firstPaint P wa.state.portfolioData wa) hnp
          exact ⟨this.1.trans hfa.1, this.2.trans hfa.2⟩
  exact ⟨hhome.1, hhome.2, hana.1, hana.2⟩

theorem no_write_without_positive_fresh_witness :
    (Home.fetchData samplePlatform false none (some (responseOf 1500 (arr [])))
        null (Home.World.fresh session1000)).2.session = (Home.World.fresh session1000).session
    ∧ (Home.fetchData samplePlatform false none (some (responseOf 1500 (arr [])))
        null (Home.World.fresh session1000)).2.trace = (Home.World.fresh session1000).trace
    ∧ (Analysis.fetchPortfolioData samplePlatform (some (responseOf 0 holdingsBTC))
        (Analysis.World.fresh session1000)).2.session = (Analysis.World.fresh session1000).session
    ∧ (Analysis.fetchPortfolioData samplePlatform (some (responseOf 0 holdingsBTC))
        (Analysis.World.fresh session1000)).2.trace = (Analysis.World.fresh session1000).trace :=
  no_write_without_positive_fresh samplePlatform false none (some (responseOf 1500 (arr [])))
    (some (responseOf 0 holdingsBTC)) null (Home.World.fresh session1000)
    (Analysis.World.fresh session1000) (Or.inl rfl)
    (Or.inr ⟨responseOf 0 holdingsBTC, rfl,
      by simp [hasPositiveTotal, responseOf, summaryOf, getProp, getField, JSNum.gtZero]⟩)

theorem truthy_null : truthy null = false := rfl

theorem Home.adoptCached_numeric (P : Platform) (s : String) (cached : JSVal) (n : JSNum)
    (w : Home.World) (hparse : P.parse s = some cached)
    (hn : getProp cached "total_equity" = num n) :
    Home.adoptCached P (some s) w
      = Home.setHasDataRef true (Home.setPortfolioSummary cached w) := by
  have ht := truthy_of_total_equity_num cached n hn
  simp [Home.adoptCached, parseItem, hparse, ht, hn, typeofNumber]

/-- C4: on a cold start (no cached summary, no summary in memory, `hasDataRef`
false) with a backend summary whose `total_equity` is 0, `Home.fetchData` and
`Analysis.fetchPortfolioData` display the fresh zero summary as it is,
sessionStorage is unchanged (so still without a summary), and Home leaves
`hasDataRef` false. -/
theorem cold_start_zero_adopts_fresh (P : Platform) (showLoading : Bool)
    (transactionsData response : JSVal) (wh : Home.World) (wa : Analysis.World)
    (hhc : wh.session.portfolioSummary = none) (hhm : wh.state.portfolioSummary = null)
    (hhf : wh.state.hasDataRef = false)
    (hac : wa.session.portfolioSummary = none) (ham : wa.state.portfolioData = null)
    (hzero : hasZeroTotal (getProp response "summary") = true) :
    (Home.fetchData P showLoading (some transactionsData) (some response)
      wh.state.portfolioSummary wh).2.state.portfolioSummary
        = getProp response "summary"
    ∧ (Home.fetchData P showLoading (some transactionsData) (some response)
        wh.state.portfolioSummary wh).2.session
        = wh.session
    ∧ (Home.fetchData P showLoading (some transactionsData) (some response)
        wh.state.portfolioSummary wh).2.state.hasDataRef
        = false
    ∧ (Analysis.fetchPortfolioData P (some response) wa).2.state.summary
        = getProp response "summary"
    ∧ (Analysis.fetchPortfolioData P (some response) wa).2.session = wa.session := by
  obtain ⟨z, hz, hz0⟩ := (hasZeroTotal_iff _).1 hzero
  obtain ⟨hrt, hst⟩ := truthy_of_summary_total response z hz
  have hnp : hasPositiveTotal (getProp response "summary") = false := by
    simp [hasPositiveTotal, hz, isZero_not_gtZero z hz0]
  have hfs : Home.freshSummary response = getProp response "summary" := by
    simp [Home.freshSummary, hrt, hst]
  have hfp : Home.firstPaint P showLoading wh.state.portfolioSummary wh
      = if showLoading || wh.state.isInitialLoadRef then Home.setLoading true wh else wh := by
    simp [Home.firstPaint, hhc, itemTruthy]
  have hhome : ∀ w : Home.World,
      Home.afterResponse P null none transactionsData response w
        = Home.setIsInitialLoadRef false (Home.setLoading false
            (Home.setPortfolioSummary (getProp response "summary")
              (Home.setTransactions
                (if isArray transactionsData then transactionsData else arr []) w))) := by
    intro w
    simp [Home.afterResponse, Home.resolve, hrt, hst, Home.withSummary, hz, typeofNumber, notNaN,
      strictEqZero, hz0, isZero_not_isNaN z hz0, Home.adoptPositiveCached, itemTruthy,
      truthy_null]
  have hobj : ∃ fs, response = obj fs := by
    cases response <;> simp_all [getProp, truthy]
  obtain ⟨fs, rfl⟩ := hobj
  have hsb : Analysis.suspectBranch P wa.state.portfolioData wa.session.portfolioSummary (obj fs)
      (Analysis.firstPaint P wa.state.portfolioData wa) = none := by
    simp [Analysis.suspectBranch, hac, ham, itemTruthy, truthy_null]
  have hfa := Analysis.firstPaint_keeps_session P wa.state.portfolioData wa
  refine ⟨?_, ?_, ?_, ?_, ?_⟩
  · rw [Home.fetchData_ok, hhm, hhc, hhome]
    rfl
  · rw [Home.fetchData_ok]
    exact (Home.afterResponse_session_nonpos P _ _ _ _ _ (hfs ▸ hnp)).1.trans
      (Home.firstPaint_session P showLoading _ wh).1
  · rw [Home.fetchData_ok, hhm, hhc, hhome, ← hhm, hfp]
    split_ifs <;> simp [Home.setIsInitialLoadRef, Home.setLoading, Home.setPortfolioSummary,
      Home.setTransactions, hhf]
  · rw [Analysis.fetchPortfolioData_normal P _ wa hsb rfl, Analysis.State.summary,
      (Analysis.normalCase_data P (obj fs) _ rfl).2]
    simp [getProp, spread, getField_setField_other]
  · rw [Analysis.fetchPortfolioData_normal P _ wa hsb rfl]
    exact (Analysis.normalCase_session_nonpos P _ _ hnp).1.trans hfa.1

theorem cold_start_zero_adopts_fresh_witness :
    (Home.fetchData samplePlatform true (some (arr [])) (some (responseOf 0 (arr [])))
        null (Home.World.fresh sessionEmpty)).2.state.portfolioSummary
      = getProp (responseOf 0 (arr [])) "summary"
    ∧ (Home.fetchData samplePlatform true (some (arr [])) (some (responseOf 0 (arr [])))
        null (Home.World.fresh sessionEmpty)).2.session = (Home.World.fresh sessionEmpty).session
    ∧ (Home.fetchData samplePlatform true (some (arr [])) (some (responseOf 0 (arr [])))
        null (Home.World.fresh sessionEmpty)).2.state.hasDataRef = false
    ∧ (Analysis.fetchPortfolioData samplePlatform (some (responseOf 0 (arr [])))
        (Analysis.World.fresh sessionEmpty)).2.state.summary
      = getProp (responseOf 0 (arr [])) "summary"
    ∧ (Analysis.fetchPortfolioData samplePlatform (some (responseOf 0 (arr [])))
        (Analysis.World.fresh sessionEmpty)).2.session
      = (Analysis.World.fresh sessionEmpty).session :=
  cold_start_zero_adopts_fresh samplePlatform true (arr []) (responseOf 0 (arr []))
    (Home.World.fresh sessionEmpty) (Analysis.World.fresh sessionEmpty) rfl rfl rfl rfl rfl
    (by simp [hasZeroTotal, responseOf, summaryOf, getProp, getField, strictEqZero, JSNum.isZero])

/-- C5: when the backend call throws, the store holds a summary with
`total_equity > 0` and there is no summary in memory, `Home.fetchData` and
`Analysis.fetchPortfolioData` complete normally (the rejection does not reach
the caller) and display the cached summary; Home sets `hasDataRef`. -/
theorem backend_failure_falls_back_to_cache (P : Platform) (showLoading : Bool)
    (transactionsResult portfolioResult : Option JSVal) (s : String) (cached : JSVal)
    (wh : Home.World) (wa : Analysis.World)
    (hfail : promiseAll transactionsResult portfolioResult = none)
    (hs : s ≠ "") (hparse : P.parse s = some cached) (hpos : hasPositiveTotal cached = true)
    (hh : wh.session.portfolioSummary = some s) (hhm : wh.state.portfolioSummary = null)
    (ha : wa.session.portfolioSummary = some s) (ham : wa.state.portfolioData = null) :
    (Home.fetchData P showLoading transactionsResult portfolioResult
      wh.state.portfolioSummary wh).1 = Completion.normal
    ∧ (Home.fetchData P showLoading transactionsResult portfolioResult
        wh.state.portfolioSummary wh).2.state.portfolioSummary
        = cached
    ∧ (Home.fetchData P showLoading transactionsResult portfolioResult
        wh.state.portfolioSummary wh).2.state.hasDataRef
        = true
    ∧ (Analysis.fetchPortfolioData P none wa).1 = Completion.normal
    ∧ (Analysis.fetchPortfolioData P none wa).2.state.summary = cached := by
  obtain ⟨n, hn, hgt⟩ := (hasPositiveTotal_iff cached).1 hpos
  have hfp : Home.firstPaint P showLoading wh.state.portfolioSummary wh
      = if showLoading || wh.state.isInitialLoadRef then
          Home.setLoading true (Home.setHasDataRef true (Home.setPortfolioSummary cached wh))
        else Home.setHasDataRef true (Home.setPortfolioSummary cached wh) := by
    simp [Home.firstPaint, hh, hhm, itemTruthy, hs, truthy_null,
      Home.adoptCached_numeric P s cached n _ hparse hn]
  have hcatch : Home.catchBlock P (Home.firstPaint P showLoading wh.state.portfolioSummary wh)
      = Home.setIsInitialLoadRef false (Home.setLoading false
          (Home.firstPaint P showLoading wh.state.portfolioSummary wh)) := by
    rw [hfp]
    split_ifs <;>
      simp [Home.catchBlock, Home.setIsInitialLoadRef, Home.setLoading, Home.setHasDataRef,
        Home.setPortfolioSummary]
  have hfa := Analysis.firstPaint_keeps_session P wa.state.portfolioData wa
  rw [ham] at hfa
  have hca : Analysis.catchBlock P wa.state.portfolioData
        (Analysis.firstPaint P wa.state.portfolioData wa)
      = Analysis.setLoading false (Analysis.setPortfolioData
          (obj [("summary", cached), ("holdings", arr [])])
          (Analysis.firstPaint P wa.state.portfolioData wa)) := by
    simp [Analysis.catchBlock, hfa.1, ha, ham, itemTruthy, hs, truthy_null,
      Analysis.cachedPositive_pos P s cached hparse hpos]
  refine ⟨?_, ?_, ?_, ?_, ?_⟩
  · rw [Home.fetchData_fail P showLoading _ _ _ wh hfail]
  · rw [Home.fetchData_fail P showLoading _ _ _ wh hfail, hcatch, hfp]
    split_ifs <;> rfl
  · rw [Home.fetchData_fail P showLoading _ _ _ wh hfail, hcatch, hfp]
    split_ifs <;> rfl
  · rw [Analysis.fetchPortfolioData_fail]
  · rw [Analysis.fetchPortfolioData_fail, hca]
    simp [Analysis.State.summary, Analysis.setLoading, Analysis.setPortfolioData, getProp,
      getField]

theorem backend_failure_falls_back_to_cache_witness :
    (Home.fetchData samplePlatform true (some (arr [])) none
        null (Home.World.fresh session1000)).1 = Completion.normal
    ∧ (Home.fetchData samplePlatform true (some (arr [])) none
        null (Home.World.fresh session1000)).2.state.portfolioSummary = summaryOf 1000
    ∧ (Home.fetchData samplePlatform true (some (arr [])) none
        null (Home.World.fresh session1000)).2.state.hasDataRef = true
    ∧ (Analysis.fetchPortfolioData samplePlatform none
        (Analysis.World.fresh session1000)).1 = Completion.normal
    ∧ (Analysis.fetchPortfolioData samplePlatform none
        (Analysis.World.fresh session1000)).2.state.summary = summaryOf 1000 :=
  backend_failure_falls_back_to_cache samplePlatform true (some (arr [])) none text1000
    (summaryOf 1000) (Home.World.fresh session1000) (Analysis.World.fresh session1000)
    rfl (by decide) (by simp [samplePlatform])
    (by simp [hasPositiveTotal, summaryOf, getProp, getField, JSNum.gtZero])
    rfl rfl rfl rfl

/-- C6, as stated, fails: the response `{summary: {total_equity: 1500},
holdings: []}` arrives while the screen shows a one-row holdings list, and
`Analysis.fetchPortfolioData` resolves the holdings to the empty list, not to
the previous one. -/
theorem fresh_positive_empty_holdings_not_retained :
    hasPositiveTotal (getProp (responseOf 1500 (arr [])) "summary") = true
    ∧ getProp (responseOf 1500 (arr [])) "holdings" = arr []
    ∧ analysisShowing1000.state.holdings = holdingsBTC
    ∧ (Analysis.fetchPortfolioData samplePlatform (some (responseOf 1500 (arr [])))
        analysisShowing1000).2.state.holdings = arr []
    ∧ (Analysis.fetchPortfolioData samplePlatform (some (responseOf 1500 (arr [])))
        analysisShowing1000).2.state.holdings ≠ analysisShowing1000.state.holdings := by
  have h4 : (Analysis.fetchPortfolioData samplePlatform (some (responseOf 1500 (arr [])))
        analysisShowing1000).2.state.holdings = arr [] := by
    simp [Analysis.fetchPortfolioData, Analysis.tryBlock, Analysis.suspectBranch,
      Analysis.normalCase, Analysis.firstPaint, analysisShowing1000, responseOf, summaryOf,
      getProp, getField, setField, spread, truthy, strictEqZero, JSNum.isZero, isNullish,
      typeofNumber, jsGtZero, JSNum.gtZero, Analysis.State.holdings, Analysis.setLoading,
      Analysis.setPortfolioData, Analysis.setItemSummary, Analysis.setItemHoldings, itemTruthy,
      session1000]
  refine ⟨?_, ?_, ?_, h4, ?_⟩
  · simp [hasPositiveTotal, responseOf, summaryOf, getProp, getField, JSNum.gtZero]
  · simp [responseOf, getProp, getField]
  · simp [analysisShowing1000, Analysis.State.holdings, responseOf, getProp, getField]
  · rw [h4]
    simp [analysisShowing1000, Analysis.State.holdings, responseOf, getProp, getField, holdingsBTC]

/-- C6, amended: in `Analysis.fetchPortfolioData`, for every backend response
with summary `total_equity > 0` whose `holdings` is a list, the resolved
holdings are that list, also when it is empty, whatever the holdings in memory
were. -/
theorem fresh_positive_takes_backend_holdings (P : Platform) (response : JSVal) (items : List JSVal) (wa : Analysis.World)
    (hpos : hasPositiveTotal (getProp response "summary") = true)
    (hh : getProp response "holdings" = arr items) :
    (Analysis.fetchPortfolioData P (some response) wa).2.state.holdings = arr items := by
  obtain ⟨n, hn, hgt⟩ := (hasPositiveTotal_iff _).1 hpos
  obtain ⟨hrt, hst⟩ := truthy_of_summary_total response n hn
  have hnz := gtZero_not_isZero n hgt
  have hobj : ∃ fs, response = obj fs := by
    cases response <;> simp_all [getProp, truthy]
  obtain ⟨fs, rfl⟩ := hobj
  have hsb : Analysis.suspectBranch P wa.state.portfolioData wa.session.portfolioSummary (obj fs)
      (Analysis.firstPaint P wa.state.portfolioData wa) = none := by
    simp [Analysis.suspectBranch, hn, strictEqZero, hnz]
  rw [Analysis.fetchPortfolioData_normal P _ wa hsb rfl, Analysis.State.holdings,
    (Analysis.normalCase_data P (obj fs) _ rfl).2, hh]
  simp [getProp, getField_setField_same, truthy]

theorem fresh_positive_takes_backend_holdings_witness :
    (Analysis.fetchPortfolioData samplePlatform (some (responseOf 1500 (arr [])))
        analysisShowing1000).2.state.holdings = arr [] :=
  fresh_positive_takes_backend_holdings samplePlatform (responseOf 1500 (arr [])) []
    analysisShowing1000
    (by simp [hasPositiveTotal, responseOf, summaryOf, getProp, getField, JSNum.gtZero])
    (by simp [responseOf, getProp, getField])

theorem Home.adoptCached_shape (P : Platform) (c : Option String) :
    (∀ w, Home.adoptCached P c w = w)
    ∨ ∃ v, ∀ w, Home.adoptCached P c w = Home.setHasDataRef true (Home.setPortfolioSummary v w) := by
  unfold Home.adoptCached
  cases parseItem P c with
  | none => exact Or.inl (fun _ => rfl)
  | some parsed =>
    by_cases h : (truthy parsed && typeofNumber (getProp parsed "total_equity")) = true
    · exact Or.inr ⟨parsed, fun w => by simp [h]⟩
    · exact Or.inl (fun w => by simp [h])

theorem Home.adoptPositiveCached_shape (P : Platform) (c : Option String) :
    (∀ w, Home.adoptPositiveCached P c w = (false, w))
    ∨ ∃ v, ∀ w, Home.adoptPositiveCached P c w
        = (true, Home.setHasDataRef true (Home.setPortfolioSummary v w)) := by
  unfold Home.adoptPositiveCached
  by_cases hc : itemTruthy c = true
  · cases parseItem P c with
    | none => exact Or.inl (fun _ => by simp [hc])
    | some parsed =>
      by_cases h : (truthy parsed && typeofNumber (getProp parsed "total_equity")
          && jsGtZero P (getProp parsed "total_equity")) = true
      · exact Or.inr ⟨parsed, fun w => by simp [hc, h]⟩
      · exact Or.inl (fun w => by simp [hc, h])
  · exact Or.inl (fun _ => by simp [hc])

theorem Home.adoptCached_unusable (P : Platform) (s : String) (hbad : unusableText P s)
    (w : Home.World) : Home.adoptCached P (some s) w = w := by
  rcases hbad with h | ⟨v, h, hv⟩ <;> simp [Home.adoptCached, parseItem, h, *]

theorem Home.adoptPositiveCached_unusable (P : Platform) (s : String) (hbad : unusableText P s)
    (w : Home.World) : Home.adoptPositiveCached P (some s) w = (false, w) := by
  rcases hbad with h | ⟨v, h, hv⟩ <;> simp [Home.adoptPositiveCached, parseItem, h, *]

theorem Home.adoptCached_none (P : Platform) (w : Home.World) :
    Home.adoptCached P none w = w := by
  simp [Home.adoptCached, parseItem]

theorem Home.adoptPositiveCached_none (P : Platform) (w : Home.World) :
    Home.adoptPositiveCached P none w = (false, w) := by
  simp [Home.adoptPositiveCached, itemTruthy]

/-- With an unusable text in the store the arbitration runs as with no text. -/
theorem Home.resolve_unusable (P : Platform) (s : String) (hbad : unusableText P s)
    (ps pd : JSVal) (w : Home.World) :
    Home.resolve P ps (some s) pd w = Home.resolve P ps none pd w := by
  simp [Home.resolve, Home.withSummary, Home.bareSummary, Home.adoptCached_unusable P s hbad,
    Home.adoptPositiveCached_unusable P s hbad, Home.adoptCached_none,
    Home.adoptPositiveCached_none, itemTruthy]

theorem Home.sameView_setPortfolioSummary (x : JSVal) (w v : Home.World) (h : w.sameView v) :
    (Home.setPortfolioSummary x w).sameView (Home.setPortfolioSummary x v) := by
  obtain ⟨h1, h2, h3⟩ := h
  exact ⟨by simp [Home.setPortfolioSummary, h1], h2, h3⟩

theorem Home.sameView_setHasDataRef (b : Bool) (w v : Home.World) (h : w.sameView v) :
    (Home.setHasDataRef b w).sameView (Home.setHasDataRef b v) := by
  obtain ⟨h1, h2, h3⟩ := h
  exact ⟨by simp [Home.setHasDataRef, h1], h2, h3⟩

theorem Home.sameView_setLoading (b : Bool) (w v : Home.World) (h : w.sameView v) :
    (Home.setLoading b w).sameView (Home.setLoading b v) := by
  obtain ⟨h1, h2, h3⟩ := h
  exact ⟨by simp [Home.setLoading, h1], h2, h3⟩

theorem Home.sameView_setIsInitialLoadRef (b : Bool) (w v : Home.World) (h : w.sameView v) :
    (Home.setIsInitialLoadRef b w).sameView (Home.setIsInitialLoadRef b v) := by
  obtain ⟨h1, h2, h3⟩ := h
  exact ⟨by simp [Home.setIsInitialLoadRef, h1], h2, h3⟩

theorem Home.sameView_setTransactions (x : JSVal) (w v : Home.World) (h : w.sameView v) :
    (Home.setTransactions x w).sameView (Home.setTransactions x v) := by
  obtain ⟨h1, h2, h3⟩ := h
  exact ⟨by simp [Home.setTransactions, h1], h2, h3⟩

theorem Home.sameView_setItem (w v : Home.World) (h : w.sameView v) (x : String) :
    (Home.setItemSummary x w).sameView (Home.setItemSummary x v) := by
  obtain ⟨h1, h2, h3⟩ := h
  exact ⟨h1, by simp [Home.setItemSummary, h2], h3⟩

theorem Home.resolve_sameView (P : Platform) (ps : JSVal) (c : Option String) (pd : JSVal)
    (w v : Home.World) (h : w.sameView v) :
    (Home.resolve P ps c pd w).sameView (Home.resolve P ps c pd v) := by
  have hd : w.state.hasDataRef = v.state.hasDataRef := by rw [h.1]
  have hsp := Home.sameView_setPortfolioSummary
  have hsd := Home.sameView_setHasDataRef true
  have hac : (Home.adoptCached P c w).sameView (Home.adoptCached P c v) := by
    rcases Home.adoptCached_shape P c with hs | ⟨x, hs⟩
    · rw [hs, hs]; exact h
    · rw [hs, hs]; exact hsd _ _ (hsp x _ _ h)
  have hap : (Home.adoptPositiveCached P c w).1 = (Home.adoptPositiveCached P c v).1
      ∧ (Home.adoptPositiveCached P c w).2.sameView (Home.adoptPositiveCached P c v).2 := by
    rcases Home.adoptPositiveCached_shape P c with hs | ⟨x, hs⟩
    · rw [hs, hs]; exact ⟨rfl, h⟩
    · rw [hs, hs]; exact ⟨rfl, hsd _ _ (hsp x _ _ h)⟩
  simp only [Home.resolve, Home.withSummary, Home.bareSummary, hd, hap.1]
  split_ifs <;>
    first
      | exact h
      | exact hac
      | exact hap.2
      | exact hsd _ _ hap.2
      | exact hsp _ _ _ hap.2
      | exact hsd _ _ (hsp _ _ _ hap.2)
      | exact hsd _ _ (hsp _ _ _ h)
      | exact hsd _ _ (Home.sameView_setItem _ _ (hsp _ _ _ h) _)

theorem Home.afterResponse_sameView (P : Platform) (ps : JSVal) (c : Option String) (tx pd : JSVal)
    (w v : Home.World) (h : w.sameView v) :
    (Home.afterResponse P ps c tx pd w).sameView (Home.afterResponse P ps c tx pd v) := by
  simp only [Home.afterResponse]
  apply Home.sameView_setIsInitialLoadRef
  apply Home.sameView_setLoading
  apply Home.resolve_sameView
  exact Home.sameView_setTransactions _ _ _ h

theorem Home.firstPaint_unusable (P : Platform) (s : String) (hbad : unusableText P s)
    (showLoading : Bool) (ps : JSVal) (w v : Home.World) (h : w.sameView v)
    (hw : w.session.portfolioSummary = some s) (hv : v.session.portfolioSummary = none) :
    (Home.firstPaint P showLoading ps w).sameView (Home.firstPaint P showLoading ps v) := by
  have hi : w.state.isInitialLoadRef = v.state.isInitialLoadRef := by rw [h.1]
  simp only [Home.firstPaint, hw, hv, Home.adoptCached_unusable P s hbad, Home.adoptCached_none,
    ite_self, hi]
  split_ifs
  · exact Home.sameView_setLoading _ _ _ h
  · exact h

theorem Home.catchBlock_unusable (P : Platform) (s : String) (hbad : unusableText P s)
    (w v : Home.World) (h : w.sameView v)
    (hw : w.session.portfolioSummary = some s) (hv : v.session.portfolioSummary = none) :
    (Home.catchBlock P w).sameView (Home.catchBlock P v) := by
  have hd : w.state.hasDataRef = v.state.hasDataRef := by rw [h.1]
  have h2 : Home.World.sameView (Home.setIsInitialLoadRef false (Home.setLoading false w))
      (Home.setIsInitialLoadRef false (Home.setLoading false v)) :=
    Home.sameView_setIsInitialLoadRef _ _ _ (Home.sameView_setLoading _ _ _ h)
  have hw2 : (Home.setIsInitialLoadRef false (Home.setLoading false w)).session.portfolioSummary
      = some s := hw
  have hv2 : (Home.setIsInitialLoadRef false (Home.setLoading false v)).session.portfolioSummary
      = none := hv
  simp only [Home.catchBlock, hw2, hv2, Home.adoptCached_unusable P s hbad,
    Home.adoptCached_none, ite_self]
  exact h2

theorem Analysis.cachedPositive_unusable (P : Platform) (s : String) (hbad : unusableText P s) :
    Analysis.cachedPositive P (some s) = none := by
  rcases hbad with h | ⟨v, h, hv⟩ <;> simp [Analysis.cachedPositive, parseItem, h, *]

theorem Analysis.cachedPositive_none (P : Platform) : Analysis.cachedPositive P none = none := by
  simp [Analysis.cachedPositive, parseItem]

theorem Analysis.sameView_setPortfolioData (x : JSVal) (w v : Analysis.World) (h : w.sameView v) :
    (Analysis.setPortfolioData x w).sameView (Analysis.setPortfolioData x v) := by
  obtain ⟨h1, h2, h3⟩ := h
  exact ⟨by simp [Analysis.setPortfolioData, h1], h2, h3⟩

theorem Analysis.sameView_loading (b : Bool) (w v : Analysis.World) (h : w.sameView v) :
    (Analysis.setLoading b w).sameView (Analysis.setLoading b v) := by
  obtain ⟨h1, h2, h3⟩ := h
  exact ⟨by simp [Analysis.setLoading, h1], h2, h3⟩

theorem Analysis.sameView_setItemSummary (x : String) (w v : Analysis.World) (h : w.sameView v) :
    (Analysis.setItemSummary x w).sameView (Analysis.setItemSummary x v) := by
  obtain ⟨h1, h2, h3⟩ := h
  exact ⟨h1, by simp [Analysis.setItemSummary, h2], by simp [Analysis.setItemSummary, h3]⟩

theorem Analysis.sameView_setItemHoldings (x : String) (w v : Analysis.World) (h : w.sameView v) :
    (Analysis.setItemHoldings x w).sameView (Analysis.setItemHoldings x v) := by
  obtain ⟨h1, h2, _⟩ := h
  exact ⟨h1, by simp [Analysis.setItemHoldings, h2], by simp [Analysis.setItemHoldings]⟩

/-- The suspect branch decides, independently of the world, whether it returns
and which value it displays. -/
theorem Analysis.suspectBranch_uniform (P : Platform) (pd : JSVal) (c : Option String)
    (data : JSVal) :
    ∃ ox : Option JSVal, ∀ w, Analysis.suspectBranch P pd c data w
      = ox.map (fun x => Analysis.setLoading false (Analysis.setPortfolioData x w)) := by
  simp only [Analysis.suspectBranch]
  split
  · split
    · exact ⟨some _, fun w => rfl⟩
    · split
      · exact ⟨some _, fun w => rfl⟩
      · exact ⟨none, fun w => rfl⟩
  · exact ⟨none, fun w => rfl⟩

theorem Analysis.suspectBranch_unusable (P : Platform) (s : String) (hbad : unusableText P s)
    (pd data : JSVal) (w : Analysis.World) :
    Analysis.suspectBranch P pd (some s) data w = Analysis.suspectBranch P pd none data w := by
  simp [Analysis.suspectBranch, Analysis.cachedPositive_unusable P s hbad, itemTruthy]

theorem Analysis.normalCase_sameView (P : Platform) (data : JSVal) (w v : Analysis.World)
    (h : w.sameView v) :
    (Analysis.normalCase P data w).1 = (Analysis.normalCase P data v).1
    ∧ (Analysis.normalCase P data w).2.sameView (Analysis.normalCase P data v).2 := by
  simp only [Analysis.normalCase]
  split_ifs <;>
    first
      | exact ⟨rfl, h⟩
      | exact ⟨rfl, Analysis.sameView_loading _ _ _
          (Analysis.sameView_setPortfolioData _ _ _ h)⟩
      | exact ⟨rfl, Analysis.sameView_loading _ _ _ (Analysis.sameView_setItemSummary _ _ _
          (Analysis.sameView_setPortfolioData _ _ _ h))⟩
      | exact ⟨rfl, Analysis.sameView_loading _ _ _ (Analysis.sameView_setItemHoldings _ _ _
          (Analysis.sameView_setItemSummary _ _ _ (Analysis.sameView_setPortfolioData _ _ _ h)))⟩

theorem Analysis.firstPaint_ignores_unusable (P : Platform) (s : String) (hbad : unusableText P s)
    (pd : JSVal) (w v : Analysis.World) (h : w.sameView v)
    (hw : w.session.portfolioSummary = some s) (hv : v.session.portfolioSummary = none) :
    (Analysis.firstPaint P pd w).sameView (Analysis.firstPaint P pd v) := by
  simp only [Analysis.firstPaint, Analysis.restore, hw, hv,
    Analysis.cachedPositive_unusable P s hbad, Analysis.cachedPositive_none, ite_self]
  exact Analysis.sameView_loading _ _ _ h

theorem Analysis.catchBlock_ignores_unusable (P : Platform) (s : String) (hbad : unusableText P s)
    (pd : JSVal) (w v : Analysis.World) (h : w.sameView v)
    (hw : w.session.portfolioSummary = some s) (hv : v.session.portfolioSummary = none) :
    (Analysis.catchBlock P pd w).sameView (Analysis.catchBlock P pd v) := by
  simp only [Analysis.catchBlock, hw, hv,
    Analysis.cachedPositive_unusable P s hbad, Analysis.cachedPositive_none, ite_self]
  exact Analysis.sameView_loading _ _ _ h

/-- C7: when the stored `portfolioSummary` text fails to parse, or parses to a
value whose `total_equity` is not of type number, `Home.fetchData` and
`Analysis.fetchPortfolioData` complete normally and end in the same component
state (displayed summary, holdings, `hasDataRef`) and perform the same storage
mutations as they do from the same world without the entry, for every backend
outcome. -/
theorem unusable_cache_counts_as_absent (P : Platform) (s : String) (hbad : unusableText P s)
    (showLoading : Bool) (transactionsResult portfolioResult response : Option JSVal)
    (captured : JSVal) (wh : Home.World) (wa : Analysis.World)
    (hh : wh.session.portfolioSummary = some s) (ha : wa.session.portfolioSummary = some s) :
    (Home.fetchData P showLoading transactionsResult portfolioResult
      captured wh).1 = Completion.normal
    ∧ (Home.fetchData P showLoading transactionsResult portfolioResult captured wh).2.state
        = (Home.fetchData P showLoading transactionsResult portfolioResult
            captured wh.dropSummary).2.state
    ∧ (Home.fetchData P showLoading transactionsResult portfolioResult captured wh).2.trace
        = (Home.fetchData P showLoading transactionsResult portfolioResult
            captured wh.dropSummary).2.trace
    ∧ (Analysis.fetchPortfolioData P response wa).1 = Completion.normal
    ∧ (Analysis.fetchPortfolioData P response wa).2.state
        = (Analysis.fetchPortfolioData P response wa.dropSummary).2.state
    ∧ (Analysis.fetchPortfolioData P response wa).2.trace
        = (Analysis.fetchPortfolioData P response wa.dropSummary).2.trace := by
  have hvh : wh.sameView wh.dropSummary := ⟨rfl, rfl, rfl⟩
  have hva : wa.sameView wa.dropSummary := ⟨rfl, rfl, rfl⟩
  have hh0 : wh.dropSummary.session.portfolioSummary = none := rfl
  have ha0 : wa.dropSummary.session.portfolioSummary = none := rfl
  have hps : captured = captured := rfl
  have hpd : wa.dropSummary.state.portfolioData = wa.state.portfolioData := rfl
  have hfph := Home.firstPaint_unusable P s hbad showLoading captured
    wh wh.dropSummary hvh hh hh0
  have hfpa := Analysis.firstPaint_ignores_unusable P s hbad wa.state.portfolioData
    wa wa.dropSummary hva ha ha0
  have hhome : (Home.fetchData P showLoading transactionsResult portfolioResult
                 captured wh).2.sameView
      (Home.fetchData P showLoading transactionsResult portfolioResult
        captured wh.dropSummary).2 := by
    cases hpa : promiseAll transactionsResult portfolioResult with
    | none =>
      rw [Home.fetchData_fail P _ _ _ _ wh hpa, Home.fetchData_fail P _ _ _ _ wh.dropSummary hpa, hps]
      apply Home.catchBlock_unusable P s hbad _ _ hfph
      · rw [(Home.firstPaint_session P showLoading _ wh).1, hh]
      · rw [(Home.firstPaint_session P showLoading _ wh.dropSummary).1, hh0]
    | some pr =>
      obtain ⟨tx, pd⟩ := pr
      have h1 : transactionsResult = some tx ∧ portfolioResult = some pd := by
        cases transactionsResult <;> cases portfolioResult <;> simp_all [promiseAll]
      obtain ⟨rfl, rfl⟩ := h1
      rw [Home.fetchData_ok, Home.fetchData_ok, hps, hh, hh0]
      simp only [Home.afterResponse, Home.resolve_unusable P s hbad]
      exact Home.afterResponse_sameView P _ none tx pd _ _ hfph
  have hana : (Analysis.fetchPortfolioData P response wa).2.sameView
      (Analysis.fetchPortfolioData P response wa.dropSummary).2 := by
    have hcatch : (Analysis.catchBlock P wa.state.portfolioData
          (Analysis.firstPaint P wa.state.portfolioData wa)).sameView
        (Analysis.catchBlock P wa.state.portfolioData
          (Analysis.firstPaint P wa.state.portfolioData wa.dropSummary)) := by
      apply Analysis.catchBlock_ignores_unusable P s hbad _ _ _ hfpa
      · rw [(Analysis.firstPaint_keeps_session P _ wa).1, ha]
      · rw [(Analysis.firstPaint_keeps_session P _ wa.dropSummary).1, ha0]
    cases response with
    | none =>
      rw [Analysis.fetchPortfolioData_fail, Analysis.fetchPortfolioData_fail, hpd]
      exact hcatch
    | some data =>
      obtain ⟨ox, hox⟩ := Analysis.suspectBranch_uniform P wa.state.portfolioData none data
      have hs1 := Analysis.suspectBranch_unusable P s hbad wa.state.portfolioData data
        (Analysis.firstPaint P wa.state.portfolioData wa)
      cases ox with
      | some x =>
        rw [Analysis.fetchPortfolioData_suspect P data wa _ (by rw [ha, hs1, hox]; rfl),
          Analysis.fetchPortfolioData_suspect P data wa.dropSummary _
            (by rw [ha0, hpd, hox]; rfl)]
        exact Analysis.sameView_loading _ _ _ (Analysis.sameView_setPortfolioData _ _ _ hfpa)
      | none =>
        cases hd : isNullish data with
        | true =>
          rw [Analysis.fetchPortfolioData_null P data wa hd,
            Analysis.fetchPortfolioData_null P data wa.dropSummary hd, hpd]
          exact hcatch
        | false =>
          rw [Analysis.fetchPortfolioData_normal P data wa (by rw [ha, hs1, hox]; rfl) hd,
            Analysis.fetchPortfolioData_normal P data wa.dropSummary
              (by rw [ha0, hpd, hox]; rfl) hd, hpd]
          exact (Analysis.normalCase_sameView P data _ _ hfpa).2
  refine ⟨?_, hhome.1, hhome.2.1, ?_, hana.1, hana.2.1⟩
  · simp only [Home.fetchData]
    split <;> rfl
  · simp only [Analysis.fetchPortfolioData]
    split <;> rfl

theorem unusable_cache_counts_as_absent_witness :
    unusableText samplePlatform "not json"
    ∧ (Home.fetchData samplePlatform true (some (arr [])) (some (responseOf 0 (arr [])))
        null (Home.World.fresh sessionGarbage)).2.state
      = (Home.fetchData samplePlatform true (some (arr [])) (some (responseOf 0 (arr [])))
        null (Home.World.fresh sessionGarbage).dropSummary).2.state
    ∧ (Analysis.fetchPortfolioData samplePlatform none (Analysis.World.fresh sessionGarbage)).2.state
      = (Analysis.fetchPortfolioData samplePlatform none
        (Analysis.World.fresh sessionGarbage).dropSummary).2.state :=
  have hbad : unusableText samplePlatform "not json" :=
    Or.inl (by simp [samplePlatform, text1000, text1500, text0])
  have h := unusable_cache_counts_as_absent samplePlatform "not json" hbad true
    (some (arr [])) (some (responseOf 0 (arr []))) none null
    (Home.World.fresh sessionGarbage) (Analysis.World.fresh sessionGarbage) rfl rfl
  ⟨hbad, h.2.1, h.2.2.2.2.1⟩

theorem hasPositiveTotal_of_jsGtZero (P : Platform) (v : JSVal)
    (hnum : typeofNumber (getProp v "total_equity") = true)
    (hgt : jsGtZero P (getProp v "total_equity") = true) : hasPositiveTotal v = true := by
  unfold hasPositiveTotal
  cases hte : getProp v "total_equity" <;> simp_all [typeofNumber, jsGtZero]

theorem storeValid_removeSnapshot (P : Platform) (σ : SessionStorage) :
    storeValid P (removeSnapshot σ) := Or.inl rfl

/-- The characters `Nat.toDigitsCore` adds are decimal digits. -/
theorem toDigitsCore_digit (fuel : Nat) : ∀ (n : Nat) (ds : List Char) (c : Char),
    c ∈ Nat.toDigitsCore 10 fuel n ds → c ∈ ds ∨ ∃ d, d < 10 ∧ c = Nat.digitChar d := by
  induction fuel with
  | zero =>
    intro n ds c hc
    simp [Nat.toDigitsCore] at hc
    exact Or.inl hc
  | succ fuel ih =>
    intro n ds c hc
    simp only [Nat.toDigitsCore] at hc
    split at hc
    · rcases List.mem_cons.1 hc with h | h
      · exact Or.inr ⟨n % 10, Nat.mod_lt _ (by decide), h⟩
      · exact Or.inl h
    · rcases ih _ _ c hc with h | h
      · rcases List.mem_cons.1 h with h | h
        · exact Or.inr ⟨n % 10, Nat.mod_lt _ (by decide), h⟩
        · exact Or.inl h
      · exact Or.inr h

/-- An array index is not the name `summary`. -/
theorem index_ne_summary (i : Nat) : toString i ≠ "summary" := by
  intro h
  have hmem : 's' ∈ (toString i).data := by rw [h]; decide
  have hd : (toString i).data = Nat.toDigits 10 i := rfl
  rw [hd] at hmem
  rcases toDigitsCore_digit _ _ _ _ hmem with h | ⟨d, hd10, hc⟩
  · cases h
  · interval_cases d <;> simp [Nat.digitChar] at hc

/-- A list of properties under array indices has no property `summary`. -/
theorem getField_indexed_summary {α : Type} (f : α → JSVal) (l : List (Nat × α)) :
    getField (l.map (fun p => (toString p.1, f p.2))) "summary" = undefined := by
  induction l with
  | nil => rfl
  | cons hd tl ih => simp [getField, index_ne_summary, ih]

/-- What the spread of a response and a fresh `holdings` leave under
`summary`: the `summary` of the response. -/
theorem getField_spread_summary (data h : JSVal) (hd : isNullish data = false) :
    getField (setField (spread data) "holdings" h) "summary" = getProp data "summary" := by
  rw [getField_setField_other _ _ _ _ (by decide)]
  cases data with
  | obj fs => rfl
  | arr items => simpa [spread, getProp] using getField_indexed_summary id items.enum
  | str s =>
    simpa [spread, getProp] using
      getField_indexed_summary (fun c => str (String.singleton c)) s.toList.enum
  | undefined => simp [isNullish] at hd
  | null => simp [isNullish] at hd
  | bool b => rfl
  | num n => rfl

theorem hasZeroTotal_of_positive (v : JSVal) (h : hasPositiveTotal v = true) :
    hasZeroTotal v = false := by
  obtain ⟨n, hn, hgt⟩ := (hasPositiveTotal_iff v).1 h
  simp [hasZeroTotal, hn, strictEqZero, gtZero_not_isZero n hgt]

theorem Home.adoptPositiveCached_shape_pos (P : Platform) (c : Option String) :
    (∀ w, Home.adoptPositiveCached P c w = (false, w))
    ∨ ∃ v, hasPositiveTotal v = true ∧ ∀ w, Home.adoptPositiveCached P c w
        = (true, Home.setHasDataRef true (Home.setPortfolioSummary v w)) := by
  unfold Home.adoptPositiveCached
  by_cases hc : itemTruthy c = true
  · cases parseItem P c with
    | none => exact Or.inl (fun _ => by simp [hc])
    | some parsed =>
      by_cases h : (truthy parsed && typeofNumber (getProp parsed "total_equity")
          && jsGtZero P (getProp parsed "total_equity")) = true
      · refine Or.inr ⟨parsed, ?_, fun w => by simp [hc, h]⟩
        simp only [Bool.and_eq_true] at h
        exact hasPositiveTotal_of_jsGtZero P parsed h.1.2 h.2
      · exact Or.inl (fun w => by simp [hc, h])
  · exact Or.inl (fun _ => by simp [hc])

theorem Home.withSummary_outcome (P : Platform) (ps : JSVal) (c : Option String)
    (summary : JSVal) (w : Home.World) :
    Home.Outcome P ps w (Home.withSummary P ps c summary w) := by
  unfold Home.Outcome
  by_cases hnum : (typeofNumber (getProp summary "total_equity")
      && notNaN (getProp summary "total_equity")) = true
  · by_cases hz : strictEqZero (getProp summary "total_equity") = true
    · rcases Home.adoptPositiveCached_shape_pos P c with hs | ⟨v, hv, hs⟩
      · by_cases hm : (truthy ps && jsGtZero P (getProp ps "total_equity")) = true
        · left
          simp [Home.withSummary, hnum, hz, hs, hm, Home.setHasDataRef]
        · right; right
          simp only [Bool.not_eq_true] at hm
          simp [Home.withSummary, hnum, hz, hs, hm, Home.setPortfolioSummary, hasZeroTotal]
      · right; left
        simp [Home.withSummary, hnum, hz, hs, Home.setHasDataRef, Home.setPortfolioSummary,
          hasZeroTotal_of_positive v hv]
    · right; left
      simp only [Bool.not_eq_true] at hz
      have hz2 : hasZeroTotal summary = false := hz
      simp only [Home.withSummary, hnum, hz, Bool.false_eq_true, ↓reduceIte]
      split_ifs <;>
        simp [Home.setHasDataRef, Home.setPortfolioSummary, Home.setItemSummary, hz2]
  · rcases Home.adoptCached_shape P c with hs | ⟨v, hs⟩
    · left
      simp [Home.withSummary, hnum, hs]
    · simp only [Bool.not_eq_true] at hnum
      simp only [Home.withSummary, hnum, hs, Bool.false_eq_true, ↓reduceIte]
      split_ifs with hf
      · right; left
        simp only [Bool.and_eq_true, Bool.not_eq_true'] at hf
        simp [Home.setHasDataRef, Home.setPortfolioSummary, hf.1]
      · left
        simp

theorem Home.bareSummary_outcome (P : Platform) (ps : JSVal) (c : Option String)
    (pd : JSVal) (w : Home.World) :
    Home.Outcome P ps w (Home.bareSummary P ps c pd w) := by
  unfold Home.Outcome
  by_cases hz : strictEqZero (getProp pd "total_equity") = true
  · rcases Home.adoptPositiveCached_shape_pos P c with hs | ⟨v, hv, hs⟩
    · by_cases hm : (truthy ps && jsGtZero P (getProp ps "total_equity")) = true
      · left
        simp [Home.bareSummary, hz, hs, hm, Home.setHasDataRef]
      · right; left
        simp only [Bool.not_eq_true] at hm
        simp [Home.bareSummary, hz, hs, hm, Home.setPortfolioSummary, Home.setHasDataRef]
    · right; left
      simp [Home.bareSummary, hz, hs, Home.setHasDataRef, Home.setPortfolioSummary,
        hasZeroTotal_of_positive v hv]
  · right; left
    simp only [Bool.not_eq_true] at hz
    have hz2 : hasZeroTotal pd = false := hz
    simp only [Home.bareSummary, hz, Bool.false_eq_true, ↓reduceIte]
    split_ifs <;>
      simp [Home.setHasDataRef, Home.setPortfolioSummary, Home.setItemSummary, hz2]

theorem Home.adoptCached_outcome (P : Platform) (ps : JSVal) (c : Option String)
    (w : Home.World) (hf : w.state.hasDataRef = false) :
    Home.Outcome P ps w (Home.adoptCached P c w) := by
  unfold Home.Outcome
  rcases Home.adoptCached_shape P c with hs | ⟨v, hs⟩
  · left
    simp [hs]
  · right; left
    simp [hs, Home.setHasDataRef, Home.setPortfolioSummary, hf]

theorem Home.resolve_outcome (P : Platform) (ps : JSVal) (c : Option String)
    (pd : JSVal) (w : Home.World) :
    Home.Outcome P ps w (Home.resolve P ps c pd w) := by
  simp only [Home.resolve]
  split_ifs with h1 h2 h3
  · exact Home.withSummary_outcome P ps c _ w
  · exact Home.bareSummary_outcome P ps c pd w
  · simp only [Bool.and_eq_true, Bool.not_eq_true'] at h3
    exact Home.adoptCached_outcome P ps c w h3.1
  · exact Or.inl ⟨rfl, Or.inl rfl⟩

theorem Home.firstPaint_state (P : Platform) (showLoading : Bool) (ps : JSVal) (w : Home.World) :
    ((Home.firstPaint P showLoading ps w).state.portfolioSummary = w.state.portfolioSummary
      ∧ (Home.firstPaint P showLoading ps w).state.hasDataRef = w.state.hasDataRef)
    ∨ (truthy ps = false ∧ (Home.firstPaint P showLoading ps w).state.hasDataRef = true) := by
  simp only [Home.firstPaint]
  rcases Home.adoptCached_shape P w.session.portfolioSummary with hs | ⟨v, hs⟩
  · left
    simp only [hs, ite_self]
    split_ifs <;> simp [Home.setLoading]
  · by_cases hc : (itemTruthy w.session.portfolioSummary && !truthy ps) = true
    · right
      have hc2 := hc
      simp only [Bool.and_eq_true, Bool.not_eq_true'] at hc2
      refine ⟨hc2.2, ?_⟩
      simp only [hc, ↓reduceIte, hs]
      split_ifs <;> simp [Home.setLoading, Home.setHasDataRef, Home.setPortfolioSummary]
    · left
      simp only [Bool.not_eq_true] at hc
      simp only [hc, Bool.false_eq_true, ↓reduceIte]
      split_ifs <;> simp [Home.setLoading]

theorem Home.catchBlock_state (P : Platform) (w : Home.World) :
    ((Home.catchBlock P w).state.portfolioSummary = w.state.portfolioSummary
      ∧ (Home.catchBlock P w).state.hasDataRef = w.state.hasDataRef)
    ∨ (w.state.hasDataRef = false ∧ (Home.catchBlock P w).state.hasDataRef = true) := by
  simp only [Home.catchBlock]
  rcases Home.adoptCached_shape P
    (Home.setIsInitialLoadRef false (Home.setLoading false w)).session.portfolioSummary
    with hs | ⟨v, hs⟩
  · left
    simp only [hs, ite_self]
    simp [Home.setLoading, Home.setIsInitialLoadRef]
  · cases hf : w.state.hasDataRef with
    | true =>
      left
      simp [Home.setLoading, Home.setIsInitialLoadRef, hf]
    | false =>
      simp only [hs]
      split_ifs
      · right
        simp [Home.setLoading, Home.setIsInitialLoadRef, Home.setHasDataRef,
          Home.setPortfolioSummary]
      · left
        simp [Home.setLoading, Home.setIsInitialLoadRef, hf]
      · left
        simp [Home.setLoading, Home.setIsInitialLoadRef, hf]

theorem Home.afterResponse_outcome (P : Platform) (ps : JSVal) (c : Option String)
    (tx pd : JSVal) (w : Home.World) :
    Home.Outcome P ps w (Home.afterResponse P ps c tx pd w) := by
  have h := Home.resolve_outcome P ps c pd
    (Home.setTransactions (if isArray tx then tx else arr []) w)
  simpa [Home.Outcome, Home.afterResponse, Home.setIsInitialLoadRef, Home.setLoading,
    Home.setTransactions] using h

theorem jsGtZero_of_positive (P : Platform) (v : JSVal) (h : hasPositiveTotal v = true) :
    (truthy v && jsGtZero P (getProp v "total_equity")) = true := by
  obtain ⟨n, hn, hgt⟩ := (hasPositiveTotal_iff v).1 h
  simp [truthy_of_total_equity_num v n hn, hn, jsGtZero, hgt]

theorem not_positive_of_zero (v : JSVal) (h : hasZeroTotal v = true) :
    hasPositiveTotal v = false := by
  obtain ⟨n, hn, hz⟩ := (hasZeroTotal_iff v).1 h
  simp [hasPositiveTotal, hn, isZero_not_gtZero n hz]

/-- A run of `Home.fetchData` keeps the invariant `flagged`. -/
theorem Home.fetchData_flagged (P : Platform) (showLoading : Bool)
    (transactionsResult portfolioResult : Option JSVal) (ps : JSVal) (w : Home.World)
    (hw : w.state.flagged) :
    (Home.fetchData P showLoading transactionsResult portfolioResult ps w).2.state.flagged := by
  have hf : (Home.firstPaint P showLoading ps w).state.flagged := by
    rcases Home.firstPaint_state P showLoading ps w with ⟨h1, h2⟩ | ⟨_, h2⟩
    · intro hp
      rw [h1] at hp
      rw [h2]
      exact hw hp
    · intro _
      exact h2
  cases hpa : promiseAll transactionsResult portfolioResult with
  | none =>
    rw [Home.fetchData_fail P _ _ _ _ w hpa]
    rcases Home.catchBlock_state P (Home.firstPaint P showLoading ps w)
      with ⟨h1, h2⟩ | ⟨_, h2⟩
    · intro hp
      rw [h1] at hp
      rw [h2]
      exact hf hp
    · intro _
      exact h2
  | some pr =>
    obtain ⟨tx, pd⟩ := pr
    have h1 : transactionsResult = some tx ∧ portfolioResult = some pd := by
      cases transactionsResult <;> cases portfolioResult <;> simp_all [promiseAll]
    obtain ⟨rfl, rfl⟩ := h1
    rw [Home.fetchData_ok]
    rcases Home.afterResponse_outcome P ps w.session.portfolioSummary tx pd
      (Home.firstPaint P showLoading ps w)
      with ⟨h1, h2⟩ | ⟨h2, _⟩ | ⟨h1, _, _⟩
    · intro hp
      rw [h1] at hp
      rcases h2 with h2 | h2
      · rw [h2]
        exact hf hp
      · exact h2
    · intro _
      exact h2
    · intro hp
      rw [not_positive_of_zero _ h1] at hp
      cases hp

/-- From a flagged state that displays a positive summary, a run of
`Home.fetchData` does not end on a zero summary. -/
theorem Home.fetchData_not_zero (P : Platform) (showLoading : Bool)
    (transactionsResult portfolioResult : Option JSVal) (w : Home.World)
    (hw : w.state.flagged) (hp : hasPositiveTotal w.state.portfolioSummary = true) :
    hasZeroTotal
      (Home.fetchData P showLoading transactionsResult portfolioResult
        w.state.portfolioSummary w).2.state.portfolioSummary
      = false := by
  have hcond := jsGtZero_of_positive P _ hp
  have htr : truthy w.state.portfolioSummary = true := by
    simp only [Bool.and_eq_true] at hcond
    exact hcond.1
  have hf : (Home.firstPaint P showLoading w.state.portfolioSummary w).state.portfolioSummary
        = w.state.portfolioSummary
      ∧ (Home.firstPaint P showLoading w.state.portfolioSummary w).state.hasDataRef = true := by
    rcases Home.firstPaint_state P showLoading w.state.portfolioSummary w with ⟨h1, h2⟩ | ⟨h1, _⟩
    · exact ⟨h1, h2.trans (hw hp)⟩
    · rw [htr] at h1
      cases h1
  cases hpa : promiseAll transactionsResult portfolioResult with
  | none =>
    rw [Home.fetchData_fail P _ _ _ _ w hpa]
    rcases Home.catchBlock_state P (Home.firstPaint P showLoading w.state.portfolioSummary w)
      with ⟨h1, _⟩ | ⟨h1, _⟩
    · rw [h1, hf.1]
      exact hasZeroTotal_of_positive _ hp
    · rw [hf.2] at h1
      cases h1
  | some pr =>
    obtain ⟨tx, pd⟩ := pr
    have h1 : transactionsResult = some tx ∧ portfolioResult = some pd := by
      cases transactionsResult <;> cases portfolioResult <;> simp_all [promiseAll]
    obtain ⟨rfl, rfl⟩ := h1
    rw [Home.fetchData_ok]
    rcases Home.afterResponse_outcome P w.state.portfolioSummary w.session.portfolioSummary tx pd
      (Home.firstPaint P showLoading w.state.portfolioSummary w)
      with ⟨h1, _⟩ | ⟨_, h2 | h2 | h2⟩ | ⟨_, _, h2⟩
    · rw [h1, hf.1]
      exact hasZeroTotal_of_positive _ hp
    · exact h2
    · rw [hf.2] at h2
      cases h2
    · rw [hcond] at h2
      cases h2
    · rw [hcond] at h2
      cases h2

theorem getProp_obj (fs : List (String × JSVal)) (k : String) :
    getProp (obj fs) k = getField fs k := rfl

theorem Analysis.cachedPositive_some (P : Platform) (c : Option String) (parsed : JSVal)
    (h : Analysis.cachedPositive P c = some parsed) : hasPositiveTotal parsed = true := by
  unfold Analysis.cachedPositive at h
  split at h
  · split at h
    · next hc =>
      cases h
      simp only [Bool.and_eq_true] at hc
      exact hasPositiveTotal_of_jsGtZero P _ hc.1.2 hc.2
    · cases h
  · cases h

theorem Analysis.firstPaint_with_state (P : Platform) (pd : JSVal) (w : Analysis.World)
    (h : truthy pd = true) : Analysis.firstPaint P pd w = Analysis.setLoading true w := by
  simp [Analysis.firstPaint, h]

theorem Analysis.catchBlock_truthy (P : Platform) (pd : JSVal) (w : Analysis.World)
    (h : truthy pd = true) : Analysis.catchBlock P pd w = Analysis.setLoading false w := by
  simp [Analysis.catchBlock, h]

/-- From a state that displays a positive summary, a run of
`Analysis.fetchPortfolioData` does not end on a zero summary. -/
theorem Analysis.fetchPortfolioData_not_zero (P : Platform) (response : Option JSVal)
    (w : Analysis.World) (hp : hasPositiveTotal w.state.summary = true) :
    hasZeroTotal (Analysis.fetchPortfolioData P response w).2.state.summary = false := by
  unfold Analysis.State.summary at hp
  obtain ⟨n, hn, hgt⟩ := (hasPositiveTotal_iff _).1 hp
  obtain ⟨hpt, hst⟩ := truthy_of_summary_total _ n hn
  have hkeep := hasZeroTotal_of_positive _ hp
  have hfp := Analysis.firstPaint_with_state P _ w hpt
  have hcb := Analysis.catchBlock_truthy P _
    (Analysis.firstPaint P w.state.portfolioData w) hpt
  have hobj : ∃ fs, w.state.portfolioData = obj fs := by
    cases hpd : w.state.portfolioData <;> simp_all [getProp, truthy]
  cases response with
  | none =>
    rw [Analysis.fetchPortfolioData_fail, hcb, hfp]
    exact hkeep
  | some data =>
    cases hsb : Analysis.suspectBranch P w.state.portfolioData w.session.portfolioSummary
        data (Analysis.firstPaint P w.state.portfolioData w) with
    | some w3 =>
      rw [Analysis.fetchPortfolioData_suspect P data w w3 hsb]
      simp only [Analysis.suspectBranch] at hsb
      split at hsb
      · split at hsb
        · next parsed hcp =>
          cases hsb
          have hpp : hasPositiveTotal parsed = true := by
            split at hcp
            · exact Analysis.cachedPositive_some P _ _ hcp
            · cases hcp
          simpa [Analysis.State.summary, Analysis.setLoading, Analysis.setPortfolioData, getProp,
            getField_setField_other, getField_setField_same] using
            hasZeroTotal_of_positive _ hpp
        · split at hsb
          · cases hsb
            obtain ⟨fs, hfs⟩ := hobj
            rw [hfs] at hkeep
            simpa [Analysis.State.summary, Analysis.setLoading, Analysis.setPortfolioData, getProp,
              getField_setField_other, hfs, spread] using hkeep
          · cases hsb
      · cases hsb
    | none =>
      cases hd : isNullish data with
      | true =>
        rw [Analysis.fetchPortfolioData_null P data w hd, hcb, hfp]
        exact hkeep
      | false =>
        rw [Analysis.fetchPortfolioData_normal P data w hsb hd, Analysis.State.summary,
          (Analysis.normalCase_data P data _ hd).2]
        rw [getProp_obj, getField_spread_summary data _ hd]
        cases hz : hasZeroTotal (getProp data "summary") with
        | false => rfl
        | true =>
          exfalso
          obtain ⟨z, hzn, hz0⟩ := (hasZeroTotal_iff _).1 hz
          obtain ⟨hdt, hdst⟩ := truthy_of_summary_total data z hzn
          have hm := jsGtZero_of_positive P _ hp
          simp only [Bool.and_eq_true] at hm
          simp [Analysis.suspectBranch, hdt, hdst, hzn, strictEqZero, hz0, hpt, hst, hm.2] at hsb
          split at hsb <;> simp at hsb

/-- The invariant `flagged` holds in every tab reached from a fresh mount. -/
theorem run_flagged (P : Platform) (events : List Event) :
    ∀ t : Tab, t.home.flagged → (run P t events).home.flagged := by
  induction events with
  | nil => exact fun _ h => h
  | cons e rest ih =>
    intro t ht
    apply ih (step P t e)
    cases e with
    | homeFetch showLoading transactionsResult portfolioResult =>
      exact Home.fetchData_flagged P showLoading transactionsResult portfolioResult
        t.home.portfolioSummary
        { state := t.home, session := t.storage.sessionStorage, trace := [] } ht
    | homeVisible transactionsResult portfolioResult =>
      exact Home.fetchData_flagged P false transactionsResult portfolioResult null
        { state := t.home, session := t.storage.sessionStorage, trace := [] } ht
    | analysisFetch response => exact ht
    | homeMount =>
      intro hp
      simp [step, Home.State.initial, hasPositiveTotal, getProp] at hp
    | analysisMount => exact ht
    | authStateChange event session => exact ht
    | sessionSync session => exact ht
    | loginSubmit emailShape email password result => exact ht
    | logout => exact ht

/-- In every tab state reached from a fresh mount by any sequence of events, a
call of `Home.fetchData` from a handler of the current render, which holds the
summary on display, does not replace a displayed `total_equity > 0` by a
`total_equity` of 0, and neither does a run of `Analysis.fetchPortfolioData`. -/
theorem handler_run_keeps_positive_display (P : Platform) (storage : Storage)
    (events : List Event) (showLoading : Bool)
    (transactionsResult portfolioResult response : Option JSVal) :
    (hasPositiveTotal (run P (Tab.fresh storage) events).home.portfolioSummary = true →
      hasZeroTotal (Home.fetchData P showLoading transactionsResult portfolioResult
        (run P (Tab.fresh storage) events).home.portfolioSummary
        { state := (run P (Tab.fresh storage) events).home
          session := (run P (Tab.fresh storage) events).storage.sessionStorage
          trace := [] }).2.state.portfolioSummary = false)
    ∧ (hasPositiveTotal (run P (Tab.fresh storage) events).analysis.summary = true →
      hasZeroTotal (Analysis.fetchPortfolioData P response
        { state := (run P (Tab.fresh storage) events).analysis
          session := (run P (Tab.fresh storage) events).storage.sessionStorage
          trace := [] }).2.state.summary = false) := by
  have hfl : (run P (Tab.fresh storage) events).home.flagged := by
    apply run_flagged
    intro hp
    simp [Tab.fresh, Home.State.initial, hasPositiveTotal, getProp] at hp
  exact ⟨fun hp => Home.fetchData_not_zero P showLoading transactionsResult portfolioResult
      { state := (run P (Tab.fresh storage) events).home
        session := (run P (Tab.fresh storage) events).storage.sessionStorage
        trace := [] } hfl hp,
    fun hp => Analysis.fetchPortfolioData_not_zero P response _ hp⟩

theorem Home.firstPaint_truthy (P : Platform) (showLoading : Bool) (ps : JSVal) (w : Home.World)
    (h : truthy ps = true) :
    Home.firstPaint P showLoading ps w
      = if showLoading || w.state.isInitialLoadRef then Home.setLoading true w else w := by
  simp [Home.firstPaint, h]

theorem Home.adoptPositiveCached_no_positive (P : Platform) (c : Option String) (w : Home.World)
    (h : ∀ s v, c = some s → P.parse s = some v → hasPositiveTotal v = false) :
    Home.adoptPositiveCached P c w = (false, w) := by
  rcases Home.adoptPositiveCached_shape_pos P c with hs | ⟨v, hv, hs⟩
  · exact hs w
  · exfalso
    have h1 := hs w
    unfold Home.adoptPositiveCached at h1
    split at h1
    · cases c with
      | none => simp [parseItem] at h1
      | some s =>
        cases hp : P.parse s with
        | none => simp [parseItem, hp] at h1
        | some u =>
          have hu := h s u rfl hp
          simp only [parseItem, hp] at h1
          split at h1
          · next hc =>
            simp only [Bool.and_eq_true] at hc
            rw [hasPositiveTotal_of_jsGtZero P u hc.1.2 hc.2] at hu
            cases hu
          · simp at h1
    · simp at h1

theorem Analysis.cachedPositive_no_positive (P : Platform) (c : Option String)
    (h : ∀ s v, c = some s → P.parse s = some v → hasPositiveTotal v = false) :
    Analysis.cachedPositive P c = none := by
  cases hcp : Analysis.cachedPositive P c with
  | none => rfl
  | some parsed =>
    exfalso
    have hpos := Analysis.cachedPositive_some P c parsed hcp
    cases c with
    | none => simp [Analysis.cachedPositive, parseItem] at hcp
    | some s =>
      cases hp : P.parse s with
      | none => simp [Analysis.cachedPositive, parseItem, hp] at hcp
      | some u =>
        have hu := h s u rfl hp
        simp only [Analysis.cachedPositive, parseItem, hp] at hcp
        split at hcp
        · cases hcp
          rw [hpos] at hu
          cases hu
        · cases hcp

/-- When the store has no summary with `total_equity > 0` (no entry, an
unparseable one, or one whose total is not positive), the summary in memory
has `total_equity > 0` and the backend summary has `total_equity` 0, a call of
`Home.fetchData` from a handler of the current render, which captured the
displayed summary, leaves the displayed summary unchanged and sets
`hasDataRef`, and `Analysis.fetchPortfolioData` keeps the summary in memory;
neither displays the fresh zero summary. -/
theorem suspect_fresh_keeps_memory (P : Platform) (showLoading : Bool)
    (transactionsData response : JSVal) (wh : Home.World) (wa : Analysis.World)
    (hhc : ∀ s v, wh.session.portfolioSummary = some s → P.parse s = some v →
      hasPositiveTotal v = false)
    (hac : ∀ s v, wa.session.portfolioSummary = some s → P.parse s = some v →
      hasPositiveTotal v = false)
    (hhm : hasPositiveTotal wh.state.portfolioSummary = true)
    (ham : hasPositiveTotal wa.state.summary = true)
    (hzero : hasZeroTotal (getProp response "summary") = true) :
    (Home.fetchData P showLoading (some transactionsData) (some response)
      wh.state.portfolioSummary wh).2.state.portfolioSummary
        = wh.state.portfolioSummary
    ∧ (Home.fetchData P showLoading (some transactionsData) (some response)
        wh.state.portfolioSummary wh).2.state.hasDataRef
        = true
    ∧ (Analysis.fetchPortfolioData P (some response) wa).2.state.summary = wa.state.summary
    ∧ wh.state.portfolioSummary ≠ getProp response "summary"
    ∧ wa.state.summary ≠ getProp response "summary" := by
  obtain ⟨z, hz, hz0⟩ := (hasZeroTotal_iff _).1 hzero
  obtain ⟨hrt, hst⟩ := truthy_of_summary_total response z hz
  have hcond := jsGtZero_of_positive P _ hhm
  have htr : truthy wh.state.portfolioSummary = true := by
    simp only [Bool.and_eq_true] at hcond
    exact hcond.1
  have hhome : ∀ w : Home.World,
      Home.afterResponse P wh.state.portfolioSummary wh.session.portfolioSummary
          transactionsData response w
        = Home.setIsInitialLoadRef false (Home.setLoading false
            (Home.setHasDataRef true
              (Home.setTransactions
                (if isArray transactionsData then transactionsData else arr []) w))) := by
    intro w
    simp only [Bool.and_eq_true] at hcond
    simp [Home.afterResponse, Home.resolve, hrt, hst, Home.withSummary, hz, typeofNumber, notNaN,
      strictEqZero, hz0, isZero_not_isNaN z hz0,
      Home.adoptPositiveCached_no_positive P _ _ hhc, hcond.1, hcond.2]
  unfold Analysis.State.summary at ham
  obtain ⟨n, hn, hgt⟩ := (hasPositiveTotal_iff _).1 ham
  obtain ⟨hpt, hpst⟩ := truthy_of_summary_total _ n hn
  obtain ⟨fs, hfs⟩ : ∃ fs, wa.state.portfolioData = obj fs := by
    cases hpd : wa.state.portfolioData <;> simp_all [getProp, truthy]
  have hm := jsGtZero_of_positive P _ ham
  simp only [Bool.and_eq_true] at hm
  have hsb : Analysis.suspectBranch P wa.state.portfolioData wa.session.portfolioSummary response
      (Analysis.firstPaint P wa.state.portfolioData wa)
      = some (Analysis.setLoading false (Analysis.setPortfolioData
          (obj (setField (spread wa.state.portfolioData) "holdings"
            (if Analysis.hasHoldings P response then getProp response "holdings"
             else getProp wa.state.portfolioData "holdings")))
          (Analysis.firstPaint P wa.state.portfolioData wa))) := by
    simp [Analysis.suspectBranch, hrt, hst, hz, strictEqZero, hz0,
      Analysis.cachedPositive_no_positive P _ hac, hpt, hpst, hm.2]
  have hne : ∀ v, hasPositiveTotal v = true → v ≠ getProp response "summary" := by
    intro v hv heq
    rw [heq, not_positive_of_zero _ hzero] at hv
    cases hv
  refine ⟨?_, ?_, ?_, hne _ hhm, hne _ ham⟩
  · rw [Home.fetchData_ok, hhome, Home.firstPaint_truthy P _ _ _ htr]
    split_ifs <;> rfl
  · rw [Home.fetchData_ok, hhome]
    rfl
  · rw [Analysis.fetchPortfolioData_suspect P response wa _ hsb]
    simp [Analysis.State.summary, Analysis.setLoading, Analysis.setPortfolioData, getProp_obj,
      getField_setField_other, hfs, spread]

theorem suspect_fresh_keeps_memory_witness :
    (Home.fetchData samplePlatform false (some (arr [])) (some (responseOf 0 (arr [])))
        (summaryOf 1000) homeShowing1000).2.state.portfolioSummary = homeShowing1000.state.portfolioSummary
    ∧ (Home.fetchData samplePlatform false (some (arr [])) (some (responseOf 0 (arr [])))
        (summaryOf 1000) homeShowing1000).2.state.hasDataRef = true
    ∧ (Analysis.fetchPortfolioData samplePlatform (some (responseOf 0 (arr [])))
        analysisShowing1000NoCache).2.state.summary = analysisShowing1000NoCache.state.summary
    ∧ homeShowing1000.state.portfolioSummary ≠ getProp (responseOf 0 (arr [])) "summary"
    ∧ analysisShowing1000NoCache.state.summary ≠ getProp (responseOf 0 (arr [])) "summary" :=
  suspect_fresh_keeps_memory samplePlatform false (arr []) (responseOf 0 (arr []))
    homeShowing1000 analysisShowing1000NoCache
    (by
      intro s v hs hv
      cases hs
      simp [samplePlatform, text0, text1000, text1500] at hv
      subst hv
      simp [hasPositiveTotal, summaryOf, getProp, getField, JSNum.gtZero])
    (by
      intro s v hs
      cases hs)
    (by decide) (by decide) (by decide)

theorem Home.catchBlock_flagged (P : Platform) (w : Home.World) (h : w.state.hasDataRef = true) :
    Home.catchBlock P w = Home.setIsInitialLoadRef false (Home.setLoading false w) := by
  simp [Home.catchBlock, Home.setIsInitialLoadRef, Home.setLoading, h]

theorem Home.firstPaint_no_cache (P : Platform) (showLoading : Bool) (ps : JSVal) (w : Home.World)
    (h : itemTruthy w.session.portfolioSummary = false) :
    Home.firstPaint P showLoading ps w
      = if showLoading || w.state.isInitialLoadRef then Home.setLoading true w else w := by
  simp [Home.firstPaint, h]

theorem Home.catchBlock_no_cache (P : Platform) (w : Home.World)
    (h : itemTruthy w.session.portfolioSummary = false) :
    Home.catchBlock P w = Home.setIsInitialLoadRef false (Home.setLoading false w) := by
  simp [Home.catchBlock, Home.setIsInitialLoadRef, Home.setLoading, h]

/-- C11, as stated, fails: the backend call fails while the screen shows the
total 1000 and the store holds the text of the total 1500; `Home.fetchData`,
called from a handler of the render that displays the total 1000, and
`Analysis.fetchPortfolioData` keep the summary in memory and do not resolve to
the cached one. -/
theorem failure_keeps_memory_over_cache :
    samplePlatform.parse text1500 = some (summaryOf 1500)
    ∧ homeShowing1000Cache1500.session.portfolioSummary = some text1500
    ∧ homeShowing1000Cache1500.state.portfolioSummary = summaryOf 1000
    ∧ (Home.fetchData samplePlatform false none none
        (summaryOf 1000) homeShowing1000Cache1500).2.state.portfolioSummary = summaryOf 1000
    ∧ analysisShowing1000Cache1500.session.portfolioSummary = some text1500
    ∧ analysisShowing1000Cache1500.state.summary = summaryOf 1000
    ∧ (Analysis.fetchPortfolioData samplePlatform none
        analysisShowing1000Cache1500).2.state.summary = summaryOf 1000
    ∧ summaryOf 1000 ≠ summaryOf 1500 := by
  refine ⟨?_, rfl, rfl, ?_, rfl, ?_, ?_, ?_⟩
  · simp [samplePlatform, text1000, text1500]
  · simp [Home.fetchData, Home.tryBlock, promiseAll, Home.firstPaint, Home.catchBlock,
      homeShowing1000Cache1500, session1500, itemTruthy, text1500, summaryOf, truthy,
      Home.setLoading, Home.setIsInitialLoadRef]
  · simp [analysisShowing1000Cache1500, Analysis.State.summary, responseOf, getProp, getField]
  · simp [Analysis.fetchPortfolioData, Analysis.tryBlock, Analysis.firstPaint,
      Analysis.catchBlock, analysisShowing1000Cache1500, session1500, itemTruthy, text1500,
      responseOf, truthy, Analysis.setLoading, Analysis.State.summary, getProp, getField]
  · simp [summaryOf]

/-- C11, amended: `Home.fetchData` is called from the render that displays the
summary in memory (the mount effect on a cold start, or a handler of the
current render), so that the `portfolioSummary` it captured is the displayed
one.  When the backend call fails and a summary is in memory,
`Analysis.fetchPortfolioData` keeps its state whatever the cache holds, and
`Home.fetchData` keeps the summary in memory when `hasDataRef` is set and
resolves to a cached summary with a numeric total only when it is not set;
when only a cached summary with `total_equity > 0` exists both resolve to it,
and when the store has no summary Home keeps what is in memory. -/
theorem failure_fallback_order (P : Platform) (showLoading : Bool)
    (transactionsResult portfolioResult : Option JSVal) (wh : Home.World) (wa : Analysis.World)
    (hfail : promiseAll transactionsResult portfolioResult = none) :
    (truthy wh.state.portfolioSummary = true → wh.state.hasDataRef = true →
      (Home.fetchData P showLoading transactionsResult portfolioResult
        wh.state.portfolioSummary wh).2.state.portfolioSummary
        = wh.state.portfolioSummary)
    ∧ (truthy wa.state.portfolioData = true →
      (Analysis.fetchPortfolioData P none wa).2.state.portfolioData = wa.state.portfolioData)
    ∧ (∀ s cached, truthy wh.state.portfolioSummary = true → wh.state.hasDataRef = false →
        wh.session.portfolioSummary = some s → s ≠ "" → P.parse s = some cached →
        typeofNumber (getProp cached "total_equity") = true →
      (Home.fetchData P showLoading transactionsResult portfolioResult
        wh.state.portfolioSummary wh).2.state.portfolioSummary
        = cached)
    ∧ (∀ s cached, wh.state.portfolioSummary = null →
        wh.session.portfolioSummary = some s → s ≠ "" → P.parse s = some cached →
        hasPositiveTotal cached = true →
      (Home.fetchData P showLoading transactionsResult portfolioResult
        wh.state.portfolioSummary wh).2.state.portfolioSummary
        = cached)
    ∧ (∀ s cached, wa.state.portfolioData = null →
        wa.session.portfolioSummary = some s → s ≠ "" → P.parse s = some cached →
        hasPositiveTotal cached = true →
      (Analysis.fetchPortfolioData P none wa).2.state.summary = cached)
    ∧ (wh.session.portfolioSummary = none →
      (Home.fetchData P showLoading transactionsResult portfolioResult
        wh.state.portfolioSummary wh).2.state.portfolioSummary
        = wh.state.portfolioSummary) := by
  refine ⟨?_, ?_, ?_, ?_, ?_, ?_⟩
  · intro ht hf
    rw [Home.fetchData_fail P _ _ _ _ wh hfail, Home.firstPaint_truthy P _ _ _ ht]
    split_ifs <;> (rw [Home.catchBlock_flagged P _ (by simpa [Home.setLoading] using hf)]; rfl)
  · intro ht
    rw [Analysis.fetchPortfolioData_fail, Analysis.catchBlock_truthy P _ _ ht,
      Analysis.firstPaint_with_state P _ _ ht]
    rfl
  · intro s cached ht hf hs hne hp hnum
    obtain ⟨n, hn⟩ : ∃ n, getProp cached "total_equity" = num n := by
      cases hte : getProp cached "total_equity" <;> simp_all [typeofNumber]
    rw [Home.fetchData_fail P _ _ _ _ wh hfail, Home.firstPaint_truthy P _ _ _ ht]
    split_ifs <;>
      simp [Home.catchBlock, Home.setLoading, Home.setIsInitialLoadRef, hf, hs, itemTruthy, hne,
        Home.adoptCached_numeric P s cached n _ hp hn, Home.setHasDataRef,
        Home.setPortfolioSummary]
  · intro s cached hm hs hne hp hpos
    obtain ⟨n, hn, _⟩ := (hasPositiveTotal_iff cached).1 hpos
    rw [Home.fetchData_fail P _ _ _ _ wh hfail]
    have hfp : Home.firstPaint P showLoading wh.state.portfolioSummary wh
        = if showLoading || wh.state.isInitialLoadRef then
            Home.setLoading true (Home.setHasDataRef true (Home.setPortfolioSummary cached wh))
          else Home.setHasDataRef true (Home.setPortfolioSummary cached wh) := by
      simp [Home.firstPaint, hs, hm, itemTruthy, hne, truthy_null,
        Home.adoptCached_numeric P s cached n _ hp hn]
    rw [hfp]
    split_ifs <;> (rw [Home.catchBlock_flagged P _ rfl]; rfl)
  · intro s cached hm hs hne hp hpos
    have hfa := Analysis.firstPaint_keeps_session P wa.state.portfolioData wa
    rw [hm] at hfa
    rw [Analysis.fetchPortfolioData_fail, hm]
    simp [Analysis.catchBlock, hfa.1, hs, itemTruthy, hne, truthy_null,
      Analysis.cachedPositive_pos P s cached hp hpos, Analysis.State.summary,
      Analysis.setLoading, Analysis.setPortfolioData, getProp, getField]
  · intro hs
    have hit : itemTruthy wh.session.portfolioSummary = false := by simp [hs, itemTruthy]
    rw [Home.fetchData_fail P _ _ _ _ wh hfail, Home.firstPaint_no_cache P _ _ _ hit]
    split_ifs <;> (rw [Home.catchBlock_no_cache P _ (by simpa [Home.setLoading] using hit)]; rfl)

theorem failure_fallback_order_witness :
    (Home.fetchData samplePlatform false none none
        (summaryOf 1000) homeShowing1000Cache1500).2.state.portfolioSummary
      = homeShowing1000Cache1500.state.portfolioSummary
    ∧ (Analysis.fetchPortfolioData samplePlatform none
        analysisShowing1000Cache1500).2.state.portfolioData
      = analysisShowing1000Cache1500.state.portfolioData
    ∧ (Analysis.fetchPortfolioData samplePlatform none
        (Analysis.World.fresh session1500)).2.state.summary = summaryOf 1500 :=
  have h := failure_fallback_order samplePlatform false none none homeShowing1000Cache1500
    analysisShowing1000Cache1500 rfl
  have h2 := failure_fallback_order samplePlatform false none none homeShowing1000Cache1500
    (Analysis.World.fresh session1500) rfl
  ⟨h.1 rfl rfl, h.2.1 rfl,
    h2.2.2.2.2.1 text1500 (summaryOf 1500) rfl rfl (by decide)
      (by simp [samplePlatform, text1000, text1500]) (by decide)⟩

/-- C12: when the backend call fails and there is neither a cached summary nor
a summary in memory, `Home.fetchData` and `Analysis.fetchPortfolioData`
complete normally, leave the displayed state `null` (so no summary with
`total_equity` 0 is set) and leave sessionStorage and its trace unchanged. -/
theorem failure_without_data_stays_absent (P : Platform) (showLoading : Bool)
    (transactionsResult portfolioResult : Option JSVal) (wh : Home.World) (wa : Analysis.World)
    (hfail : promiseAll transactionsResult portfolioResult = none)
    (hhc : wh.session.portfolioSummary = none) (hhm : wh.state.portfolioSummary = null)
    (hac : wa.session.portfolioSummary = none) (ham : wa.state.portfolioData = null) :
    (Home.fetchData P showLoading transactionsResult portfolioResult
      wh.state.portfolioSummary wh).1 = Completion.normal
    ∧ (Home.fetchData P showLoading transactionsResult portfolioResult
        wh.state.portfolioSummary wh).2.state.portfolioSummary
        = null
    ∧ hasZeroTotal
        (Home.fetchData P showLoading transactionsResult portfolioResult
          wh.state.portfolioSummary wh).2.state.portfolioSummary
        = false
    ∧ (Home.fetchData P showLoading transactionsResult portfolioResult
        wh.state.portfolioSummary wh).2.session = wh.session
    ∧ (Home.fetchData P showLoading transactionsResult portfolioResult
        wh.state.portfolioSummary wh).2.trace = wh.trace
    ∧ (Analysis.fetchPortfolioData P none wa).1 = Completion.normal
    ∧ (Analysis.fetchPortfolioData P none wa).2.state.portfolioData = null
    ∧ (Analysis.fetchPortfolioData P none wa).2.session = wa.session
    ∧ (Analysis.fetchPortfolioData P none wa).2.trace = wa.trace := by
  have hit : itemTruthy wh.session.portfolioSummary = false := by simp [hhc, itemTruthy]
  have hh : (Home.fetchData P showLoading transactionsResult portfolioResult
              wh.state.portfolioSummary wh).2.state.portfolioSummary
      = null := by
    rw [Home.fetchData_fail P _ _ _ _ wh hfail, Home.firstPaint_no_cache P _ _ _ hit]
    split_ifs <;>
      (rw [Home.catchBlock_no_cache P _ (by simpa [Home.setLoading] using hit)]; exact hhm)
  have hfp := Home.firstPaint_session P showLoading wh.state.portfolioSummary wh
  have hcb := Home.catchBlock_session P (Home.firstPaint P showLoading wh.state.portfolioSummary wh)
  have hfa := Analysis.firstPaint_keeps_session P wa.state.portfolioData wa
  have hca := Analysis.catchBlock_keeps_session P wa.state.portfolioData
    (Analysis.firstPaint P wa.state.portfolioData wa)
  refine ⟨?_, hh, ?_, ?_, ?_, ?_, ?_, ?_, ?_⟩
  · rw [Home.fetchData_fail P _ _ _ _ wh hfail]
  · rw [hh]
    rfl
  · rw [Home.fetchData_fail P _ _ _ _ wh hfail]
    exact hcb.1.trans hfp.1
  · rw [Home.fetchData_fail P _ _ _ _ wh hfail]
    exact hcb.2.trans hfp.2
  · rw [Analysis.fetchPortfolioData_fail]
  · rw [Analysis.fetchPortfolioData_fail]
    simp [Analysis.catchBlock, Analysis.firstPaint, hac, itemTruthy, Analysis.setLoading, ham]
  · rw [Analysis.fetchPortfolioData_fail]
    exact hca.1.trans hfa.1
  · rw [Analysis.fetchPortfolioData_fail]
    exact hca.2.trans hfa.2

theorem failure_without_data_stays_absent_witness :
    (Home.fetchData samplePlatform true none (some (responseOf 1500 holdingsBTC))
        null (Home.World.fresh sessionEmpty)).2.state.portfolioSummary = null
    ∧ (Analysis.fetchPortfolioData samplePlatform none
        (Analysis.World.fresh sessionEmpty)).2.state.portfolioData = null :=
  have h := failure_without_data_stays_absent samplePlatform true none
    (some (responseOf 1500 holdingsBTC)) (Home.World.fresh sessionEmpty)
    (Analysis.World.fresh sessionEmpty) rfl rfl rfl rfl rfl
  ⟨h.2.1, h.2.2.2.2.2.2.1⟩

/-- A response whose fresh summary is positive makes `Home.fetchData` store
the text of that summary. -/
theorem Home.fetchData_stores_positive (P : Platform) (showLoading : Bool)
    (transactionsData response : JSVal) (ps : JSVal) (w : Home.World)
    (hpos : hasPositiveTotal (Home.freshSummary response) = true) :
    (Home.fetchData P showLoading (some transactionsData) (some response) ps w).2.session
      = { w.session with portfolioSummary := some (P.stringify (Home.freshSummary response)) } := by
  have hfp := (Home.firstPaint_session P showLoading ps w).1
  rw [Home.fetchData_ok]
  by_cases hc : (truthy response && truthy (getProp response "summary")) = true
  · simp only [Home.freshSummary, hc, ↓reduceIte] at hpos ⊢
    obtain ⟨n, hn, hgt⟩ := (hasPositiveTotal_iff _).1 hpos
    have hnz := gtZero_not_isZero n hgt
    have hnn := gtZero_not_isNaN n hgt
    simp only [Bool.and_eq_true] at hc
    simp [Home.afterResponse, Home.resolve, hc.1, hc.2, Home.withSummary, hn, typeofNumber,
      notNaN, strictEqZero, hnz, hnn, jsGtZero, hgt, Home.setIsInitialLoadRef, Home.setLoading,
      Home.setHasDataRef, Home.setItemSummary, Home.setPortfolioSummary, Home.setTransactions,
      hfp]
  · simp only [Bool.not_eq_true] at hc
    simp only [Home.freshSummary, hc, Bool.false_eq_true, ↓reduceIte] at hpos ⊢
    obtain ⟨n, hn, hgt⟩ := (hasPositiveTotal_iff _).1 hpos
    have hnz := gtZero_not_isZero n hgt
    have hnn := gtZero_not_isNaN n hgt
    have hrt := truthy_of_total_equity_num response n hn
    have hst : truthy (getProp response "summary") = false := by simpa [hrt] using hc
    simp [Home.afterResponse, Home.resolve, hst, hrt, Home.bareSummary, hn, typeofNumber,
      notNaN, strictEqZero, hnz, hnn, jsGtZero, hgt, Home.setIsInitialLoadRef, Home.setLoading,
      Home.setHasDataRef, Home.setItemSummary, Home.setPortfolioSummary, Home.setTransactions,
      hfp]

/-- A response with a positive summary makes `Analysis.fetchPortfolioData`
store its text. -/
theorem Analysis.fetchPortfolioData_stores_positive (P : Platform) (response : JSVal)
    (w : Analysis.World) (hpos : hasPositiveTotal (getProp response "summary") = true) :
    (Analysis.fetchPortfolioData P (some response) w).2.session.portfolioSummary
      = some (P.stringify (getProp response "summary")) := by
  obtain ⟨n, hn, hgt⟩ := (hasPositiveTotal_iff _).1 hpos
  obtain ⟨hrt, hst⟩ := truthy_of_summary_total response n hn
  have hnz := gtZero_not_isZero n hgt
  have hd : isNullish response = false := by cases response <;> simp_all [isNullish, truthy]
  have hsb : Analysis.suspectBranch P w.state.portfolioData w.session.portfolioSummary response
      (Analysis.firstPaint P w.state.portfolioData w) = none := by
    simp [Analysis.suspectBranch, hn, strictEqZero, hnz]
  rw [Analysis.fetchPortfolioData_normal P _ w hsb hd]
  exact Analysis.normalCase_session_pos P _ _ hpos

/-- The first paint of a cold start of Home over a store that holds the text
of a summary with a numeric total displays that summary. -/
theorem Home.firstPaint_restores (P : Platform) (showLoading : Bool) (σ : SessionStorage)
    (t : String) (s : JSVal) (hσ : σ.portfolioSummary = some t) (hne : t ≠ "")
    (hp : P.parse t = some s) (hpos : hasPositiveTotal s = true) :
    (Home.firstPaint P showLoading null (Home.World.fresh σ)).state.portfolioSummary = s := by
  obtain ⟨n, hn, _⟩ := (hasPositiveTotal_iff s).1 hpos
  have hσ2 : (Home.World.fresh σ).session.portfolioSummary = some t := hσ
  simp only [Home.firstPaint, hσ2, itemTruthy, truthy_null,
    Home.adoptCached_numeric P t s n _ hp hn]
  split_ifs <;> simp_all [Home.setLoading, Home.setHasDataRef, Home.setPortfolioSummary]

/-- The first paint of a cold start of Analysis over a store that holds the
text of a summary with a positive total displays that summary. -/
theorem Analysis.firstPaint_restores_snapshot (P : Platform) (σ : SessionStorage)
    (t : String) (s : JSVal) (hσ : σ.portfolioSummary = some t) (hne : t ≠ "")
    (hp : P.parse t = some s) (hpos : hasPositiveTotal s = true) :
    (Analysis.firstPaint P null (Analysis.World.fresh σ)).state.summary = s := by
  have hσ2 : (Analysis.World.fresh σ).session.portfolioSummary = some t := hσ
  simp [Analysis.firstPaint, hσ2, itemTruthy, hne, truthy_null, Analysis.restore,
    Analysis.cachedPositive_pos P t s hp hpos, Analysis.setLoading, Analysis.setPortfolioData,
    Analysis.State.summary, getProp, getField]

/-- C14, the code at the failing input: a cold start of Analysis over a store
that holds the total 1000 and a one-row holdings list.  The first paint shows
the cached holdings; when the backend call then fails, or answers a zero total
with an empty list, the run ends with the cached summary but with the empty
holdings list. -/
theorem cold_start_fallback_loses_cached_holdings :
    (Analysis.firstPaint samplePlatformWithHoldings null
        (Analysis.World.fresh sessionSnapshot1000)).state.holdings = holdingsBTC
    ∧ (Analysis.fetchPortfolioData samplePlatformWithHoldings none
        (Analysis.World.fresh sessionSnapshot1000)).2.state.summary = summaryOf 1000
    ∧ (Analysis.fetchPortfolioData samplePlatformWithHoldings none
        (Analysis.World.fresh sessionSnapshot1000)).2.state.holdings = arr []
    ∧ (Analysis.fetchPortfolioData samplePlatformWithHoldings (some (responseOf 0 (arr [])))
        (Analysis.World.fresh sessionSnapshot1000)).2.state.summary = summaryOf 1000
    ∧ (Analysis.fetchPortfolioData samplePlatformWithHoldings (some (responseOf 0 (arr [])))
        (Analysis.World.fresh sessionSnapshot1000)).2.state.holdings = arr []
    ∧ arr [] ≠ holdingsBTC := by
  refine ⟨rfl, rfl, rfl, rfl, rfl, ?_⟩
  simp [holdingsBTC]

theorem Analysis.hasHoldings_arr (P : Platform) (data : JSVal) (items : List JSVal)
    (h : getProp data "holdings" = arr items) :
    Analysis.hasHoldings P data = !items.isEmpty := by
  unfold Analysis.hasHoldings
  rw [h]
  cases items with
  | nil => simp [truthy, getProp, jsGtZero, JSNum.gtZero]
  | cons x xs =>
    have : (0 : ℚ) < (xs.length : ℚ) + 1 := by positivity
    simp [truthy, getProp, jsGtZero, JSNum.gtZero, this]

theorem Analysis.hasHoldings_missing (P : Platform) (data : JSVal)
    (h : getProp data "holdings" = undefined) : Analysis.hasHoldings P data = false := by
  simp [Analysis.hasHoldings, h, truthy]

theorem Analysis.previousHoldings_arr (pd : JSVal) (prev : List JSVal)
    (h : getProp pd "holdings" = arr prev) : Analysis.previousHoldings pd = arr prev := by
  have hn : isNullish pd = false := by
    cases pd <;> simp_all [getProp, isNullish]
  unfold Analysis.previousHoldings
  simp only [hn, Bool.false_eq_true, ↓reduceIte, h]
  rfl

/-- C15: in `Analysis.fetchPortfolioData`, when the backend summary has
`total_equity` 0 and a positive cached or in-memory summary is preferred, the
run completes normally and the resolved holdings are the merge the
specification words: the backend's list if it is non-empty, otherwise the list
in memory (the empty list when the state is `null`); a response without a
`holdings` property counts as the empty list. -/
theorem suspect_branch_merges_holdings (P : Platform) (response : JSVal) (wa : Analysis.World)
    (previous incoming : List JSVal)
    (hzero : hasZeroTotal (getProp response "summary") = true)
    (hpref : (∃ s cached, wa.session.portfolioSummary = some s ∧ s ≠ ""
        ∧ P.parse s = some cached ∧ hasPositiveTotal cached = true)
      ∨ hasPositiveTotal wa.state.summary = true)
    (hprev : (wa.state.portfolioData = null ∧ previous = [])
      ∨ wa.state.holdings = arr previous)
    (hin : (getProp response "holdings" = undefined ∧ incoming = [])
      ∨ getProp response "holdings" = arr incoming) :
    (Analysis.fetchPortfolioData P (some response) wa).1 = Completion.normal
    ∧ (Analysis.fetchPortfolioData P (some response) wa).2.state.holdings
        = arr (specMergeHoldings previous incoming) := by
  obtain ⟨z, hz, hz0⟩ := (hasZeroTotal_iff _).1 hzero
  obtain ⟨hrt, hst⟩ := truthy_of_summary_total response z hz
  -- what the response contributes
  have hpick : ∀ fallback : JSVal, fallback = arr previous →
      (if Analysis.hasHoldings P response then getProp response "holdings" else fallback)
        = arr (specMergeHoldings previous incoming) := by
    intro fallback hf
    rcases hin with ⟨hu, rfl⟩ | ha
    · simp [Analysis.hasHoldings_missing P response hu, hf, specMergeHoldings]
    · rw [Analysis.hasHoldings_arr P response incoming ha]
      cases incoming with
      | nil => simp [hf, specMergeHoldings]
      | cons x xs => simp [ha, specMergeHoldings]
  have hprevH : Analysis.previousHoldings wa.state.portfolioData = arr previous := by
    rcases hprev with ⟨hnull, rfl⟩ | hp
    · simp [hnull, Analysis.previousHoldings, isNullish, truthy]
    · exact Analysis.previousHoldings_arr _ _ hp
  by_cases hcache : ∃ s cached, wa.session.portfolioSummary = some s ∧ s ≠ ""
      ∧ P.parse s = some cached ∧ hasPositiveTotal cached = true
  · obtain ⟨s, cached, hs, hne, hp, hpos⟩ := hcache
    have hsb : Analysis.suspectBranch P wa.state.portfolioData wa.session.portfolioSummary response
        (Analysis.firstPaint P wa.state.portfolioData wa)
        = some (Analysis.setLoading false (Analysis.setPortfolioData
            (obj (setField (setField (spread response) "summary" cached) "holdings"
              (arr (specMergeHoldings previous incoming))))
            (Analysis.firstPaint P wa.state.portfolioData wa))) := by
      simp [Analysis.suspectBranch, hrt, hst, hz, strictEqZero, hz0, hs, itemTruthy, hne,
        Analysis.cachedPositive_pos P s cached hp hpos, hpick _ hprevH]
    rw [Analysis.fetchPortfolioData_suspect P response wa _ hsb]
    simp [Analysis.State.holdings, Analysis.setLoading, Analysis.setPortfolioData, getProp_obj,
      getField_setField_same]
  · have hmem : hasPositiveTotal wa.state.summary = true := by
      rcases hpref with h | h
      · exact absurd h hcache
      · exact h
    have hnc : (if itemTruthy wa.session.portfolioSummary then
        Analysis.cachedPositive P wa.session.portfolioSummary else none) = none := by
      cases hcs : wa.session.portfolioSummary with
      | none => simp [itemTruthy]
      | some s =>
        by_cases hne : s = ""
        · simp [itemTruthy, hne]
        · cases hcp : Analysis.cachedPositive P (some s) with
          | none => simp
          | some cached =>
            exfalso
            apply hcache
            refine ⟨s, cached, hcs, hne, ?_, Analysis.cachedPositive_some P _ _ hcp⟩
            unfold Analysis.cachedPositive at hcp
            simp only [parseItem] at hcp
            split at hcp
            · next parsed hp =>
              split at hcp
              · cases hcp
                exact hp
              · cases hcp
            · cases hcp
    unfold Analysis.State.summary at hmem
    obtain ⟨n, hn, hgt⟩ := (hasPositiveTotal_iff _).1 hmem
    obtain ⟨hpt, hpst⟩ := truthy_of_summary_total _ n hn
    have hm := jsGtZero_of_positive P _ hmem
    simp only [Bool.and_eq_true] at hm
    have hph : getProp wa.state.portfolioData "holdings" = arr previous := by
      rcases hprev with ⟨hnull, _⟩ | hp
      · rw [hnull] at hpt
        cases hpt
      · exact hp
    have hsb : Analysis.suspectBranch P wa.state.portfolioData wa.session.portfolioSummary response
        (Analysis.firstPaint P wa.state.portfolioData wa)
        = some (Analysis.setLoading false (Analysis.setPortfolioData
            (obj (setField (spread wa.state.portfolioData) "holdings"
              (arr (specMergeHoldings previous incoming))))
            (Analysis.firstPaint P wa.state.portfolioData wa))) := by
      simp only [Analysis.suspectBranch, hrt, hst, hz, strictEqZero, hz0, Bool.and_self,
        ↓reduceIte, hnc, hpt, hpst, hm.2, hpick _ hph]
    rw [Analysis.fetchPortfolioData_suspect P response wa _ hsb]
    simp [Analysis.State.holdings, Analysis.setLoading, Analysis.setPortfolioData, getProp_obj,
      getField_setField_same]

theorem suspect_branch_merges_holdings_witness :
    (Analysis.fetchPortfolioData samplePlatform (some (responseOf 0 (arr [])))
        analysisShowing1000NoCache).2.state.holdings
      = arr (specMergeHoldings [obj [("symbol", str "BTC"), ("coins", num (JSNum.fin 2))]] []) :=
  (suspect_branch_merges_holdings samplePlatform (responseOf 0 (arr []))
    analysisShowing1000NoCache [obj [("symbol", str "BTC"), ("coins", num (JSNum.fin 2))]] []
    (by decide) (Or.inr (by decide)) (Or.inr rfl) (Or.inr rfl)).2

theorem Home.adoptCached_source (P : Platform) (c : Option String) :
    (∀ w, Home.adoptCached P c w = w)
    ∨ ∃ s v, c = some s ∧ P.parse s = some v
        ∧ ∀ w, Home.adoptCached P c w = Home.setHasDataRef true (Home.setPortfolioSummary v w) := by
  unfold Home.adoptCached
  cases c with
  | none => exact Or.inl (fun _ => rfl)
  | some s =>
    cases hp : P.parse s with
    | none => exact Or.inl (fun _ => by simp [parseItem, hp])
    | some parsed =>
      by_cases h : (truthy parsed && typeofNumber (getProp parsed "total_equity")) = true
      · exact Or.inr ⟨s, parsed, rfl, hp, fun w => by simp [parseItem, hp, h]⟩
      · exact Or.inl (fun w => by simp [parseItem, hp, h])

theorem Home.adoptPositiveCached_source (P : Platform) (c : Option String) :
    (∀ w, Home.adoptPositiveCached P c w = (false, w))
    ∨ ∃ s v, c = some s ∧ P.parse s = some v
        ∧ ∀ w, Home.adoptPositiveCached P c w
          = (true, Home.setHasDataRef true (Home.setPortfolioSummary v w)) := by
  unfold Home.adoptPositiveCached
  by_cases hc : itemTruthy c = true
  · cases c with
    | none => exact Or.inl (fun _ => by simp [parseItem])
    | some s =>
      cases hp : P.parse s with
      | none => exact Or.inl (fun _ => by simp [parseItem, hp])
      | some parsed =>
        by_cases h : (truthy parsed && typeofNumber (getProp parsed "total_equity")
            && jsGtZero P (getProp parsed "total_equity")) = true
        · exact Or.inr ⟨s, parsed, rfl, hp, fun w => by simp [hc, parseItem, hp, h]⟩
        · exact Or.inl (fun w => by simp [hc, parseItem, hp, h])
  · exact Or.inl (fun _ => by simp [hc])

theorem Home.adoptCached_picked (P : Platform) (c : Option String) (fresh : Option JSVal)
    (w : Home.World) :
    pickedWhole P c w.state.portfolioSummary fresh
      (Home.adoptCached P c w).state.portfolioSummary := by
  rcases Home.adoptCached_source P c with hs | ⟨s, v, hc, hp, hs⟩
  · rw [hs]
    exact Or.inl rfl
  · rw [hs]
    exact Or.inr (Or.inl ⟨s, hc, hp⟩)

theorem Home.withSummary_picked (P : Platform) (ps : JSVal) (c : Option String)
    (summary : JSVal) (w : Home.World) :
    pickedWhole P c w.state.portfolioSummary (some summary)
      (Home.withSummary P ps c summary w).state.portfolioSummary := by
  have hac := Home.adoptCached_picked P c (some summary) w
  simp only [Home.withSummary]
  rcases Home.adoptPositiveCached_source P c with hs | ⟨s, v, hc, hp, hs⟩
  · simp only [hs]
    split_ifs <;>
      first
        | exact Or.inl rfl
        | exact Or.inr (Or.inr rfl)
        | exact hac
  · simp only [hs]
    split_ifs <;>
      first
        | exact Or.inl rfl
        | exact Or.inr (Or.inr rfl)
        | exact Or.inr (Or.inl ⟨s, hc, hp⟩)
        | exact hac

theorem Home.bareSummary_picked (P : Platform) (ps : JSVal) (c : Option String)
    (pd : JSVal) (w : Home.World) :
    pickedWhole P c w.state.portfolioSummary (some pd)
      (Home.bareSummary P ps c pd w).state.portfolioSummary := by
  simp only [Home.bareSummary]
  rcases Home.adoptPositiveCached_source P c with hs | ⟨s, v, hc, hp, hs⟩
  · simp only [hs]
    split_ifs <;>
      first
        | exact Or.inl rfl
        | exact Or.inr (Or.inr rfl)
  · simp only [hs]
    split_ifs <;>
      first
        | exact Or.inl rfl
        | exact Or.inr (Or.inr rfl)
        | exact Or.inr (Or.inl ⟨s, hc, hp⟩)

theorem Home.resolve_picked (P : Platform) (ps : JSVal) (c : Option String) (pd : JSVal)
    (w : Home.World) :
    pickedWhole P c w.state.portfolioSummary (some (Home.freshSummary pd))
      (Home.resolve P ps c pd w).state.portfolioSummary := by
  by_cases h1 : (truthy pd && truthy (getProp pd "summary")) = true
  · simp only [Home.resolve, Home.freshSummary, h1, ↓reduceIte]
    exact Home.withSummary_picked P ps c _ w
  · simp only [Bool.not_eq_true] at h1
    simp only [Home.resolve, Home.freshSummary, h1, Bool.false_eq_true, ↓reduceIte]
    split_ifs
    · exact Home.bareSummary_picked P ps c pd w
    · exact Home.adoptCached_picked P c _ w
    · exact Or.inl rfl

/-- The summary a run of `Home.fetchData` ends on is the one in memory, the
parsed cache, or the fresh one. -/
theorem Home.fetchData_picked (P : Platform) (showLoading : Bool)
    (transactionsResult portfolioResult : Option JSVal) (ps : JSVal) (w : Home.World) :
    pickedWhole P w.session.portfolioSummary w.state.portfolioSummary
      ((promiseAll transactionsResult portfolioResult).map (fun r : JSVal × JSVal => Home.freshSummary r.2))
      (Home.fetchData P showLoading transactionsResult portfolioResult
        ps w).2.state.portfolioSummary := by
  have hfs := (Home.firstPaint_session P showLoading ps w).1
  -- the first paint keeps the summary or takes the cached one
  have hfp : ∀ fresh, pickedWhole P w.session.portfolioSummary w.state.portfolioSummary fresh
      (Home.firstPaint P showLoading ps w).state.portfolioSummary := by
    intro fresh
    have hac := Home.adoptCached_picked P w.session.portfolioSummary fresh w
    simp only [Home.firstPaint]
    split_ifs <;> first | exact hac | exact Or.inl rfl
  -- a later step that picks relative to the first paint picks relative to the start
  have hchain : ∀ fresh r, pickedWhole P w.session.portfolioSummary
      (Home.firstPaint P showLoading ps w).state.portfolioSummary fresh r →
      pickedWhole P w.session.portfolioSummary w.state.portfolioSummary fresh r := by
    intro fresh r hr
    rcases hr with h | h | h
    · rw [h]
      exact hfp fresh
    · exact Or.inr (Or.inl h)
    · exact Or.inr (Or.inr h)
  cases hpa : promiseAll transactionsResult portfolioResult with
  | none =>
    rw [Home.fetchData_fail P _ _ _ _ w hpa]
    apply hchain
    simp only [Home.catchBlock]
    split_ifs
    · have := Home.adoptCached_picked P
        (Home.setIsInitialLoadRef false (Home.setLoading false
          (Home.firstPaint P showLoading ps w))).session.portfolioSummary
        (Option.map (fun r : JSVal × JSVal => Home.freshSummary r.2) none)
        (Home.setIsInitialLoadRef false (Home.setLoading false
          (Home.firstPaint P showLoading ps w)))
      simpa [Home.setIsInitialLoadRef, Home.setLoading, hfs] using this
    · exact Or.inl rfl
    · exact Or.inl rfl
  | some pr =>
    obtain ⟨tx, pd⟩ := pr
    have h1 : transactionsResult = some tx ∧ portfolioResult = some pd := by
      cases transactionsResult <;> cases portfolioResult <;> simp_all [promiseAll]
    obtain ⟨rfl, rfl⟩ := h1
    rw [Home.fetchData_ok]
    apply hchain
    have := Home.resolve_picked P ps w.session.portfolioSummary pd
      (Home.setTransactions (if isArray tx then tx else arr [])
        (Home.firstPaint P showLoading ps w))
    simpa [Home.afterResponse, Home.setIsInitialLoadRef, Home.setLoading,
      Home.setTransactions] using this

theorem Analysis.cachedPositive_parse (P : Platform) (c : Option String) (parsed : JSVal)
    (h : Analysis.cachedPositive P c = some parsed) :
    ∃ s, c = some s ∧ P.parse s = some parsed := by
  cases c with
  | none => simp [Analysis.cachedPositive, parseItem] at h
  | some s =>
    refine ⟨s, rfl, ?_⟩
    unfold Analysis.cachedPositive at h
    simp only [parseItem] at h
    split at h
    · next p hp =>
      split at h
      · cases h
        exact hp
      · cases h
    · cases h

/-- The summary a run of `Analysis.fetchPortfolioData` ends on is the one in
memory, the parsed cache, or the fresh one. -/
theorem Analysis.fetchPortfolioData_picked (P : Platform) (response : Option JSVal)
    (w : Analysis.World) :
    pickedWhole P w.session.portfolioSummary w.state.summary
      (response.map (fun data => getProp data "summary"))
      (Analysis.fetchPortfolioData P response w).2.state.summary := by
  have hfs := (Analysis.firstPaint_keeps_session P w.state.portfolioData w).1
  have hfp : ∀ fresh, pickedWhole P w.session.portfolioSummary w.state.summary fresh
      (Analysis.firstPaint P w.state.portfolioData w).state.summary := by
    intro fresh
    simp only [Analysis.firstPaint, Analysis.restore]
    split_ifs
    · cases hcp : Analysis.cachedPositive P w.session.portfolioSummary with
      | none => exact Or.inl rfl
      | some parsed =>
        obtain ⟨s, hs, hp⟩ := Analysis.cachedPositive_parse P _ _ hcp
        refine Or.inr (Or.inl ⟨s, hs, ?_⟩)
        rw [hp]
        simp [Analysis.State.summary, Analysis.setLoading, Analysis.setPortfolioData, getProp,
          getField]
    · exact Or.inl rfl
  have hcatch : ∀ fresh, pickedWhole P w.session.portfolioSummary w.state.summary fresh
      (Analysis.catchBlock P w.state.portfolioData
        (Analysis.firstPaint P w.state.portfolioData w)).state.summary := by
    intro fresh
    simp only [Analysis.catchBlock, hfs]
    split_ifs
    · cases hcp : Analysis.cachedPositive P w.session.portfolioSummary with
      | none => exact hfp fresh
      | some parsed =>
        obtain ⟨s, hs, hp⟩ := Analysis.cachedPositive_parse P _ _ hcp
        refine Or.inr (Or.inl ⟨s, hs, ?_⟩)
        rw [hp]
        simp [Analysis.State.summary, Analysis.setLoading, Analysis.setPortfolioData, getProp,
          getField]
    · exact hfp fresh
  cases response with
  | none =>
    rw [Analysis.fetchPortfolioData_fail]
    exact hcatch _
  | some data =>
    cases hsb : Analysis.suspectBranch P w.state.portfolioData w.session.portfolioSummary
        data (Analysis.firstPaint P w.state.portfolioData w) with
    | some w3 =>
      rw [Analysis.fetchPortfolioData_suspect P data w w3 hsb]
      simp only [Analysis.suspectBranch] at hsb
      split at hsb
      · split at hsb
        · next parsed hcp =>
          cases hsb
          have hcp2 : Analysis.cachedPositive P w.session.portfolioSummary = some parsed := by
            split at hcp
            · exact hcp
            · cases hcp
          obtain ⟨s, hs, hp⟩ := Analysis.cachedPositive_parse P _ _ hcp2
          refine Or.inr (Or.inl ⟨s, hs, ?_⟩)
          rw [hp]
          simp [Analysis.State.summary, Analysis.setLoading, Analysis.setPortfolioData, getProp,
            getField_setField_other, getField_setField_same]
        · split at hsb
          · next hmem =>
            cases hsb
            left
            simp only [Bool.and_eq_true] at hmem
            obtain ⟨fs, hfs2⟩ : ∃ fs, w.state.portfolioData = obj fs := by
              cases hpd : w.state.portfolioData <;> simp_all [getProp, truthy]
            simp [Analysis.State.summary, Analysis.setLoading, Analysis.setPortfolioData,
              getProp_obj, getField_setField_other, hfs2, spread]
          · cases hsb
      · cases hsb
    | none =>
      cases hd : isNullish data with
      | true =>
        rw [Analysis.fetchPortfolioData_null P data w hd]
        exact hcatch _
      | false =>
        rw [Analysis.fetchPortfolioData_normal P data w hsb hd]
        refine Or.inr (Or.inr ?_)
        rw [Analysis.State.summary, (Analysis.normalCase_data P data _ hd).2, getProp_obj,
          getField_spread_summary data _ hd]
        rfl

/-- C16: for every run of `Home.fetchData` or `Analysis.fetchPortfolioData`,
the resolved summary is, as a whole value, the summary in memory before the
run, the parsed cached summary or the fresh backend summary; no summary is
assembled from the fields of two. -/
theorem resolved_summary_is_one_whole_summary (P : Platform) (showLoading : Bool)
    (transactionsResult portfolioResult response : Option JSVal)
    (captured : JSVal) (wh : Home.World) (wa : Analysis.World) :
    pickedWhole P wh.session.portfolioSummary wh.state.portfolioSummary
      ((promiseAll transactionsResult portfolioResult).map
        (fun r : JSVal × JSVal => Home.freshSummary r.2))
      (Home.fetchData P showLoading transactionsResult portfolioResult
        captured wh).2.state.portfolioSummary
    ∧ pickedWhole P wa.session.portfolioSummary wa.state.summary
      (response.map (fun data => getProp data "summary"))
      (Analysis.fetchPortfolioData P response wa).2.state.summary :=
  ⟨Home.fetchData_picked P showLoading transactionsResult portfolioResult captured wh,
    Analysis.fetchPortfolioData_picked P response wa⟩

/-- `Home.fetchData` never changes the stored `portfolioHoldings`. -/
theorem Home.fetchData_keeps_holdings (P : Platform) (showLoading : Bool)
    (transactionsResult portfolioResult : Option JSVal) (ps : JSVal) (w : Home.World) :
    (Home.fetchData P showLoading transactionsResult portfolioResult
      ps w).2.session.portfolioHoldings
      = w.session.portfolioHoldings := by
  have hfp := (Home.firstPaint_session P showLoading ps w).1
  cases hpa : promiseAll transactionsResult portfolioResult with
  | none =>
    rw [Home.fetchData_fail P _ _ _ _ w hpa, (Home.catchBlock_session P _).1, hfp]
  | some pr =>
    obtain ⟨tx, pd⟩ := pr
    have h1 : transactionsResult = some tx ∧ portfolioResult = some pd := by
      cases transactionsResult <;> cases portfolioResult <;> simp_all [promiseAll]
    obtain ⟨rfl, rfl⟩ := h1
    cases hpos : hasPositiveTotal (Home.freshSummary pd) with
    | true => rw [Home.fetchData_stores_positive P _ _ _ _ _ hpos]
    | false =>
      rw [Home.fetchData_ok,
        (Home.afterResponse_session_nonpos P _ _ _ _ _ hpos).1, hfp]

/-- What the normal case of Analysis leaves under `portfolioHoldings` after it
has written a positive summary. -/
theorem Analysis.normalCase_holdings (P : Platform) (data : JSVal) (w : Analysis.World)
    (hpos : hasPositiveTotal (getProp data "summary") = true) :
    (Analysis.normalCase P data w).2.session.portfolioHoldings
      = if Analysis.hasHoldings P data then some (P.stringify (getProp data "holdings"))
        else w.session.portfolioHoldings := by
  obtain ⟨n, hn, hgt⟩ := (hasPositiveTotal_iff _).1 hpos
  obtain ⟨hrt, hst⟩ := truthy_of_summary_total data n hn
  have hd : isNullish data = false := by cases data <;> simp_all [isNullish, truthy]
  have hgt2 : jsGtZero P (num n) = true := by simpa [jsGtZero] using hgt
  simp only [Analysis.normalCase, hd, hrt, hst, hn, typeofNumber, hgt2,
    Bool.false_eq_true, Bool.and_self, ↓reduceIte, Analysis.hasHoldings]
  by_cases hh : truthy (getProp data "holdings") = true
  · simp only [hh, ↓reduceIte, Bool.true_and]
    split_ifs <;>
      simp [Analysis.setLoading, Analysis.setPortfolioData, Analysis.setItemSummary,
        Analysis.setItemHoldings]
  · simp only [Bool.not_eq_true] at hh
    have hlen : jsGtZero P (getProp (arr []) "length") = false := by
      simp [getProp, jsGtZero, JSNum.gtZero]
    simp only [hh, Bool.false_eq_true, ↓reduceIte, Bool.false_and, hlen]
    simp [Analysis.setLoading, Analysis.setPortfolioData, Analysis.setItemSummary]

/-- C17, as stated, fails: over a store that holds the snapshot of an earlier
response (total 1000, one holdings row), a response with total 1500 and an
empty holdings list makes `Analysis.fetchPortfolioData`, and likewise
`Home.fetchData`, write the new summary while the stored `portfolioHoldings`
remains the list of the earlier response. -/
theorem stored_holdings_left_over :
    (Analysis.World.fresh sessionSnapshot1000).session.portfolioHoldings = some textBTC
    ∧ (Analysis.fetchPortfolioData samplePlatformWithHoldings (some (responseOf 1500 (arr [])))
        (Analysis.World.fresh sessionSnapshot1000)).2.session.portfolioSummary = some text1500
    ∧ (Analysis.fetchPortfolioData samplePlatformWithHoldings (some (responseOf 1500 (arr [])))
        (Analysis.World.fresh sessionSnapshot1000)).2.session.portfolioHoldings = some textBTC
    ∧ (Home.fetchData samplePlatformWithHoldings true (some (arr []))
        (some (responseOf 1500 (arr [])))
        null (Home.World.fresh sessionSnapshot1000)).2.session.portfolioSummary = some text1500
    ∧ (Home.fetchData samplePlatformWithHoldings true (some (arr []))
        (some (responseOf 1500 (arr [])))
        null (Home.World.fresh sessionSnapshot1000)).2.session.portfolioHoldings = some textBTC
    ∧ samplePlatformWithHoldings.parse textBTC = some holdingsBTC
    ∧ getProp (responseOf 1500 (arr [])) "holdings" = arr []
    ∧ holdingsBTC ≠ arr [] := by
  refine ⟨rfl, by decide, by decide, by decide, by decide, rfl, rfl, ?_⟩
  simp [holdingsBTC]

/-- C17, amended: `Home.fetchData` never changes the stored
`portfolioHoldings`; when `Analysis.fetchPortfolioData` writes a new summary
(the response total is positive) and the holdings list of the response is
non-empty, the stored `portfolioHoldings` afterwards is the text of that same
list, and when the list is empty or missing the entry is left as it was. -/
theorem stored_holdings_follow_nonempty_response (P : Platform) (showLoading : Bool)
    (transactionsResult portfolioResult : Option JSVal) (response : JSVal)
    (captured : JSVal) (wh : Home.World) (wa : Analysis.World)
    (hpos : hasPositiveTotal (getProp response "summary") = true) :
    (Home.fetchData P showLoading transactionsResult portfolioResult
      captured wh).2.session.portfolioHoldings
      = wh.session.portfolioHoldings
    ∧ (Analysis.fetchPortfolioData P (some response) wa).2.session.portfolioSummary
      = some (P.stringify (getProp response "summary"))
    ∧ (∀ x xs, getProp response "holdings" = arr (x :: xs) →
        (Analysis.fetchPortfolioData P (some response) wa).2.session.portfolioHoldings
          = some (P.stringify (getProp response "holdings")))
    ∧ (getProp response "holdings" = arr [] ∨ getProp response "holdings" = undefined →
        (Analysis.fetchPortfolioData P (some response) wa).2.session.portfolioHoldings
          = wa.session.portfolioHoldings) := by
  obtain ⟨n, hn, hgt⟩ := (hasPositiveTotal_iff _).1 hpos
  obtain ⟨hrt, hst⟩ := truthy_of_summary_total response n hn
  have hnz := gtZero_not_isZero n hgt
  have hd : isNullish response = false := by cases response <;> simp_all [isNullish, truthy]
  have hsb : Analysis.suspectBranch P wa.state.portfolioData wa.session.portfolioSummary response
      (Analysis.firstPaint P wa.state.portfolioData wa) = none := by
    simp [Analysis.suspectBranch, hn, strictEqZero, hnz]
  have hfa := (Analysis.firstPaint_keeps_session P wa.state.portfolioData wa).1
  have hnc := Analysis.normalCase_holdings P response
    (Analysis.firstPaint P wa.state.portfolioData wa) hpos
  refine ⟨Home.fetchData_keeps_holdings P showLoading transactionsResult portfolioResult
    captured wh,
    Analysis.fetchPortfolioData_stores_positive P response wa hpos, ?_, ?_⟩
  · intro x xs hh
    rw [Analysis.fetchPortfolioData_normal P _ wa hsb hd, hnc,
      Analysis.hasHoldings_arr P response _ hh]
    rfl
  · intro hh
    rw [Analysis.fetchPortfolioData_normal P _ wa hsb hd, hnc, hfa]
    rcases hh with hh | hh
    · rw [Analysis.hasHoldings_arr P response _ hh]
      rfl
    · rw [Analysis.hasHoldings_missing P response hh]
      rfl

theorem stored_holdings_follow_nonempty_response_witness :
    (Analysis.fetchPortfolioData samplePlatformWithHoldings (some (responseOf 1500 holdingsBTC))
        (Analysis.World.fresh sessionEmpty)).2.session.portfolioHoldings
      = some (samplePlatformWithHoldings.stringify
          (getProp (responseOf 1500 holdingsBTC) "holdings")) :=
  (stored_holdings_follow_nonempty_response samplePlatformWithHoldings true none none
    (responseOf 1500 holdingsBTC) null (Home.World.fresh sessionEmpty)
    (Analysis.World.fresh sessionEmpty) (by decide)).2.2.1 _ [] rfl

/-- C18, the code at the failing input: user A is signed in and the session
storage holds A's snapshot.  `Login.handleSubmit` for user B, the session sync
on mount with B's session, and the auth-state handler for an event other than
`SIGNED_IN` and `SIGNED_UP` each set the stored `userId` to B and leave both
snapshot entries in place; the handler for `SIGNED_IN` removes them. -/
theorem user_change_can_keep_snapshot :
    storageUserA.localStorage.userId = some "user-a"
    ∧ (Login.handleSubmit (fun _ => true) "b@example.com" "secret1"
        (Login.SignIn.signedIn sessionUserB) storageUserA).localStorage.userId = some "user-b"
    ∧ (Login.handleSubmit (fun _ => true) "b@example.com" "secret1"
        (Login.SignIn.signedIn sessionUserB) storageUserA).sessionStorage
      = { portfolioSummary := some text1000, portfolioHoldings := some textBTC }
    ∧ (App.syncSession (some sessionUserB) storageUserA).localStorage.userId = some "user-b"
    ∧ (App.syncSession (some sessionUserB) storageUserA).sessionStorage
      = { portfolioSummary := some text1000, portfolioHoldings := some textBTC }
    ∧ (App.onAuthStateChange "TOKEN_REFRESHED" (some sessionUserB)
        storageUserA).localStorage.userId = some "user-b"
    ∧ (App.onAuthStateChange "TOKEN_REFRESHED" (some sessionUserB) storageUserA).sessionStorage
      = { portfolioSummary := some text1000, portfolioHoldings := some textBTC }
    ∧ (App.onAuthStateChange "SIGNED_IN" (some sessionUserB) storageUserA).sessionStorage
      = { portfolioSummary := none, portfolioHoldings := none } := by
  decide

/-- C19: after the logout handler of Layout, and after the auth-state handler
of App receives a null session (for any event), `portfolioSummary` and
`portfolioHoldings` are absent from sessionStorage whatever they held, and
`authToken`, `userEmail`, `userId` and `authProvider` are absent from
localStorage. -/
theorem logout_clears_snapshot_and_identity (st : Storage) (event : String) :
    (Layout.logout st).sessionStorage
      = { portfolioSummary := none, portfolioHoldings := none }
    ∧ (Layout.logout st).localStorage
      = { authToken := none, userEmail := none, userId := none, authProvider := none }
    ∧ (App.onAuthStateChange event none st).sessionStorage
      = { portfolioSummary := none, portfolioHoldings := none }
    ∧ (App.onAuthStateChange event none st).localStorage
      = { authToken := none, userEmail := none, userId := none, authProvider := none } :=
  ⟨rfl, rfl, rfl, rfl⟩

/-- C20, the code at the failing input: a cold start of Home over a store that
holds a summary with `total_equity` 0.  The first-paint restore, the fallback
after a failed call and the fallback after a response without a numeric total
each display the cached zero summary and set `hasDataRef`, although the cached
total is not greater than 0. -/
theorem cached_zero_marks_data_present :
    samplePlatform.parse text0 = some (summaryOf 0)
    ∧ hasPositiveTotal (summaryOf 0) = false
    ∧ (Home.firstPaint samplePlatform true null
        (Home.World.fresh session0)).state.portfolioSummary = summaryOf 0
    ∧ (Home.firstPaint samplePlatform true null (Home.World.fresh session0)).state.hasDataRef
      = true
    ∧ (Home.fetchData samplePlatform true none none
        null (Home.World.fresh session0)).2.state.portfolioSummary = summaryOf 0
    ∧ (Home.fetchData samplePlatform true none none
        null (Home.World.fresh session0)).2.state.hasDataRef = true
    ∧ (Home.fetchData samplePlatform true (some (arr [])) (some responseWithTextTotal)
        null (Home.World.fresh session0)).2.state.portfolioSummary = summaryOf 0
    ∧ (Home.fetchData samplePlatform true (some (arr [])) (some responseWithTextTotal)
        null (Home.World.fresh session0)).2.state.hasDataRef = true := by
  refine ⟨rfl, rfl, rfl, rfl, rfl, rfl, rfl, rfl⟩

/-! ## Claims on `services/api.js` -/

theorem ApiService.uid_eq_spec (userId : Option String) (ls : LocalStorage) :
    ApiService.uid userId ls = specUserId userId ls.userId := by
  unfold ApiService.uid ApiService.getUserId specUserId
  cases userId with
  | none =>
    cases h : ls.userId with
    | none => simp
    | some s => by_cases hs : s = "" <;> simp [Option.filter, hs]
  | some e =>
    by_cases he : e = ""
    · cases h : ls.userId with
      | none => simp [Option.filter, he]
      | some s => by_cases hs : s = "" <;> simp [Option.filter, he, hs]
    · simp [Option.filter, he]

/-- C21: the user id that `getPortfolio` and every other method with a `userId`
parameter puts into its request is the explicit argument when one is given (a
non-empty string), otherwise the `userId` stored in localStorage when one is
stored and non-empty, otherwise the literal `default`. -/
theorem request_user_id_resolution (userId : Option String) (ls : LocalStorage)
    (transactionId period : String) (limit : Nat) (days : Int)
    (transaction broker credentials startDate endDate useMockData : JSVal) :
    (ApiService.getPortfolio userId ls).endpoint
        = "/portfolio?userId=" ++ specUserId userId ls.userId
      ∧ (ApiService.getTransactions userId limit ls).endpoint
        = "/transactions?userId=" ++ specUserId userId ls.userId ++ "&limit=" ++ toString limit
      ∧ (ApiService.updateTransaction transactionId transaction userId ls).endpoint
        = "/transactions/" ++ transactionId ++ "?userId=" ++ specUserId userId ls.userId
      ∧ (ApiService.deleteTransaction transactionId userId ls).endpoint
        = "/transactions/" ++ transactionId ++ "?userId=" ++ specUserId userId ls.userId
      ∧ (ApiService.importBrokerTransactions broker credentials userId startDate endDate
            useMockData ls).body.map (fun b => getProp b "userId")
        = some (str (specUserId userId ls.userId))
      ∧ (ApiService.getPerformance userId period ls).endpoint
        = "/analytics/performance?userId=" ++ specUserId userId ls.userId
            ++ "&period=" ++ period
      ∧ (ApiService.getPerformers userId limit ls).endpoint
        = "/analytics/performers?userId=" ++ specUserId userId ls.userId
            ++ "&limit=" ++ toString limit
      ∧ (ApiService.getPortfolioHistory userId days ls).endpoint
        = "/analytics/history?userId=" ++ specUserId userId ls.userId
            ++ "&days=" ++ toString days := by
  simp only [ApiService.getPortfolio, ApiService.getTransactions, ApiService.updateTransaction,
    ApiService.deleteTransaction, ApiService.importBrokerTransactions,
    ApiService.getPerformance, ApiService.getPerformers, ApiService.getPortfolioHistory,
    ApiService.uid_eq_spec]
  simp [getProp, getField]

/-- C22, counterexample: a non-ok response whose body is not JSON makes
`request` throw the SyntaxError of `response.json()`, not an `Error` with the
message `HTTP error! status: 502`. -/
theorem non_json_error_body_hides_status :
    ApiService.request samplePlatform wholeNumberText (some responseBadGateway)
        = Except.error ApiService.Thrown.bodyNotJson
      ∧ ApiService.request samplePlatform wholeNumberText (some responseBadGateway)
        ≠ Except.error (ApiService.Thrown.error "HTTP error! status: 502") := by
  have h : ApiService.request samplePlatform wholeNumberText (some responseBadGateway)
      = Except.error ApiService.Thrown.bodyNotJson := by
    simp [ApiService.request, responseBadGateway, samplePlatform, text1000, text1500, text0]
  rw [h]
  exact ⟨rfl, by simp⟩

/-- C22, amended: when the body of the response parses as JSON, `request`
returns the parsed body exactly when the response is ok; for a non-ok response
with a JSON body other than `null` it throws an `Error` whose message is the
body's `error` field when that is a non-empty string, and `HTTP error! status:
<status>` when the field is absent or falsy; and for no non-ok response does it
return a body. -/
theorem request_outcome_on_json_body (P : Platform) (text : JSVal → String)
    (response : ApiService.Response) (data : JSVal)
    (hbody : P.parse response.body = some data) :
    (response.ok = true → ApiService.request P text (some response) = Except.ok data)
      ∧ (∀ d, ApiService.request P text (some response) = Except.ok d →
          response.ok = true ∧ d = data)
      ∧ (response.ok = false → isNullish data = false →
          (∀ s, getProp data "error" = str s → s ≠ "" →
            ApiService.request P text (some response)
              = Except.error (ApiService.Thrown.error s))
          ∧ (truthy (getProp data "error") = false →
            ApiService.request P text (some response)
              = Except.error (ApiService.Thrown.error
                  ("HTTP error! status: " ++ toString response.status))))
      ∧ (∀ (r : ApiService.Response) (d : JSVal), r.ok = false →
          ApiService.request P text (some r) ≠ Except.ok d) := by
  refine ⟨?_, ?_, ?_, ?_⟩
  · intro hok
    simp [ApiService.request, hbody, hok]
  · intro d hd
    cases hok : response.ok with
    | true =>
      simp [ApiService.request, hbody, hok] at hd
      exact ⟨rfl, hd.symm⟩
    | false =>
      simp only [ApiService.request, hbody, hok] at hd
      simp only [Bool.not_false, ↓reduceIte] at hd
      split_ifs at hd
  · intro hok hnn
    refine ⟨?_, ?_⟩
    · intro s hs hne
      simp [ApiService.request, hbody, hok, hnn, hs, truthy, hne, ApiService.messageOf]
    · intro hf
      simp [ApiService.request, hbody, hok, hnn, hf]
  · intro r d hok hd
    simp only [ApiService.request] at hd
    cases hp : P.parse r.body with
    | none => simp [hp] at hd
    | some v =>
      simp only [hp, hok, Bool.not_false, ↓reduceIte] at hd
      split_ifs at hd

theorem request_outcome_on_json_body_witness :
    ((responseZeroTotal503.ok = true →
        ApiService.request samplePlatform wholeNumberText (some responseZeroTotal503)
          = Except.ok (summaryOf 0))
      ∧ (∀ d, ApiService.request samplePlatform wholeNumberText (some responseZeroTotal503)
            = Except.ok d → responseZeroTotal503.ok = true ∧ d = summaryOf 0)
      ∧ (responseZeroTotal503.ok = false → isNullish (summaryOf 0) = false →
          (∀ s, getProp (summaryOf 0) "error" = str s → s ≠ "" →
            ApiService.request samplePlatform wholeNumberText (some responseZeroTotal503)
              = Except.error (ApiService.Thrown.error s))
          ∧ (truthy (getProp (summaryOf 0) "error") = false →
            ApiService.request samplePlatform wholeNumberText (some responseZeroTotal503)
              = Except.error (ApiService.Thrown.error
                  ("HTTP error! status: " ++ toString responseZeroTotal503.status))))
      ∧ (∀ (r : ApiService.Response) (d : JSVal), r.ok = false →
          ApiService.request samplePlatform wholeNumberText (some r) ≠ Except.ok d)) :=
  request_outcome_on_json_body samplePlatform wholeNumberText responseZeroTotal503 (summaryOf 0)
    (by simp [responseZeroTotal503, samplePlatform, text1000, text1500, text0])

/-! ## Claims on `PerformanceAnalytics.js`, `exportUtils.js` and `AddTransactionModal.js` -/

/-- C26: the days `fetchAnalytics` requests for the portfolio history are 1,
7, 30 and 90 for the periods `1d`, `7d`, `30d` and `90d` and 365 for `all`,
but for the period `1y` they are 1, not 365: `parseInt('1y')` is 1. -/
theorem one_year_period_requests_one_day :
    PerformanceAnalytics.historyDays "1y" = 1
      ∧ (PerformanceAnalytics.fetchAnalytics "1y" localUserA).map (fun r => r.endpoint)
        = ["/analytics/performance?userId=user-a&period=1y",
           "/analytics/history?userId=user-a&days=1",
           "/analytics/performers?userId=user-a&limit=5"]
      ∧ PerformanceAnalytics.PERIODS.map (fun p => (p.1, PerformanceAnalytics.historyDays p.1))
        = [("1d", 1), ("7d", 7), ("30d", 30), ("90d", 90), ("1y", 1), ("all", 365)] := by
  refine ⟨by decide, by decide, by decide⟩

theorem ExportUtils.transactionRow_default (localeDate : JSVal → String) (tx : JSVal) (i : Nat)
    (key : String) (dflt : JSVal) (hk : specDefaults[i]? = some (key, dflt))
    (hmiss : getProp tx key = undefined) :
    (ExportUtils.transactionRow localeDate tx)[i]? = some dflt := by
  have hi : i < 9 := by
    by_contra hge
    have hnone : specDefaults[i]? = none := by
      apply List.getElem?_eq_none
      simp only [specDefaults, List.length_cons, List.length_nil]
      omega
    rw [hnone] at hk
    cases hk
  interval_cases i <;>
    simp only [specDefaults, List.getElem?_cons_zero, List.getElem?_cons_succ, Option.some.injEq,
      Prod.mk.injEq] at hk <;>
    obtain ⟨rfl, rfl⟩ := hk <;>
    simp [ExportUtils.transactionRow, ExportUtils.orElse, hmiss, truthy]

/-- C27: `exportTransactionsToCSV` produces no file for an absent or empty
list; for a list of `n >= 1` transactions the text of the file is the header
line of 9 names followed, one line feed before each, by the `n` rows in input
order, every row being 9 cells, each between double quotes, joined by commas;
the cell of a missing field is its default. -/
theorem export_transactions_layout (text localeDate : JSVal → String) (filename : String) :
    ExportUtils.exportTransactionsToCSV text localeDate null filename
        = ExportUtils.Download.nothing
      ∧ ExportUtils.exportTransactionsToCSV text localeDate undefined filename
        = ExportUtils.Download.nothing
      ∧ ExportUtils.exportTransactionsToCSV text localeDate (arr []) filename
        = ExportUtils.Download.nothing
      ∧ (∀ txs : List JSVal, txs ≠ [] → (∀ tx ∈ txs, isNullish tx = false) →
          ExportUtils.exportTransactionsToCSV text localeDate (arr txs) filename
            = ExportUtils.Download.file
                (String.intercalate "\n"
                  ("Date,Symbol,Name,Type,Coins,Price,Value (USD),Source,Status"
                    :: txs.map (fun tx =>
                        String.intercalate ","
                          ((ExportUtils.transactionRow localeDate tx).map
                            (fun cell => "\"" ++ ExportUtils.cellText text cell ++ "\"")))))
                filename
          ∧ (txs.map (ExportUtils.transactionRow localeDate)).length = txs.length)
      ∧ (∀ tx : JSVal, (ExportUtils.transactionRow localeDate tx).length = 9
          ∧ ∀ (i : Nat) (key : String) (dflt : JSVal), specDefaults[i]? = some (key, dflt) →
              getProp tx key = undefined →
              (ExportUtils.transactionRow localeDate tx)[i]? = some dflt) := by
  refine ⟨by simp [ExportUtils.exportTransactionsToCSV, truthy],
    by simp [ExportUtils.exportTransactionsToCSV, truthy],
    by simp [ExportUtils.exportTransactionsToCSV, truthy, getProp, strictEqZero, JSNum.isZero],
    ?_, ?_⟩
  · intro txs hne hobj
    refine ⟨?_, by simp⟩
    have hlen : strictEqZero (getProp (arr txs) "length") = false := by
      cases txs with
      | nil => exact absurd rfl hne
      | cons a l =>
        simp only [getProp, ↓reduceIte, strictEqZero, JSNum.isZero, List.length_cons]
        simp only [decide_eq_false_iff_not]
        intro h
        have h2 : ((l.length + 1 : ℕ) : ℚ) = 0 := h
        have h3 : (l.length + 1 : ℕ) = 0 := by exact_mod_cast h2
        omega
    have hany : txs.any isNullish = false := by
      rw [List.any_eq_false]
      intro tx htx
      simp [hobj tx htx]
    have hhead : String.intercalate "," ExportUtils.headers
        = "Date,Symbol,Name,Type,Coins,Price,Value (USD),Source,Status" := by decide
    simp only [ExportUtils.exportTransactionsToCSV, truthy, hlen, hany, Bool.not_true,
      Bool.or_false, Bool.false_eq_true, ↓reduceIte, ExportUtils.csvContent, hhead,
      List.map_map]
    rfl
  · intro tx
    refine ⟨by simp [ExportUtils.transactionRow], ?_⟩
    intro i key dflt hk hmiss
    exact ExportUtils.transactionRow_default localeDate tx i key dflt hk hmiss

theorem export_transactions_layout_witness :
    ExportUtils.exportTransactionsToCSV wholeNumberText sampleDate (arr [txCommaName, obj []])
        "transactions.csv"
      = ExportUtils.Download.file
          ("Date,Symbol,Name,Type,Coins,Price,Value (USD),Source,Status\n"
            ++ "\"\",\"BTC\",\"Bitcoin, the\ncoin\",\"buy\",\"2\",\"0\",\"0\",\"manual\",\"active\"\n"
            ++ "\"\",\"\",\"\",\"\",\"0\",\"0\",\"0\",\"manual\",\"active\"")
          "transactions.csv" := by
  have h := ((export_transactions_layout wholeNumberText sampleDate "transactions.csv").2.2.2.1
    [txCommaName, obj []] (by simp) (by simp [txCommaName, isNullish])).1
  rw [h]
  rfl

set_option maxRecDepth 100000 in
/-- C28: a name that contains double quotes is written without doubling them,
so the text of the export does not read back as the 9 cells that were written:
the name `a","b"c` makes the row malformed, and the name `a","b` makes it read
as 10 cells; a name with a comma and a line feed does read back. -/
theorem quote_in_name_breaks_csv_cells :
    ExportUtils.exportTransactionsToCSV wholeNumberText sampleDate (arr [txQuoteName]) "t.csv"
        = ExportUtils.Download.file
            ("Date,Symbol,Name,Type,Coins,Price,Value (USD),Source,Status\n"
              ++ "\"\",\"BTC\",\"a\",\"b\"c\",\"buy\",\"2\",\"0\",\"0\",\"manual\",\"active\"")
            "t.csv"
      ∧ readCsv (ExportUtils.csvContent wholeNumberText
          [ExportUtils.transactionRow sampleDate txQuoteName]) = none
      ∧ ¬ recoversCells wholeNumberText [ExportUtils.transactionRow sampleDate txQuoteName]
          (ExportUtils.csvContent wholeNumberText
            [ExportUtils.transactionRow sampleDate txQuoteName])
      ∧ readCsv (ExportUtils.csvContent wholeNumberText
          [ExportUtils.transactionRow sampleDate
            (obj [("symbol", str "BTC"), ("name", str "a\",\"b")])])
        = some [ExportUtils.headers,
            ["", "BTC", "a", "b", "", "0", "0", "0", "manual", "active"]]
      ∧ recoversCells wholeNumberText [ExportUtils.transactionRow sampleDate txCommaName]
          (ExportUtils.csvContent wholeNumberText
            [ExportUtils.transactionRow sampleDate txCommaName]) := by
  have h2 : readCsv (ExportUtils.csvContent wholeNumberText
      [ExportUtils.transactionRow sampleDate txQuoteName]) = none := by rfl
  refine ⟨by rfl, h2, ?_, by rfl, by rfl⟩
  unfold recoversCells
  rw [h2]
  simp

/-- C29: `handleSubmit` calls `api.addTransaction` exactly when the symbol,
the quantity and the price are non-empty and the quantity and the price parse
to numbers greater than zero; in every other case it makes no call and leaves
the form data as it was. -/
theorem submit_calls_api_iff_valid (parseFloat : String → JSNum) (times : JSNum → JSNum → JSNum)
    (today : String) (apiSucceeds : Bool) (formData : AddTransactionModal.FormData) :
    ((AddTransactionModal.handleSubmit parseFloat times today apiSucceeds formData).apiCall ≠ none
        ↔ (formData.symbol ≠ "" ∧ formData.coins ≠ "" ∧ formData.purchased_price ≠ ""
            ∧ (parseFloat formData.coins).gtZero = true
            ∧ (parseFloat formData.purchased_price).gtZero = true))
      ∧ ((AddTransactionModal.handleSubmit parseFloat times today apiSucceeds formData).apiCall
            = none →
          (AddTransactionModal.handleSubmit parseFloat times today apiSucceeds formData).formData
            = formData) := by
  have key : ∀ n : JSNum, (n.isNaN || n.leZero) = !n.gtZero := by
    intro n
    cases n with
    | nan => rfl
    | posInf => rfl
    | negInf => rfl
    | fin q =>
      simp only [JSNum.isNaN, JSNum.leZero, JSNum.gtZero, Bool.false_or]
      by_cases h : 0 < q
      · simp [h]
      · simp [h, not_lt.mp h]
  unfold AddTransactionModal.handleSubmit
  by_cases h1 : formData.symbol = ""
  · simp [h1]
  by_cases h2 : formData.coins = ""
  · simp [h2]
  by_cases h3 : formData.purchased_price = ""
  · simp [h3]
  have hc := key (parseFloat formData.coins)
  have hp := key (parseFloat formData.purchased_price)
  cases hgc : (parseFloat formData.coins).gtZero <;>
    cases hgp : (parseFloat formData.purchased_price).gtZero <;>
    simp only [hgc, hgp, Bool.not_true, Bool.not_false, Bool.or_eq_true, Bool.or_eq_false_iff]
      at hc hp <;>
    cases apiSucceeds <;>
    simp [h1, h2, h3, hc, hp, hgc, hgp]
  all_goals (rcases hc with hc | hc <;> simp [hc])

theorem AddTransactionModal.handleSubmit_two_BTC :
    AddTransactionModal.handleSubmit sampleParseFloat sampleTimes "2024-01-03" true formTwoBTC
      = { apiCall := some
            { name := "Bitcoin (BTC)", symbol := "BTC", type := "buy",
              purchased_price := JSNum.fin 100, date := "2024-01-02", coins := JSNum.fin 2,
              value_usd := JSNum.fin 200, source := "manual" }
          formData := AddTransactionModal.emptyForm "2024-01-03"
          toast := "Success" } := by
  simp [AddTransactionModal.handleSubmit, formTwoBTC, sampleParseFloat, sampleTimes, JSNum.isNaN,
    JSNum.leZero, AddTransactionModal.payloadName, AddTransactionModal.CRYPTO_OPTIONS,
    AddTransactionModal.emptyForm, Char.isDigit]
  norm_num

theorem AddTransactionModal.handleSubmit_no_price :
    AddTransactionModal.handleSubmit sampleParseFloat sampleTimes "2024-01-03" true
        { formTwoBTC with purchased_price := "abc" }
      = { apiCall := none, formData := { formTwoBTC with purchased_price := "abc" },
          toast := "Validation Error" } := by
  decide

theorem submit_calls_api_iff_valid_witness :
    (AddTransactionModal.handleSubmit sampleParseFloat sampleTimes "2024-01-03" true
        formTwoBTC).apiCall ≠ none
      ∧ (AddTransactionModal.handleSubmit sampleParseFloat sampleTimes "2024-01-03" true
          { formTwoBTC with coins := "" }).formData = { formTwoBTC with coins := "" } :=
  ⟨(submit_calls_api_iff_valid sampleParseFloat sampleTimes "2024-01-03" true formTwoBTC).1.2
      ⟨by decide, by decide, by decide, by decide, by decide⟩,
    (submit_calls_api_iff_valid sampleParseFloat sampleTimes "2024-01-03" true
      { formTwoBTC with coins := "" }).2 (by decide)⟩

/-! ## The summary and the store after a run, in closed form -/

theorem Home.adoptCached_usable (P : Platform) (c : Option String) (w : Home.World)
    (hc : itemTruthy c = true) :
    Home.adoptCached P c w
      = match Home.usableCache P c with
        | some v => Home.setHasDataRef true (Home.setPortfolioSummary v w)
        | none => w := by
  unfold Home.adoptCached Home.usableCache
  simp only [hc, ↓reduceIte]
  cases parseItem P c with
  | none => rfl
  | some parsed =>
    by_cases h : (truthy parsed && typeofNumber (getProp parsed "total_equity")) = true
    · simp [h]
    · simp [h]

theorem Home.usableCache_truthy (P : Platform) (c : Option String) (v : JSVal)
    (h : Home.usableCache P c = some v) : truthy v = true := by
  unfold Home.usableCache at h
  split at h
  · split at h
    · split at h
      · next hc =>
        cases h
        simp only [Bool.and_eq_true] at hc
        exact hc.1
      · cases h
    · cases h
  · cases h

theorem Home.adoptPositiveCached_eq (P : Platform) (c : Option String) (w : Home.World) :
    Home.adoptPositiveCached P c w
      = match positiveCache P c with
        | some v => (true, Home.setHasDataRef true (Home.setPortfolioSummary v w))
        | none => (false, w) := by
  unfold Home.adoptPositiveCached positiveCache Analysis.cachedPositive
  by_cases hc : itemTruthy c = true
  · simp only [hc, ↓reduceIte]
    cases parseItem P c with
    | none => rfl
    | some parsed =>
      by_cases h : (truthy parsed && typeofNumber (getProp parsed "total_equity")
          && jsGtZero P (getProp parsed "total_equity")) = true
      · simp [h]
      · simp [h]
  · simp [hc]

theorem positiveCache_positive (P : Platform) (c : Option String) (v : JSVal)
    (h : positiveCache P c = some v) : hasPositiveTotal v = true := by
  unfold positiveCache at h
  split at h
  · exact Analysis.cachedPositive_some P c v h
  · cases h

theorem positiveCache_usable (P : Platform) (c : Option String) (v : JSVal)
    (h : positiveCache P c = some v) : Home.usableCache P c = some v := by
  unfold positiveCache Analysis.cachedPositive at h
  unfold Home.usableCache
  split at h
  · next hc =>
    simp only [hc, ↓reduceIte]
    cases hp : parseItem P c with
    | none => simp [hp] at h
    | some parsed =>
      simp only [hp] at h
      split at h
      · next hcond =>
        cases h
        simp only [Bool.and_eq_true] at hcond
        simp [hcond.1.1, hcond.1.2]
      · cases h
  · cases h

theorem typeofNumber_num (v : JSVal) (h : typeofNumber v = true) : ∃ n, v = num n := by
  cases v <;> simp_all [typeofNumber]

theorem Home.withSummary_view (P : Platform) (ps : JSVal) (c : Option String) (s : JSVal)
    (w : Home.World)
    (hnum : (typeofNumber (getProp s "total_equity") && notNaN (getProp s "total_equity")) = true) :
    (Home.withSummary P ps c s w).state.portfolioSummary
        = (if hasZeroTotal s then
            match positiveCache P c with
            | some v => v
            | none => if memoryPositive P ps then w.state.portfolioSummary else s
          else s)
      ∧ (Home.withSummary P ps c s w).session = sessionOnFresh P w.session s := by
  simp only [Bool.and_eq_true] at hnum
  obtain ⟨n, hn⟩ := typeofNumber_num _ hnum.1
  have hnn : n.isNaN = false := by simpa [hn, notNaN] using hnum.2
  have hpos : hasPositiveTotal s = n.gtZero := by simp [hasPositiveTotal, hn]
  have hz : hasZeroTotal s = n.isZero := by simp [hasZeroTotal, hn, strictEqZero]
  have hj : jsGtZero P (num n) = n.gtZero := rfl
  simp only [Home.withSummary, hn, typeofNumber, notNaN, hnn, Bool.not_false, Bool.and_self,
    ↓reduceIte, strictEqZero, hz, sessionOnFresh, hpos, hj]
  cases hzero : n.isZero with
  | true =>
    have hg : n.gtZero = false := isZero_not_gtZero n hzero
    simp only [↓reduceIte, hg, Bool.false_eq_true, Home.adoptPositiveCached_eq]
    cases hcp : positiveCache P c with
    | some v =>
      simp [Home.setHasDataRef, Home.setPortfolioSummary]
    | none =>
      cases hm : memoryPositive P ps with
      | true =>
        have hm2 : (truthy ps && jsGtZero P (getProp ps "total_equity")) = true := hm
        simp [hm2, Home.setHasDataRef]
      | false =>
        have hm2 : (truthy ps && jsGtZero P (getProp ps "total_equity")) = false := hm
        simp [hm2, Home.setPortfolioSummary]
  | false =>
    simp only [Bool.false_eq_true, ↓reduceIte]
    cases hg : n.gtZero <;>
      simp [Home.setHasDataRef, Home.setPortfolioSummary, Home.setItemSummary]

theorem Home.bareSummary_view (P : Platform) (ps : JSVal) (c : Option String) (pd : JSVal)
    (w : Home.World)
    (hnum : (typeofNumber (getProp pd "total_equity") && notNaN (getProp pd "total_equity"))
      = true) :
    (Home.bareSummary P ps c pd w).state.portfolioSummary
        = (if hasZeroTotal pd then
            match positiveCache P c with
            | some v => v
            | none => if memoryPositive P ps then w.state.portfolioSummary else pd
          else pd)
      ∧ (Home.bareSummary P ps c pd w).session = sessionOnFresh P w.session pd := by
  simp only [Bool.and_eq_true] at hnum
  obtain ⟨n, hn⟩ := typeofNumber_num _ hnum.1
  have hnn : n.isNaN = false := by simpa [hn, notNaN] using hnum.2
  have hpos : hasPositiveTotal pd = n.gtZero := by simp [hasPositiveTotal, hn]
  have hz : hasZeroTotal pd = n.isZero := by simp [hasZeroTotal, hn, strictEqZero]
  have hj : jsGtZero P (num n) = n.gtZero := rfl
  simp only [Home.bareSummary, hn, strictEqZero, hz, sessionOnFresh, hpos, hj]
  cases hzero : n.isZero with
  | true =>
    have hg : n.gtZero = false := isZero_not_gtZero n hzero
    simp only [↓reduceIte, hg, Bool.false_eq_true, Home.adoptPositiveCached_eq]
    cases hcp : positiveCache P c with
    | some v =>
      simp [Home.setHasDataRef, Home.setPortfolioSummary]
    | none =>
      cases hm : memoryPositive P ps with
      | true =>
        have hm2 : (truthy ps && jsGtZero P (getProp ps "total_equity")) = true := hm
        simp [hm2, Home.setHasDataRef]
      | false =>
        have hm2 : (truthy ps && jsGtZero P (getProp ps "total_equity")) = false := hm
        simp [hm2, Home.setPortfolioSummary, Home.setHasDataRef]
  | false =>
    simp only [Bool.false_eq_true, ↓reduceIte]
    cases hg : n.gtZero <;>
      simp [Home.setHasDataRef, Home.setPortfolioSummary, Home.setItemSummary]

/-- On an accepted fresh summary the arbitration of Home ends with the summary
and the store of the closed form. -/
theorem Home.resolve_view (P : Platform) (ps : JSVal) (c : Option String) (pd : JSVal)
    (w : Home.World) (hv : Home.validFresh pd = true) :
    (Home.resolve P ps c pd w).state.portfolioSummary
        = (if hasZeroTotal (Home.freshSummary pd) then
            match positiveCache P c with
            | some v => v
            | none =>
              if memoryPositive P ps then w.state.portfolioSummary else Home.freshSummary pd
          else Home.freshSummary pd)
      ∧ (Home.resolve P ps c pd w).session = sessionOnFresh P w.session (Home.freshSummary pd) := by
  unfold Home.validFresh at hv
  by_cases hc : (truthy pd && truthy (getProp pd "summary")) = true
  · simp only [Home.freshSummary, hc, ↓reduceIte] at hv ⊢
    simp only [Bool.and_eq_true] at hv
    have hnum : (typeofNumber (getProp (getProp pd "summary") "total_equity")
        && notNaN (getProp (getProp pd "summary") "total_equity")) = true := by
      simp [hv.1.2, hv.2]
    simp only [Home.resolve, hc, ↓reduceIte]
    exact Home.withSummary_view P ps c _ w hnum
  · simp only [Bool.not_eq_true] at hc
    simp only [Home.freshSummary, hc, Bool.false_eq_true, ↓reduceIte] at hv ⊢
    have hv2 := hv
    simp only [Bool.and_eq_true] at hv2
    have hnum : (typeofNumber (getProp pd "total_equity")
        && notNaN (getProp pd "total_equity")) = true := by
      simp [hv2.1.2, hv2.2]
    simp only [Home.resolve, hc, Bool.false_eq_true, ↓reduceIte, hv]
    exact Home.bareSummary_view P ps c pd w hnum

/-- Without an accepted fresh summary the arbitration of Home is the fallback
on the cache. -/
theorem Home.resolve_invalid (P : Platform) (ps : JSVal) (c : Option String) (pd : JSVal)
    (w : Home.World) (hv : Home.validFresh pd = false) :
    Home.resolve P ps c pd w
      = if !w.state.hasDataRef && itemTruthy c then Home.adoptCached P c w else w := by
  unfold Home.validFresh at hv
  by_cases hc : (truthy pd && truthy (getProp pd "summary")) = true
  · simp only [Home.freshSummary, hc, ↓reduceIte] at hv
    have hc2 := hc
    simp only [Bool.and_eq_true] at hc2
    have hnum : (typeofNumber (getProp (getProp pd "summary") "total_equity")
        && notNaN (getProp (getProp pd "summary") "total_equity")) = false := by
      simpa [hc2.1] using hv
    simp only [Home.resolve, hc, ↓reduceIte, Home.withSummary, hnum, Bool.false_eq_true]
  · simp only [Bool.not_eq_true] at hc
    simp only [Home.freshSummary, hc, Bool.false_eq_true, ↓reduceIte] at hv
    simp only [Home.resolve, hc, Bool.false_eq_true, ↓reduceIte, hv]

theorem Home.usableCache_of_falsy (P : Platform) (c : Option String)
    (hc : itemTruthy c = false) : Home.usableCache P c = none := by
  simp [Home.usableCache, hc]

theorem Home.firstPaint_view (P : Platform) (showLoading : Bool) (ps : JSVal) (w : Home.World) :
    ((Home.firstPaint P showLoading ps w).state.portfolioSummary,
        (Home.firstPaint P showLoading ps w).state.hasDataRef)
      = (match Home.usableCache P w.session.portfolioSummary with
          | some v =>
            if !truthy ps then (v, true)
            else (w.state.portfolioSummary, w.state.hasDataRef)
          | none => (w.state.portfolioSummary, w.state.hasDataRef)) := by
  simp only [Home.firstPaint]
  cases hc : itemTruthy w.session.portfolioSummary with
  | false =>
    simp only [Bool.false_and, Bool.false_eq_true, ↓reduceIte,
      Home.usableCache_of_falsy P _ hc]
    split_ifs <;> simp [Home.setLoading]
  | true =>
    simp only [Bool.true_and, Home.adoptCached_usable P _ _ hc]
    cases Home.usableCache P w.session.portfolioSummary with
    | none =>
      simp only [ite_self]
      split_ifs <;> simp [Home.setLoading]
    | some v =>
      cases truthy ps <;>
        simp only [Bool.not_true, Bool.not_false, Bool.false_eq_true, ↓reduceIte] <;>
        split_ifs <;>
        simp [Home.setLoading, Home.setHasDataRef, Home.setPortfolioSummary]

/-- The closed form of a run of `Home.fetchData` on an accepted fresh
summary, for any captured summary `ps`. -/
theorem Home.fetchData_on_fresh (P : Platform) (showLoading : Bool)
    (transactionsData pd ps : JSVal) (w : Home.World) (hv : Home.validFresh pd = true) :
    (Home.fetchData P showLoading (some transactionsData) (some pd) ps w).2.state.portfolioSummary
        = Home.summaryOnFresh P w.session.portfolioSummary ps w.state.portfolioSummary pd
      ∧ (Home.fetchData P showLoading (some transactionsData) (some pd) ps w).2.session
        = sessionOnFresh P w.session (Home.freshSummary pd) := by
  have hfp := (Home.firstPaint_session P showLoading ps w).1
  rw [Home.fetchData_ok]
  have hr := Home.resolve_view P ps w.session.portfolioSummary pd
    (Home.setTransactions (if isArray transactionsData then transactionsData else arr [])
      (Home.firstPaint P showLoading ps w)) hv
  have hproj : ∀ x : Home.World,
      (Home.setIsInitialLoadRef false (Home.setLoading false x)).state.portfolioSummary
          = x.state.portfolioSummary
        ∧ (Home.setIsInitialLoadRef false (Home.setLoading false x)).session = x.session := by
    intro x
    simp [Home.setIsInitialLoadRef, Home.setLoading]
  simp only [Home.afterResponse, hproj, hr]
  refine ⟨?_, ?_⟩
  · unfold Home.summaryOnFresh
    split
    · cases positiveCache P w.session.portfolioSummary with
      | some v => rfl
      | none =>
        cases hm : memoryPositive P ps with
        | false => simp
        | true =>
          have ht : truthy ps = true := by
            unfold memoryPositive at hm
            simp only [Bool.and_eq_true] at hm
            exact hm.1
          simp only [↓reduceIte, Home.setTransactions, Home.firstPaint_truthy P _ _ _ ht]
          split_ifs <;> simp [Home.setLoading]
    · rfl
  · simp [Home.setTransactions, hfp]

theorem Home.fallback_step (P : Platform) (ps : JSVal) (w w1 : Home.World)
    (h1 : (w1.state.portfolioSummary, w1.state.hasDataRef)
      = (match Home.usableCache P w.session.portfolioSummary with
          | some v =>
            if !truthy ps then (v, true)
            else (w.state.portfolioSummary, w.state.hasDataRef)
          | none => (w.state.portfolioSummary, w.state.hasDataRef)))
    (hs : w1.session = w.session) :
    (((if !w1.state.hasDataRef && itemTruthy w.session.portfolioSummary then
          Home.adoptCached P w.session.portfolioSummary w1 else w1).state.portfolioSummary,
        (if !w1.state.hasDataRef && itemTruthy w.session.portfolioSummary then
          Home.adoptCached P w.session.portfolioSummary w1 else w1).state.hasDataRef)
      = Home.fallback P w.session.portfolioSummary ps w.state.portfolioSummary
          w.state.hasDataRef)
    ∧ (if !w1.state.hasDataRef && itemTruthy w.session.portfolioSummary then
          Home.adoptCached P w.session.portfolioSummary w1 else w1).session = w.session := by
  have hsess : (if !w1.state.hasDataRef && itemTruthy w.session.portfolioSummary then
      Home.adoptCached P w.session.portfolioSummary w1 else w1).session = w.session := by
    split_ifs
    · rw [(Home.adoptCached_session P _ w1).1, hs]
    · exact hs
  refine ⟨?_, hsess⟩
  unfold Home.fallback
  cases hc : itemTruthy w.session.portfolioSummary with
  | false =>
    rw [Home.usableCache_of_falsy P _ hc] at h1 ⊢
    simp only [Bool.and_false, Bool.false_eq_true, ↓reduceIte]
    exact h1
  | true =>
    simp only [Bool.and_true, Home.adoptCached_usable P _ _ hc]
    cases hu : Home.usableCache P w.session.portfolioSummary with
    | none =>
      rw [hu] at h1
      simp only [ite_self]
      exact h1
    | some v =>
      rw [hu] at h1
      cases ht : truthy ps with
      | false =>
        simp only [ht, Bool.not_false, ↓reduceIte] at h1
        obtain ⟨ha, hb⟩ := Prod.mk.inj h1
        simp [hb, ha]
      | true =>
        simp only [ht, Bool.not_true, Bool.false_eq_true, ↓reduceIte] at h1
        obtain ⟨ha, hb⟩ := Prod.mk.inj h1
        cases hf : w.state.hasDataRef with
        | false =>
          rw [hf] at hb
          simp [hb, Home.setHasDataRef, Home.setPortfolioSummary]
        | true =>
          rw [hf] at hb
          simp [hb, ha]

/-- The closed form of a run of `Home.fetchData` on a response without an
accepted summary, for any captured summary `ps`. -/
theorem Home.fetchData_on_invalid (P : Platform) (showLoading : Bool)
    (transactionsData pd ps : JSVal) (w : Home.World) (hv : Home.validFresh pd = false) :
    ((Home.fetchData P showLoading (some transactionsData) (some pd) ps w).2.state.portfolioSummary,
        (Home.fetchData P showLoading (some transactionsData) (some pd) ps w).2.state.hasDataRef)
        = Home.fallback P w.session.portfolioSummary ps w.state.portfolioSummary w.state.hasDataRef
      ∧ (Home.fetchData P showLoading (some transactionsData) (some pd) ps w).2.session
        = w.session := by
  have hfp := (Home.firstPaint_session P showLoading ps w).1
  have hv1 := Home.firstPaint_view P showLoading ps w
  rw [Home.fetchData_ok]
  simp only [Home.afterResponse, Home.resolve_invalid P _ _ _ _ hv]
  have hstep := Home.fallback_step P ps w
    (Home.setTransactions (if isArray transactionsData then transactionsData else arr [])
      (Home.firstPaint P showLoading ps w))
    (by simpa [Home.setTransactions] using hv1) (by simpa [Home.setTransactions] using hfp)
  have hproj : ∀ x : Home.World,
      (Home.setIsInitialLoadRef false (Home.setLoading false x)).state.portfolioSummary
          = x.state.portfolioSummary
        ∧ (Home.setIsInitialLoadRef false (Home.setLoading false x)).state.hasDataRef
          = x.state.hasDataRef
        ∧ (Home.setIsInitialLoadRef false (Home.setLoading false x)).session = x.session := by
    intro x
    simp [Home.setIsInitialLoadRef, Home.setLoading]
  simp only [hproj]
  exact hstep

/-- The closed form of a run of `Home.fetchData` whose backend call fails, for
any captured summary `ps`. -/
theorem Home.fetchData_on_failure (P : Platform) (showLoading : Bool)
    (transactionsResult portfolioResult : Option JSVal) (ps : JSVal) (w : Home.World)
    (hfail : promiseAll transactionsResult portfolioResult = none) :
    ((Home.fetchData P showLoading transactionsResult portfolioResult
       ps w).2.state.portfolioSummary,
        (Home.fetchData P showLoading transactionsResult portfolioResult ps w).2.state.hasDataRef)
        = Home.fallback P w.session.portfolioSummary ps w.state.portfolioSummary w.state.hasDataRef
      ∧ (Home.fetchData P showLoading transactionsResult portfolioResult ps w).2.session
        = w.session := by
  have hfp := (Home.firstPaint_session P showLoading ps w).1
  have hv1 := Home.firstPaint_view P showLoading ps w
  rw [Home.fetchData_fail P _ _ _ _ _ hfail]
  have hstep := Home.fallback_step P ps w
    (Home.setIsInitialLoadRef false (Home.setLoading false
      (Home.firstPaint P showLoading ps w)))
    (by simpa [Home.setIsInitialLoadRef, Home.setLoading] using hv1)
    (by simpa [Home.setIsInitialLoadRef, Home.setLoading] using hfp)
  have hcb : Home.catchBlock P (Home.firstPaint P showLoading ps w)
      = (if !(Home.setIsInitialLoadRef false (Home.setLoading false
            (Home.firstPaint P showLoading ps w))).state.hasDataRef
          && itemTruthy w.session.portfolioSummary then
          Home.adoptCached P w.session.portfolioSummary
            (Home.setIsInitialLoadRef false (Home.setLoading false
              (Home.firstPaint P showLoading ps w)))
        else Home.setIsInitialLoadRef false (Home.setLoading false
            (Home.firstPaint P showLoading ps w))) := by
    simp only [Home.catchBlock]
    have hs2 : (Home.setIsInitialLoadRef false (Home.setLoading false
        (Home.firstPaint P showLoading ps w))).session = w.session := by
      simpa [Home.setIsInitialLoadRef, Home.setLoading] using hfp
    rw [hs2]
    split_ifs <;> simp_all
  rw [hcb]
  exact hstep

theorem Analysis.suspectBranch_eq (P : Platform) (pd : JSVal) (c : Option String)
    (data : JSVal) (w : Analysis.World) :
    Analysis.suspectBranch P pd c data w
      = (Analysis.suspectData P pd c data).map
          (fun x => Analysis.setLoading false (Analysis.setPortfolioData x w)) := by
  simp only [Analysis.suspectBranch, Analysis.suspectData, positiveCache]
  split
  · split
    · rfl
    · split <;> rfl
  · rfl

theorem Analysis.positive_test (P : Platform) (data : JSVal) :
    (truthy data && truthy (getProp data "summary")
      && typeofNumber (getProp (getProp data "summary") "total_equity")
      && jsGtZero P (getProp (getProp data "summary") "total_equity"))
      = hasPositiveTotal (getProp data "summary") := by
  cases hte : getProp (getProp data "summary") "total_equity" with
  | num n =>
    obtain ⟨h1, h2⟩ := truthy_of_summary_total data n hte
    simp [hasPositiveTotal, hte, h1, h2, typeofNumber, jsGtZero]
  | _ => simp [hasPositiveTotal, hte, typeofNumber]

theorem Analysis.normalCase_view (P : Platform) (data : JSVal) (w : Analysis.World)
    (hd : isNullish data = false) :
    (Analysis.normalCase P data w).2.state.portfolioData = Analysis.normalData data
      ∧ (Analysis.normalCase P data w).2.session = Analysis.normalSession P data w.session := by
  simp only [Analysis.normalCase, hd, Bool.false_eq_true, ↓reduceIte, Analysis.positive_test,
    Analysis.normalData, Analysis.normalSession]
  split_ifs <;>
    simp [Analysis.setLoading, Analysis.setPortfolioData, Analysis.setItemSummary,
      Analysis.setItemHoldings]

/-- The closed form of a run of `Analysis.fetchPortfolioData` on a response. -/
theorem Analysis.fetchPortfolioData_on_response (P : Platform) (data : JSVal)
    (w : Analysis.World) (hd : isNullish data = false) :
    (Analysis.fetchPortfolioData P (some data) w).2.state.portfolioData
        = (match Analysis.suspectData P w.state.portfolioData w.session.portfolioSummary data with
          | some x => x
          | none => Analysis.normalData data)
      ∧ (Analysis.fetchPortfolioData P (some data) w).2.session
        = (match Analysis.suspectData P w.state.portfolioData w.session.portfolioSummary data with
          | some _ => w.session
          | none => Analysis.normalSession P data w.session) := by
  have hfp := (Analysis.firstPaint_keeps_session P w.state.portfolioData w).1
  cases hsd : Analysis.suspectData P w.state.portfolioData w.session.portfolioSummary data with
  | some x =>
    have hsb : Analysis.suspectBranch P w.state.portfolioData w.session.portfolioSummary data
        (Analysis.firstPaint P w.state.portfolioData w)
        = some (Analysis.setLoading false (Analysis.setPortfolioData x
            (Analysis.firstPaint P w.state.portfolioData w))) := by
      rw [Analysis.suspectBranch_eq, hsd]
      rfl
    rw [Analysis.fetchPortfolioData_suspect P data w _ hsb]
    simp [Analysis.setLoading, Analysis.setPortfolioData, hfp]
  | none =>
    have hsb : Analysis.suspectBranch P w.state.portfolioData w.session.portfolioSummary data
        (Analysis.firstPaint P w.state.portfolioData w) = none := by
      rw [Analysis.suspectBranch_eq, hsd]
      rfl
    rw [Analysis.fetchPortfolioData_normal P data w hsb hd]
    have h := Analysis.normalCase_view P data (Analysis.firstPaint P w.state.portfolioData w) hd
    rw [hfp] at h
    exact h

theorem Analysis.catchBlock_view (P : Platform) (w : Analysis.World) :
    (Analysis.catchBlock P w.state.portfolioData
        (Analysis.firstPaint P w.state.portfolioData w)).state.portfolioData
        = Analysis.dataOnFailure P w.session.portfolioSummary w.state.portfolioData
      ∧ (Analysis.catchBlock P w.state.portfolioData
        (Analysis.firstPaint P w.state.portfolioData w)).session = w.session := by
  have hfp := (Analysis.firstPaint_keeps_session P w.state.portfolioData w).1
  refine ⟨?_, by rw [(Analysis.catchBlock_keeps_session P _ _).1, hfp]⟩
  simp only [Analysis.catchBlock, hfp, Analysis.dataOnFailure, positiveCache]
  cases hc : itemTruthy w.session.portfolioSummary with
  | false =>
    simp [Analysis.firstPaint, hc, Analysis.setLoading]
  | true =>
    cases ht : truthy w.state.portfolioData with
    | true =>
      simp only [Bool.not_true, Bool.and_false, Bool.false_eq_true, ↓reduceIte]
      cases Analysis.cachedPositive P w.session.portfolioSummary <;>
        simp [Analysis.firstPaint, ht, Analysis.setLoading]
    | false =>
      simp only [Bool.not_false, Bool.and_self, ↓reduceIte]
      cases hcp : Analysis.cachedPositive P w.session.portfolioSummary with
      | none =>
        simp [Analysis.firstPaint, hc, ht, Analysis.restore, hcp, Analysis.setLoading]
      | some parsed =>
        simp [Analysis.setLoading, Analysis.setPortfolioData]

/-- The closed form of a run of `Analysis.fetchPortfolioData` whose backend
call fails, or answers `null`. -/
theorem Analysis.fetchPortfolioData_on_failure (P : Platform) (response : Option JSVal)
    (w : Analysis.World) (hfail : ∀ data, response = some data → isNullish data = true) :
    (Analysis.fetchPortfolioData P response w).2.state.portfolioData
        = Analysis.dataOnFailure P w.session.portfolioSummary w.state.portfolioData
      ∧ (Analysis.fetchPortfolioData P response w).2.session = w.session := by
  cases response with
  | none =>
    rw [Analysis.fetchPortfolioData_fail]
    exact Analysis.catchBlock_view P w
  | some data =>
    rw [Analysis.fetchPortfolioData_null P data w (hfail data rfl)]
    exact Analysis.catchBlock_view P w


/-! ## A second run with the same outcome -/

theorem setField_setField_same (fs : List (String × JSVal)) (k : String) (v : JSVal) :
    setField (setField fs k v) k v = setField fs k v := by
  induction fs with
  | nil => simp [setField]
  | cons hd tl ih =>
    obtain ⟨k1, v1⟩ := hd
    by_cases h : k1 = k
    · simp [setField, h]
    · simp [setField, h, ih]

theorem strictEqZero_not_gt (P : Platform) (v : JSVal) (h : strictEqZero v = true) :
    jsGtZero P v = false := by
  cases v with
  | num n => exact isZero_not_gtZero n (by simpa [strictEqZero] using h)
  | _ => simp [strictEqZero] at h

theorem memoryPositive_of_zero (P : Platform) (v : JSVal) (h : hasZeroTotal v = true) :
    memoryPositive P v = false := by
  simp [memoryPositive, strictEqZero_not_gt P _ h]

theorem sessionOnFresh_twice (P : Platform) (σ : SessionStorage) (fresh : JSVal) :
    sessionOnFresh P (sessionOnFresh P σ fresh) fresh = sessionOnFresh P σ fresh := by
  unfold sessionOnFresh
  split <;> rfl

theorem sessionOnFresh_of_zero (P : Platform) (σ : SessionStorage) (fresh : JSVal)
    (h : hasZeroTotal fresh = true) : sessionOnFresh P σ fresh = σ := by
  simp [sessionOnFresh, not_positive_of_zero fresh h]

theorem Home.summaryOnFresh_twice (P : Platform) (σ : SessionStorage) (ps pd : JSVal) :
    Home.summaryOnFresh P (sessionOnFresh P σ (Home.freshSummary pd)).portfolioSummary
        (Home.summaryOnFresh P σ.portfolioSummary ps ps pd)
        (Home.summaryOnFresh P σ.portfolioSummary ps ps pd) pd
      = Home.summaryOnFresh P σ.portfolioSummary ps ps pd := by
  cases hz : hasZeroTotal (Home.freshSummary pd) with
  | false => simp [Home.summaryOnFresh, hz]
  | true =>
    rw [sessionOnFresh_of_zero P σ _ hz]
    simp only [Home.summaryOnFresh, hz, ↓reduceIte]
    cases positiveCache P σ.portfolioSummary with
    | some v => rfl
    | none =>
      cases hm : memoryPositive P ps with
      | true => simp [hm]
      | false => simp [memoryPositive_of_zero P _ hz]

theorem Home.fallback_twice (P : Platform) (c : Option String) (ps : JSVal) (flag : Bool) :
    Home.fallback P c (Home.fallback P c ps ps flag).1 (Home.fallback P c ps ps flag).1
        (Home.fallback P c ps ps flag).2
      = Home.fallback P c ps ps flag := by
  unfold Home.fallback
  cases hu : Home.usableCache P c with
  | none => rfl
  | some v =>
    have hv := Home.usableCache_truthy P c v hu
    cases ht : truthy ps <;> cases flag <;> simp [hv, ht]

theorem promiseAll_some (a b : Option JSVal) (x : JSVal × JSVal)
    (h : promiseAll a b = some x) : a = some x.1 ∧ b = some x.2 := by
  cases a <;> cases b <;> simp_all [promiseAll]
  cases h
  exact ⟨rfl, rfl⟩

/-- A second call of `Home.fetchData` with the same backend outcome, made from
the render that displays what the first call left, changes neither the
displayed summary nor the session storage; the first call is one from the
render that displays the state it starts from. -/
theorem Home.fetchData_twice (P : Platform) (showLoading showAgain : Bool)
    (transactionsResult portfolioResult : Option JSVal) (w : Home.World) :
    (Home.fetchData P showAgain transactionsResult portfolioResult
        (Home.fetchData P showLoading transactionsResult portfolioResult
          w.state.portfolioSummary w).2.state.portfolioSummary
        (Home.fetchData P showLoading transactionsResult portfolioResult
          w.state.portfolioSummary w).2).2.state.portfolioSummary
        = (Home.fetchData P showLoading transactionsResult portfolioResult
            w.state.portfolioSummary w).2.state.portfolioSummary
      ∧ (Home.fetchData P showAgain transactionsResult portfolioResult
        (Home.fetchData P showLoading transactionsResult portfolioResult
          w.state.portfolioSummary w).2.state.portfolioSummary
        (Home.fetchData P showLoading transactionsResult portfolioResult
          w.state.portfolioSummary w).2).2.session
        = (Home.fetchData P showLoading transactionsResult portfolioResult
            w.state.portfolioSummary w).2.session := by
  have hfall : ∀ (r1 r2 : Home.World),
      (r1.state.portfolioSummary, r1.state.hasDataRef)
          = Home.fallback P w.session.portfolioSummary w.state.portfolioSummary
              w.state.portfolioSummary w.state.hasDataRef →
      r1.session = w.session →
      (r2.state.portfolioSummary, r2.state.hasDataRef)
          = Home.fallback P r1.session.portfolioSummary r1.state.portfolioSummary
              r1.state.portfolioSummary r1.state.hasDataRef →
      r2.session = r1.session →
      r2.state.portfolioSummary = r1.state.portfolioSummary ∧ r2.session = r1.session := by
    intro r1 r2 h1 hs1 h2 hs2
    refine ⟨?_, hs2⟩
    have e1 : r1.state.portfolioSummary
        = (Home.fallback P w.session.portfolioSummary w.state.portfolioSummary
            w.state.portfolioSummary w.state.hasDataRef).1 := congrArg Prod.fst h1
    have e2 : r1.state.hasDataRef
        = (Home.fallback P w.session.portfolioSummary w.state.portfolioSummary
            w.state.portfolioSummary w.state.hasDataRef).2 := congrArg Prod.snd h1
    rw [hs1, e1, e2, Home.fallback_twice] at h2
    have e3 : r2.state.portfolioSummary
        = (Home.fallback P w.session.portfolioSummary w.state.portfolioSummary
            w.state.portfolioSummary w.state.hasDataRef).1 := congrArg Prod.fst h2
    rw [e3, e1]
  cases hpa : promiseAll transactionsResult portfolioResult with
  | none =>
    obtain ⟨h1, hs1⟩ := Home.fetchData_on_failure P showLoading _ _ w.state.portfolioSummary w hpa
    obtain ⟨h2, hs2⟩ := Home.fetchData_on_failure P showAgain _ _
      (Home.fetchData P showLoading transactionsResult portfolioResult
        w.state.portfolioSummary w).2.state.portfolioSummary
      (Home.fetchData P showLoading transactionsResult portfolioResult
        w.state.portfolioSummary w).2 hpa
    exact hfall _ _ h1 hs1 h2 hs2
  | some x =>
    obtain ⟨ha, hb⟩ := promiseAll_some _ _ x hpa
    subst ha
    subst hb
    cases hv : Home.validFresh x.2 with
    | false =>
      obtain ⟨h1, hs1⟩ := Home.fetchData_on_invalid P showLoading x.1 x.2
        w.state.portfolioSummary w hv
      obtain ⟨h2, hs2⟩ := Home.fetchData_on_invalid P showAgain x.1 x.2
        (Home.fetchData P showLoading (some x.1) (some x.2)
          w.state.portfolioSummary w).2.state.portfolioSummary
        (Home.fetchData P showLoading (some x.1) (some x.2) w.state.portfolioSummary w).2 hv
      exact hfall _ _ h1 hs1 h2 hs2
    | true =>
      obtain ⟨h1, hs1⟩ := Home.fetchData_on_fresh P showLoading x.1 x.2
        w.state.portfolioSummary w hv
      obtain ⟨h2, hs2⟩ := Home.fetchData_on_fresh P showAgain x.1 x.2
        (Home.fetchData P showLoading (some x.1) (some x.2)
          w.state.portfolioSummary w).2.state.portfolioSummary
        (Home.fetchData P showLoading (some x.1) (some x.2) w.state.portfolioSummary w).2 hv
      rw [h2, hs2, hs1, h1, Home.summaryOnFresh_twice, sessionOnFresh_twice]
      exact ⟨rfl, rfl⟩


theorem Analysis.previousHoldings_truthy (pd : JSVal) :
    truthy (Analysis.previousHoldings pd) = true := by
  unfold Analysis.previousHoldings
  simp only
  split_ifs with h1 h2 h3
  · exact h2
  · rfl
  · exact h3
  · rfl

theorem Analysis.previousHoldings_set (fs : List (String × JSVal)) (q : JSVal)
    (hq : truthy q = true) :
    Analysis.previousHoldings (obj (setField fs "holdings" q)) = q := by
  simp [Analysis.previousHoldings, isNullish, getProp, getField_setField_same, hq]

theorem isNullish_of_truthy (v : JSVal) (h : truthy v = true) : isNullish v = false := by
  cases v <;> simp_all [isNullish, truthy]

theorem Analysis.suspectData_fixed (P : Platform) (pd : JSVal) (c : Option String)
    (data x : JSVal) (h : Analysis.suspectData P pd c data = some x) :
    Analysis.suspectData P x c data = some x := by
  unfold Analysis.suspectData at h ⊢
  by_cases hz : (truthy data && truthy (getProp data "summary")
      && strictEqZero (getProp (getProp data "summary") "total_equity")) = true
  · simp only [hz, ↓reduceIte] at h ⊢
    cases hcp : positiveCache P c with
    | some parsed =>
      simp only [hcp, Option.some.injEq] at h ⊢
      subst h
      cases hh : Analysis.hasHoldings P data with
      | true => simp
      | false =>
        simp only [Bool.false_eq_true, ↓reduceIte]
        rw [Analysis.previousHoldings_set _ _ (Analysis.previousHoldings_truthy pd)]
    | none =>
      simp only [hcp] at h ⊢
      by_cases hm : (truthy pd && truthy (getProp pd "summary")
          && jsGtZero P (getProp (getProp pd "summary") "total_equity")) = true
      · simp only [hm, ↓reduceIte, Option.some.injEq] at h
        subst h
        have hm2 := hm
        simp only [Bool.and_eq_true] at hm2
        have hnn := isNullish_of_truthy pd hm2.1.1
        have hsum : ∀ q, getProp (obj (setField (spread pd) "holdings" q)) "summary"
            = getProp pd "summary" := fun q => getField_spread_summary pd q hnn
        have hhold : ∀ q, getProp (obj (setField (spread pd) "holdings" q)) "holdings" = q :=
          fun q => getField_setField_same _ _ _
        have htr : ∀ fs, truthy (obj fs) = true := fun _ => rfl
        have hsp : ∀ fs, spread (obj fs) = fs := fun _ => rfl
        simp only [hsum, hhold, htr, hsp, Bool.true_and, hm2.1.2, hm2.2, Bool.and_self,
          ↓reduceIte, Option.some.injEq]
        cases hh : Analysis.hasHoldings P data <;>
          simp only [Bool.false_eq_true, ↓reduceIte, setField_setField_same]
      · simp [hm] at h
  · simp [hz] at h

theorem Analysis.normalSession_of_zero (P : Platform) (data : JSVal) (σ : SessionStorage)
    (hz : strictEqZero (getProp (getProp data "summary") "total_equity") = true) :
    Analysis.normalSession P data σ = σ := by
  have h : hasPositiveTotal (getProp data "summary") = false :=
    not_positive_of_zero _ hz
  simp [Analysis.normalSession, h]

theorem Analysis.suspectData_after_normal (P : Platform) (pd : JSVal) (σ : SessionStorage)
    (data : JSVal) (h : Analysis.suspectData P pd σ.portfolioSummary data = none) :
    Analysis.suspectData P (Analysis.normalData data)
      (Analysis.normalSession P data σ).portfolioSummary data = none := by
  unfold Analysis.suspectData at h ⊢
  by_cases hz : (truthy data && truthy (getProp data "summary")
      && strictEqZero (getProp (getProp data "summary") "total_equity")) = true
  · have hz2 := hz
    simp only [Bool.and_eq_true] at hz2
    rw [Analysis.normalSession_of_zero P data σ hz2.2]
    simp only [hz, ↓reduceIte] at h ⊢
    cases hcp : positiveCache P σ.portfolioSummary with
    | some parsed => simp [hcp] at h
    | none =>
      have hnn := isNullish_of_truthy data hz2.1.1
      have hsum : getProp (Analysis.normalData data) "summary" = getProp data "summary" :=
        getField_spread_summary data _ hnn
      simp [hsum, strictEqZero_not_gt P _ hz2.2]
  · simp [hz]

theorem Analysis.normalSession_twice (P : Platform) (data : JSVal) (σ : SessionStorage) :
    Analysis.normalSession P data (Analysis.normalSession P data σ)
      = Analysis.normalSession P data σ := by
  unfold Analysis.normalSession
  split_ifs <;> simp_all

theorem Analysis.dataOnFailure_twice (P : Platform) (c : Option String) (pd : JSVal) :
    Analysis.dataOnFailure P c (Analysis.dataOnFailure P c pd) = Analysis.dataOnFailure P c pd := by
  unfold Analysis.dataOnFailure
  cases positiveCache P c with
  | none => rfl
  | some parsed =>
    cases ht : truthy pd
    · have htr : truthy (obj [("summary", parsed), ("holdings", arr [])]) = true := rfl
      simp [htr]
    · simp [ht]

/-- A second run of `Analysis.fetchPortfolioData` with the same backend
outcome, from the world the first run produced, leaves the displayed portfolio
data (the summary and the holdings) and the session storage as the first left
them.  Analysis calls the function only from its mount effect, with the state
it starts from. -/
theorem Analysis.fetchPortfolioData_twice (P : Platform) (response : Option JSVal)
    (w : Analysis.World) :
    (Analysis.fetchPortfolioData P response
        (Analysis.fetchPortfolioData P response w).2).2.state.portfolioData
        = (Analysis.fetchPortfolioData P response w).2.state.portfolioData
      ∧ (Analysis.fetchPortfolioData P response
        (Analysis.fetchPortfolioData P response w).2).2.session
        = (Analysis.fetchPortfolioData P response w).2.session := by
  by_cases hfail : ∀ data, response = some data → isNullish data = true
  · obtain ⟨h1, hs1⟩ := Analysis.fetchPortfolioData_on_failure P response w hfail
    obtain ⟨h2, hs2⟩ := Analysis.fetchPortfolioData_on_failure P response
      (Analysis.fetchPortfolioData P response w).2 hfail
    rw [h2, hs2, hs1, h1, Analysis.dataOnFailure_twice]
    exact ⟨rfl, rfl⟩
  · push_neg at hfail
    obtain ⟨data, rfl, hd⟩ := hfail
    simp only [Bool.not_eq_true] at hd
    obtain ⟨h1, hs1⟩ := Analysis.fetchPortfolioData_on_response P data w hd
    obtain ⟨h2, hs2⟩ := Analysis.fetchPortfolioData_on_response P data
      (Analysis.fetchPortfolioData P (some data) w).2 hd
    rw [h2, hs2, hs1, h1]
    cases hsd : Analysis.suspectData P w.state.portfolioData w.session.portfolioSummary data with
    | some x =>
      simp [Analysis.suspectData_fixed P _ _ _ _ hsd]
    | none =>
      simp [Analysis.suspectData_after_normal P _ _ _ hsd, Analysis.normalSession_twice]

/-! ## The two shapes of a response, and the two screens -/

/-- C23: on a cold start over an empty store, the response `summaryOf 0` and
the response `{summary: summaryOf 0}` lead `Home.fetchData` to the same
displayed summary and the same store, but the first sets `hasDataRef` (Home.js
215) and the second leaves it unset (Home.js 160). -/
theorem bare_zero_sets_flag_wrapped_does_not :
    (Home.fetchData samplePlatform true (some (arr [])) (some (summaryOf 0))
        null (Home.World.fresh sessionEmpty)).2.state.hasDataRef = true
      ∧ (Home.fetchData samplePlatform true (some (arr [])) (some (wrapSummary (summaryOf 0)))
        null (Home.World.fresh sessionEmpty)).2.state.hasDataRef = false
      ∧ (Home.fetchData samplePlatform true (some (arr [])) (some (summaryOf 0))
        null (Home.World.fresh sessionEmpty)).2.state.portfolioSummary = summaryOf 0
      ∧ (Home.fetchData samplePlatform true (some (arr [])) (some (wrapSummary (summaryOf 0)))
        null (Home.World.fresh sessionEmpty)).2.state.portfolioSummary = summaryOf 0
      ∧ (Home.fetchData samplePlatform true (some (arr [])) (some (summaryOf 0))
        null (Home.World.fresh sessionEmpty)).2.session = sessionEmpty
      ∧ (Home.fetchData samplePlatform true (some (arr [])) (some (wrapSummary (summaryOf 0)))
        null (Home.World.fresh sessionEmpty)).2.session = sessionEmpty := by
  refine ⟨by decide, by decide, by rfl, by rfl, by decide, by decide⟩

/-- Outside the has-data flag the two shapes agree: for a summary `s` with a
numeric `total_equity` and no `summary` property of its own, the responses `s`
and `{summary: s}` lead to the same displayed summary and the same store,
whatever summary the call captured. -/
theorem Home.fetchData_shapes_agree (P : Platform) (showLoading : Bool)
    (transactionsData s ps : JSVal) (n : JSNum) (w : Home.World)
    (hn : getProp s "total_equity" = num n) (hs : truthy (getProp s "summary") = false) :
    (Home.fetchData P showLoading (some transactionsData) (some s) ps w).2.state.portfolioSummary
        = (Home.fetchData P showLoading (some transactionsData)
            (some (wrapSummary s)) ps w).2.state.portfolioSummary
      ∧ (Home.fetchData P showLoading (some transactionsData) (some s) ps w).2.session
        = (Home.fetchData P showLoading (some transactionsData)
            (some (wrapSummary s)) ps w).2.session := by
  have hts := truthy_of_total_equity_num s n hn
  have hf1 : Home.freshSummary s = s := by simp [Home.freshSummary, hs]
  have hw1 : truthy (wrapSummary s) = true := rfl
  have hw2 : getProp (wrapSummary s) "summary" = s := rfl
  have hf2 : Home.freshSummary (wrapSummary s) = s := by
    simp only [Home.freshSummary, hw1, hw2, hts, Bool.and_self, ↓reduceIte]
  have hv : Home.validFresh (wrapSummary s) = Home.validFresh s := by
    simp only [Home.validFresh, hf1, hf2, hts, hw1]
  cases hvs : Home.validFresh s with
  | true =>
    obtain ⟨a1, a2⟩ := Home.fetchData_on_fresh P showLoading transactionsData s ps w hvs
    obtain ⟨b1, b2⟩ := Home.fetchData_on_fresh P showLoading transactionsData (wrapSummary s)
      ps w
      (hv.trans hvs)
    rw [a1, a2, b1, b2]
    simp [Home.summaryOnFresh, hf1, hf2]
  | false =>
    obtain ⟨a1, a2⟩ := Home.fetchData_on_invalid P showLoading transactionsData s ps w hvs
    obtain ⟨b1, b2⟩ := Home.fetchData_on_invalid P showLoading transactionsData (wrapSummary s)
      ps w
      (hv.trans hvs)
    rw [a2, b2]
    exact ⟨congrArg Prod.fst (a1.trans b1.symm), rfl⟩

/-- C24, as stated, fails on a backend failure.  On a cold start over a store
that holds the text of a summary with total 0, `Home.fetchData` displays that
cached summary and `Analysis.fetchPortfolioData` displays nothing; and with a
zero summary in memory, `hasDataRef` unset and the total 1000 in the store,
Home resolves to the cached 1000 while Analysis keeps the zero summary. -/
theorem failure_resolves_differently_on_the_two_screens :
    (Home.fetchData samplePlatform true none none
        null (Home.World.fresh session0)).2.state.portfolioSummary = summaryOf 0
      ∧ (Analysis.fetchPortfolioData samplePlatform none
        (Analysis.World.fresh session0)).2.state.portfolioData = null
      ∧ sameMemory homeShowingZeroCache1000.state.portfolioSummary
          analysisShowingZeroCache1000.state.portfolioData
      ∧ (Home.fetchData samplePlatform false none none
        (summaryOf 0) homeShowingZeroCache1000).2.state.portfolioSummary = summaryOf 1000
      ∧ (Analysis.fetchPortfolioData samplePlatform none
        analysisShowingZeroCache1000).2.state.summary = summaryOf 0 := by
  refine ⟨by rfl, by rfl, ?_, by rfl, by rfl⟩
  exact Or.inr ⟨by rfl, by rfl, by rfl⟩

theorem sameMemory_obj (ps pd : JSVal) (h : sameMemory ps pd) (ht : truthy ps = true) :
    truthy pd = true ∧ isNullish pd = false ∧ getProp pd "summary" = ps := by
  rcases h with ⟨h1, _⟩ | ⟨_, h2, h3⟩
  · rw [h1] at ht
    cases ht
  · refine ⟨?_, h2, h3⟩
    cases pd with
    | obj fs => rfl
    | arr items => rfl
    | undefined => simp [isNullish] at h2
    | null => simp [isNullish] at h2
    | bool b =>
      have h4 : ps = undefined := h3.symm
      rw [h4] at ht
      cases ht
    | num n =>
      have h4 : ps = undefined := h3.symm
      rw [h4] at ht
      cases ht
    | str s =>
      have h4 : ps = undefined := by
        rw [← h3]
        simp [getProp]
      rw [h4] at ht
      cases ht

theorem sameMemory_positive (P : Platform) (ps pd : JSVal) (h : sameMemory ps pd) :
    (truthy pd && truthy (getProp pd "summary")
      && jsGtZero P (getProp (getProp pd "summary") "total_equity")) = memoryPositive P ps := by
  unfold memoryPositive
  cases ht : truthy ps with
  | true =>
    obtain ⟨h1, _, h3⟩ := sameMemory_obj ps pd h ht
    simp [h1, h3, ht]
  | false =>
    rcases h with ⟨_, h2⟩ | ⟨h1, _, _⟩
    · simp [h2, truthy]
    · rw [h1] at ht
      cases ht

theorem positiveCache_truthy (P : Platform) (c : Option String) (v : JSVal)
    (h : positiveCache P c = some v) : truthy v = true :=
  Home.usableCache_truthy P c v (positiveCache_usable P c v h)

/-- The two screens, holding the same summary in memory over the same store,
resolve a response with a numeric total to the same summary and leave the same
`portfolioSummary` entry. -/
theorem screens_agree_on_response (P : Platform) (showLoading : Bool)
    (transactionsData data : JSVal) (n : JSNum) (wh : Home.World) (wa : Analysis.World)
    (hstore : wa.session = wh.session)
    (hmem : sameMemory wh.state.portfolioSummary wa.state.portfolioData)
    (hn : getProp (getProp data "summary") "total_equity" = num n) (hnn : n.isNaN = false) :
    sameMemory
        (Home.fetchData P showLoading (some transactionsData) (some data)
          wh.state.portfolioSummary wh).2.state.portfolioSummary
        (Analysis.fetchPortfolioData P (some data) wa).2.state.portfolioData
      ∧ (Home.fetchData P showLoading (some transactionsData)
            (some data) wh.state.portfolioSummary wh).2.session.portfolioSummary
        = (Analysis.fetchPortfolioData P (some data) wa).2.session.portfolioSummary := by
  obtain ⟨hdt, hst⟩ := truthy_of_summary_total data n hn
  have hd := isNullish_of_truthy data hdt
  have hfresh : Home.freshSummary data = getProp data "summary" := by
    simp [Home.freshSummary, hdt, hst]
  have hv : Home.validFresh data = true := by
    simp [Home.validFresh, hfresh, hdt, hn, typeofNumber, notNaN, hnn]
  obtain ⟨a1, a2⟩ := Home.fetchData_on_fresh P showLoading transactionsData data
    wh.state.portfolioSummary wh hv
  obtain ⟨b1, b2⟩ := Analysis.fetchPortfolioData_on_response P data wa hd
  rw [a1, a2, b1, b2, hstore, hfresh]
  have hzero : hasZeroTotal (getProp data "summary") = n.isZero := by
    simp [hasZeroTotal, hn, strictEqZero]
  have hpos : hasPositiveTotal (getProp data "summary") = n.gtZero := by
    simp [hasPositiveTotal, hn]
  have hnsum : getProp (Analysis.normalData data) "summary" = getProp data "summary" :=
    getField_spread_summary data _ hd
  have hnormal : sameMemory (getProp data "summary") (Analysis.normalData data) :=
    Or.inr ⟨hst, rfl, hnsum⟩
  have hmp := sameMemory_positive P _ _ hmem
  unfold Home.summaryOnFresh Analysis.suspectData
  simp only [hfresh, hzero, hdt, hst, hn, strictEqZero, Bool.true_and, hmp]
  cases hz : n.isZero with
  | false =>
    simp only [Bool.false_eq_true, ↓reduceIte]
    refine ⟨hnormal, ?_⟩
    simp only [sessionOnFresh, Analysis.normalSession, hpos]
    split_ifs <;> rfl
  | true =>
    have hg : n.gtZero = false := isZero_not_gtZero n hz
    have hsess : (sessionOnFresh P wh.session (getProp data "summary")).portfolioSummary
        = wh.session.portfolioSummary := by
      simp [sessionOnFresh, hpos, hg]
    have hnsess : Analysis.normalSession P data wh.session = wh.session := by
      simp [Analysis.normalSession, hpos, hg]
    simp only [↓reduceIte, hsess]
    cases hcp : positiveCache P wh.session.portfolioSummary with
    | some v =>
      refine ⟨Or.inr ⟨positiveCache_truthy P _ v hcp, rfl, ?_⟩, rfl⟩
      show getField (setField (setField (spread data) "summary" v) "holdings" _) "summary" = v
      rw [getField_setField_other _ _ _ _ (by decide), getField_setField_same]
    | none =>
      cases hm : memoryPositive P wh.state.portfolioSummary with
      | true =>
        have htp : truthy wh.state.portfolioSummary = true := by
          unfold memoryPositive at hm
          simp only [Bool.and_eq_true] at hm
          exact hm.1
        obtain ⟨_, hnull, hsum⟩ := sameMemory_obj _ _ hmem htp
        simp only [↓reduceIte]
        refine ⟨Or.inr ⟨htp, rfl, ?_⟩, trivial⟩
        show getField (setField (spread wa.state.portfolioData) "holdings" _) "summary" = _
        rw [getField_spread_summary _ _ hnull, hsum]
      | false =>
        simp only [Bool.false_eq_true, ↓reduceIte, hnsess]
        exact ⟨hnormal, trivial⟩

/-- On a backend failure neither screen writes to the store, and the two
resolve to the same summary when every usable cached summary is positive and
Home has its flag set or displays nothing. -/
theorem screens_agree_on_failure (P : Platform) (showLoading : Bool)
    (transactionsResult portfolioResult : Option JSVal) (wh : Home.World) (wa : Analysis.World)
    (hfail : promiseAll transactionsResult portfolioResult = none)
    (hstore : wa.session = wh.session)
    (hmem : sameMemory wh.state.portfolioSummary wa.state.portfolioData) :
    (Home.fetchData P showLoading transactionsResult portfolioResult
      wh.state.portfolioSummary wh).2.session = wh.session
      ∧ (Analysis.fetchPortfolioData P none wa).2.session = wa.session
      ∧ (Home.usableCache P wh.session.portfolioSummary
            = positiveCache P wh.session.portfolioSummary →
          (wh.state.portfolioSummary = null ∨ wh.state.hasDataRef = true) →
          sameMemory
            (Home.fetchData P showLoading transactionsResult portfolioResult
              wh.state.portfolioSummary wh).2.state.portfolioSummary
            (Analysis.fetchPortfolioData P none wa).2.state.portfolioData) := by
  obtain ⟨a1, a2⟩ := Home.fetchData_on_failure P showLoading _ _ wh.state.portfolioSummary wh
    hfail
  obtain ⟨b1, b2⟩ := Analysis.fetchPortfolioData_on_failure P none wa (by simp)
  refine ⟨a2, b2, ?_⟩
  intro hcache hflag
  have a3 : (Home.fetchData P showLoading transactionsResult portfolioResult
      wh.state.portfolioSummary wh).2.state.portfolioSummary
      = (Home.fallback P wh.session.portfolioSummary wh.state.portfolioSummary
          wh.state.portfolioSummary wh.state.hasDataRef).1 := congrArg Prod.fst a1
  rw [a3, b1, hstore]
  unfold Home.fallback Analysis.dataOnFailure
  rw [hcache]
  cases hcp : positiveCache P wh.session.portfolioSummary with
  | none => exact hmem
  | some v =>
    cases ht : truthy wh.state.portfolioSummary with
    | true =>
      obtain ⟨h1, _, _⟩ := sameMemory_obj _ _ hmem ht
      have hf : wh.state.hasDataRef = true := by
        rcases hflag with h | h
        · rw [h] at ht
          cases ht
        · exact h
      simpa [hf, h1] using hmem
    | false =>
      have hpd : truthy wa.state.portfolioData = false := by
        rcases hmem with ⟨_, h2⟩ | ⟨h1, _, _⟩
        · rw [h2]
          rfl
        · rw [h1] at ht
          cases ht
      simp only [Bool.not_false, Bool.true_or, ↓reduceIte, hpd, Bool.false_eq_true]
      exact Or.inr ⟨positiveCache_truthy P _ v hcp, rfl, rfl⟩

/-- C24, amended: `Home.fetchData` is called from the render that displays the
summary in memory (the mount effect on a cold start, or a handler of the
current render), so that the `portfolioSummary` it captured is the displayed
one.  For every cache content and every summary the two screens both hold in
memory, on a backend response whose summary has a `total_equity` that is a
number other than NaN, `Home.fetchData` and `Analysis.fetchPortfolioData`
resolve to the same displayed summary and leave the same `portfolioSummary`
entry in the store; on a backend failure neither writes to the store, and they
resolve to the same displayed summary when every usable cached summary has a
positive total and Home has `hasDataRef` set or holds no summary. -/
theorem screens_agree_outside_failure_fallback (P : Platform) (showLoading : Bool)
    (transactionsData data : JSVal) (n : JSNum)
    (transactionsResult portfolioResult : Option JSVal)
    (wh : Home.World) (wa : Analysis.World)
    (hstore : wa.session = wh.session)
    (hmem : sameMemory wh.state.portfolioSummary wa.state.portfolioData)
    (hn : getProp (getProp data "summary") "total_equity" = num n) (hnn : n.isNaN = false)
    (hfail : promiseAll transactionsResult portfolioResult = none) :
    (sameMemory
        (Home.fetchData P showLoading (some transactionsData) (some data)
          wh.state.portfolioSummary wh).2.state.portfolioSummary
        (Analysis.fetchPortfolioData P (some data) wa).2.state.portfolioData
      ∧ (Home.fetchData P showLoading (some transactionsData)
            (some data) wh.state.portfolioSummary wh).2.session.portfolioSummary
        = (Analysis.fetchPortfolioData P (some data) wa).2.session.portfolioSummary)
    ∧ ((Home.fetchData P showLoading transactionsResult portfolioResult
         wh.state.portfolioSummary wh).2.session = wh.session
      ∧ (Analysis.fetchPortfolioData P none wa).2.session = wa.session
      ∧ (Home.usableCache P wh.session.portfolioSummary
            = positiveCache P wh.session.portfolioSummary →
          (wh.state.portfolioSummary = null ∨ wh.state.hasDataRef = true) →
          sameMemory
            (Home.fetchData P showLoading transactionsResult portfolioResult
              wh.state.portfolioSummary wh).2.state.portfolioSummary
            (Analysis.fetchPortfolioData P none wa).2.state.portfolioData)) :=
  ⟨screens_agree_on_response P showLoading transactionsData data n wh wa hstore hmem hn hnn,
    screens_agree_on_failure P showLoading transactionsResult portfolioResult wh wa hfail
      hstore hmem⟩

theorem screens_agree_outside_failure_fallback_witness :
    sameMemory
        (Home.fetchData samplePlatform true (some (arr []))
          (some (responseOf 0 holdingsBTC)) null (Home.World.fresh session1000)).2.state.portfolioSummary
        (Analysis.fetchPortfolioData samplePlatform (some (responseOf 0 holdingsBTC))
          (Analysis.World.fresh session1000)).2.state.portfolioData
      ∧ (Home.fetchData samplePlatform true (some (arr []))
          (some (responseOf 0 holdingsBTC)) null (Home.World.fresh session1000)).2.state.portfolioSummary
        = summaryOf 1000
      ∧ (Home.fetchData samplePlatform true none none null (Home.World.fresh session1000)).2.session
        = session1000 :=
  ⟨(screens_agree_outside_failure_fallback samplePlatform true (arr [])
      (responseOf 0 holdingsBTC) (JSNum.fin 0) none none (Home.World.fresh session1000)
      (Analysis.World.fresh session1000) rfl (Or.inl ⟨rfl, rfl⟩) rfl rfl rfl).1.1,
    by rfl,
    (screens_agree_outside_failure_fallback samplePlatform true (arr [])
      (responseOf 0 holdingsBTC) (JSNum.fin 0) none none (Home.World.fresh session1000)
      (Analysis.World.fresh session1000) rfl (Or.inl ⟨rfl, rfl⟩) rfl rfl rfl).2.1⟩


/-! ## The store under any sequence of events -/

theorem Home.fetchData_keptOrWritten (P : Platform) (showLoading : Bool)
    (transactionsResult portfolioResult : Option JSVal) (ps : JSVal) (w : Home.World) :
    summaryKeptOrWritten P
      ((promiseAll transactionsResult portfolioResult).map
        (fun r : JSVal × JSVal => Home.freshSummary r.2))
      w.session (Home.fetchData P showLoading transactionsResult portfolioResult
                  ps w).2.session := by
  cases hpa : promiseAll transactionsResult portfolioResult with
  | none =>
    left
    rw [(Home.fetchData_on_failure P showLoading _ _ ps w hpa).2]
  | some x =>
    obtain ⟨ha, hb⟩ := promiseAll_some _ _ x hpa
    subst ha
    subst hb
    cases hv : Home.validFresh x.2 with
    | false =>
      left
      rw [(Home.fetchData_on_invalid P showLoading x.1 x.2 ps w hv).2]
    | true =>
      rw [(Home.fetchData_on_fresh P showLoading x.1 x.2 ps w hv).2]
      unfold sessionOnFresh
      split
      · next hpos => exact Or.inr ⟨_, rfl, hpos, rfl⟩
      · exact Or.inl rfl

theorem Analysis.fetchPortfolioData_keptOrWritten (P : Platform) (response : Option JSVal)
    (w : Analysis.World) :
    summaryKeptOrWritten P (response.map (fun data => getProp data "summary"))
      w.session (Analysis.fetchPortfolioData P response w).2.session := by
  by_cases hfail : ∀ data, response = some data → isNullish data = true
  · left
    rw [(Analysis.fetchPortfolioData_on_failure P response w hfail).2]
  · push_neg at hfail
    obtain ⟨data, rfl, hd⟩ := hfail
    simp only [Bool.not_eq_true] at hd
    rw [(Analysis.fetchPortfolioData_on_response P data w hd).2]
    cases Analysis.suspectData P w.state.portfolioData w.session.portfolioSummary data with
    | some x => exact Or.inl rfl
    | none =>
      simp only [Analysis.normalSession]
      split
      · next hpos => exact Or.inr ⟨_, rfl, hpos, rfl⟩
      · exact Or.inl rfl

theorem storeValid_of_keptOrWritten (P : Platform) (hP : P.keepsFinitePositiveTotal)
    (fresh : Option JSVal) (σ τ : SessionStorage) (hσ : storeValid P σ)
    (hfin : ∀ v, fresh = some v → hasInfiniteTotal v = false)
    (h : summaryKeptOrWritten P fresh σ τ) : storeValid P τ := by
  rcases h with h | ⟨v, hv, hpos, h⟩
  · unfold storeValid at hσ ⊢
    rw [h]
    exact hσ
  · obtain ⟨u, hu, hup⟩ := hP v hpos (hfin v hv)
    exact Or.inr ⟨_, u, h, hu, hup⟩

theorem step_storeValid (P : Platform) (hP : P.keepsFinitePositiveTotal) (t : Tab) (e : Event)
    (hfin : e.finiteTotal) (h : storeValid P t.storage.sessionStorage) :
    storeValid P (step P t e).storage.sessionStorage := by
  cases e with
  | homeFetch showLoading transactionsResult portfolioResult =>
    exact storeValid_of_keptOrWritten P hP _ _ _ h hfin
      (Home.fetchData_keptOrWritten P showLoading transactionsResult portfolioResult
        t.home.portfolioSummary
        { state := t.home, session := t.storage.sessionStorage, trace := [] })
  | homeVisible transactionsResult portfolioResult =>
    exact storeValid_of_keptOrWritten P hP _ _ _ h hfin
      (Home.fetchData_keptOrWritten P false transactionsResult portfolioResult null
        { state := t.home, session := t.storage.sessionStorage, trace := [] })
  | analysisFetch response =>
    exact storeValid_of_keptOrWritten P hP _ _ _ h hfin
      (Analysis.fetchPortfolioData_keptOrWritten P response
        { state := t.analysis, session := t.storage.sessionStorage, trace := [] })
  | homeMount => exact h
  | analysisMount => exact h
  | authStateChange event session =>
    cases session with
    | none => exact storeValid_removeSnapshot P _
    | some sess =>
      simp only [step, App.onAuthStateChange]
      split_ifs
      · exact storeValid_removeSnapshot P _
      · exact h
  | sessionSync session =>
    cases session with
    | none => exact h
    | some sess => exact h
  | loginSubmit emailShape email password result =>
    simp only [step, Login.handleSubmit]
    split_ifs
    · exact h
    · cases result <;> exact h
  | logout => exact storeValid_removeSnapshot P _

theorem samplePlatform_keepsFinitePositiveTotal : samplePlatform.keepsFinitePositiveTotal := by
  intro v hv hfin
  obtain ⟨n, hn, hgt⟩ := (hasPositiveTotal_iff v).1 hv
  cases n with
  | nan => simp [JSNum.gtZero] at hgt
  | negInf => simp [JSNum.gtZero] at hgt
  | posInf => simp [hasInfiniteTotal, hn] at hfin
  | fin q =>
    simp only [JSNum.gtZero, decide_eq_true_eq] at hgt
    by_cases h15 : q = 1500
    · exact ⟨summaryOf 1500, by simp [samplePlatform, hn, h15, text1000, text1500],
        by simp [hasPositiveTotal, summaryOf, getProp, getField, JSNum.gtZero]⟩
    · exact ⟨summaryOf 1000, by simp [samplePlatform, hn, h15, hgt],
        by simp [hasPositiveTotal, summaryOf, getProp, getField, JSNum.gtZero]⟩

/-- C8, the code at the failing input: a response whose `total_equity` is
`Infinity` (the body `1e999`) passes the guards of Home.js 133 and 166, and
`JSON.stringify` writes it as `null`.  From an empty store, the store then
holds a summary whose `total_equity` is `null`: it is neither empty nor does it
hold a summary with `total_equity > 0`. -/
theorem infinite_total_is_stored_as_null :
    storeValid samplePlatformNonFinite (Tab.fresh storageEmpty).storage.sessionStorage
      ∧ (run samplePlatformNonFinite (Tab.fresh storageEmpty)
          [Event.homeFetch true (some (arr [])) (some (wrapSummary summaryInfinite))]
          ).storage.sessionStorage.portfolioSummary = some textNullTotal
      ∧ samplePlatformNonFinite.parse textNullTotal = some summaryNullTotal
      ∧ hasPositiveTotal summaryNullTotal = false
      ∧ ¬ storeValid samplePlatformNonFinite
          (run samplePlatformNonFinite (Tab.fresh storageEmpty)
            [Event.homeFetch true (some (arr [])) (some (wrapSummary summaryInfinite))]
            ).storage.sessionStorage := by
  have h2 : (run samplePlatformNonFinite (Tab.fresh storageEmpty)
      [Event.homeFetch true (some (arr [])) (some (wrapSummary summaryInfinite))]
      ).storage.sessionStorage.portfolioSummary = some textNullTotal := by decide
  have h3 : samplePlatformNonFinite.parse textNullTotal = some summaryNullTotal := by
    simp [samplePlatformNonFinite]
  refine ⟨Or.inl rfl, h2, h3, by decide, ?_⟩
  rintro (h | ⟨s, v, hs, hv, hpos⟩)
  · rw [h2] at h
    cases h
  · rw [h2] at hs
    cases hs
    rw [h3] at hv
    cases hv
    revert hpos
    decide

/-- Infinite totals apart, the store stays valid: starting from a store that is
empty or holds a summary with `total_equity > 0`, after any sequence of
`Home.fetchData` runs (from the mount effect, a handler or the
`visibilitychange` listener), `Analysis.fetchPortfolioData` runs, remounts,
auth-state events, session syncs, sign-ins and logouts, with arbitrary failures
and with backend responses none of which carries an infinite `total_equity`,
the store is again empty or holds a summary with `total_equity > 0`.
`JSON.parse` is assumed to read the text `JSON.stringify` wrote for a summary
with a finite positive total back as a summary with a positive total. -/
theorem store_stays_valid_on_finite_totals (P : Platform) (hP : P.keepsFinitePositiveTotal)
    (t : Tab) (h : storeValid P t.storage.sessionStorage) (events : List Event)
    (hfin : ∀ e ∈ events, e.finiteTotal) :
    storeValid P (run P t events).storage.sessionStorage := by
  induction events generalizing t with
  | nil => exact h
  | cons e rest ih =>
    exact ih (step P t e)
      (step_storeValid P hP t e (hfin e (List.mem_cons_self e rest)) h)
      (fun e2 he2 => hfin e2 (List.mem_cons_of_mem e he2))

theorem store_stays_valid_on_finite_totals_example :
    storeValid samplePlatform
      (run samplePlatform (Tab.fresh storageEmpty)
        [Event.homeFetch true (some (arr [])) (some (responseOf 1500 holdingsBTC)),
         Event.analysisFetch (some (responseOf 0 (arr []))),
         Event.homeVisible none none]).storage.sessionStorage :=
  store_stays_valid_on_finite_totals samplePlatform samplePlatform_keepsFinitePositiveTotal
    (Tab.fresh storageEmpty) (Or.inl rfl)
    [Event.homeFetch true (some (arr [])) (some (responseOf 1500 holdingsBTC)),
     Event.analysisFetch (some (responseOf 0 (arr []))),
     Event.homeVisible none none]
    (by
      intro e he v hv
      simp only [List.mem_cons, List.mem_singleton, List.not_mem_nil, or_false] at he
      rcases he with rfl | rfl | rfl
      · simp only [Event.fresh, promiseAll, Option.map_some', Option.some.injEq] at hv
        subst hv
        rfl
      · simp only [Event.fresh, Option.map_some', Option.some.injEq] at hv
        subst hv
        rfl
      · simp [Event.fresh, promiseAll] at hv)

/-! ## Runs of the `visibilitychange` listener -/

/-- C9, the code at the failing input: Home is mounted and receives the total
1000; a `SIGNED_IN` event of the identity provider then removes the snapshot
from the store, so the total 1000 is on display over an empty store.  When the
tab becomes visible again the listener of Home.js 280-291 calls the
`fetchData` of the first render, whose `portfolioSummary` is `null`; on a
response with the total 0 the test of line 155 fails and line 158 displays the
zero summary.  The same response to a call from a handler of the current
render leaves the total 1000 on display. -/
theorem listener_run_replaces_positive_display_by_zero :
    (run samplePlatform (Tab.fresh storageEmpty) eventsShowing1000Cleared).home.portfolioSummary
        = summaryOf 1000
    ∧ hasPositiveTotal (summaryOf 1000) = true
    ∧ (run samplePlatform (Tab.fresh storageEmpty) eventsShowing1000Cleared
        ).storage.sessionStorage.portfolioSummary = none
    ∧ (step samplePlatform (run samplePlatform (Tab.fresh storageEmpty) eventsShowing1000Cleared)
        (Event.homeVisible (some (arr [])) (some (responseOf 0 holdingsBTC)))
        ).home.portfolioSummary = summaryOf 0
    ∧ hasZeroTotal (summaryOf 0) = true
    ∧ (step samplePlatform (run samplePlatform (Tab.fresh storageEmpty) eventsShowing1000Cleared)
        (Event.homeFetch false (some (arr [])) (some (responseOf 0 holdingsBTC)))
        ).home.portfolioSummary = summaryOf 1000 := by
  refine ⟨rfl, rfl, rfl, rfl, rfl, rfl⟩

/-- C10, the code at the failing input: Home displays the total 1000 with its
has-data flag set, the store is empty, and the backend answers with the total
0.  Called by the `visibilitychange` listener, whose `fetchData` captured
`portfolioSummary = null` at the first render, `Home.fetchData` adopts the
fresh zero summary (Home.js 155-158), in both response shapes.  Called with
the displayed summary as the captured one it keeps the total 1000, as
`Analysis.fetchPortfolioData` does, and the flag stays set. -/
theorem listener_call_adopts_fresh_zero :
    homeShowing1000NoCache.state.portfolioSummary = summaryOf 1000
    ∧ homeShowing1000NoCache.session.portfolioSummary = none
    ∧ (Home.fetchData samplePlatform false (some (arr [])) (some (wrapSummary (summaryOf 0)))
        null homeShowing1000NoCache).2.state.portfolioSummary = summaryOf 0
    ∧ (Home.fetchData samplePlatform false (some (arr [])) (some (summaryOf 0))
        null homeShowing1000NoCache).2.state.portfolioSummary = summaryOf 0
    ∧ (Home.fetchData samplePlatform false (some (arr [])) (some (wrapSummary (summaryOf 0)))
        (summaryOf 1000) homeShowing1000NoCache).2.state.portfolioSummary = summaryOf 1000
    ∧ (Home.fetchData samplePlatform false (some (arr [])) (some (wrapSummary (summaryOf 0)))
        (summaryOf 1000) homeShowing1000NoCache).2.state.hasDataRef = true
    ∧ analysisShowing1000NoCache.state.summary = summaryOf 1000
    ∧ (Analysis.fetchPortfolioData samplePlatform (some (responseOf 0 (arr [])))
        analysisShowing1000NoCache).2.state.summary = summaryOf 1000 := by
  refine ⟨rfl, rfl, rfl, rfl, rfl, rfl, rfl, rfl⟩

/-- C25, the code at the failing input: Home displays the total 1000 over an
empty store and the backend answers with the total 0.  A first run, called from
a handler of the current render, keeps the total 1000 and leaves the store
empty.  A second run with the same backend outcome, from the state, flag and
store the first run produced, but called by the `visibilitychange` listener
(whose `fetchData` captured `portfolioSummary = null`), displays the zero
summary. -/
theorem second_run_from_listener_changes_display :
    (Home.fetchData samplePlatform false (some (arr [])) (some (responseOf 0 holdingsBTC))
        (summaryOf 1000) homeShowing1000NoCache).2.state.portfolioSummary = summaryOf 1000
    ∧ (Home.fetchData samplePlatform false (some (arr [])) (some (responseOf 0 holdingsBTC))
        (summaryOf 1000) homeShowing1000NoCache).2.state.hasDataRef = true
    ∧ (Home.fetchData samplePlatform false (some (arr [])) (some (responseOf 0 holdingsBTC))
        (summaryOf 1000) homeShowing1000NoCache).2.session = homeShowing1000NoCache.session
    ∧ (Home.fetchData samplePlatform false (some (arr [])) (some (responseOf 0 holdingsBTC))
        null
        (Home.fetchData samplePlatform false (some (arr [])) (some (responseOf 0 holdingsBTC))
          (summaryOf 1000) homeShowing1000NoCache).2).2.state.portfolioSummary = summaryOf 0
    ∧ summaryOf 0 ≠ summaryOf 1000 := by
  refine ⟨rfl, rfl, rfl, rfl, ?_⟩
  simp [summaryOf]

/-! ## Totals that are not finite -/

/-- When `JSON.parse` reads the non-empty text `JSON.stringify` wrote for a
summary with `total_equity > 0` back as that summary, the first paint of a
cold start over the store a refresh left displays that summary, in both
screens and for both writers. -/
theorem restores_what_reads_back (P : Platform) (showLoading showAgain : Bool)
    (transactionsData responseHome responseAnalysis captured : JSVal)
    (wh : Home.World) (wa : Analysis.World)
    (hposh : hasPositiveTotal (Home.freshSummary responseHome) = true)
    (hneh : P.stringify (Home.freshSummary responseHome) ≠ "")
    (hrth : P.parse (P.stringify (Home.freshSummary responseHome))
      = some (Home.freshSummary responseHome))
    (hposa : hasPositiveTotal (getProp responseAnalysis "summary") = true)
    (hnea : P.stringify (getProp responseAnalysis "summary") ≠ "")
    (hrta : P.parse (P.stringify (getProp responseAnalysis "summary"))
      = some (getProp responseAnalysis "summary")) :
    (Home.firstPaint P showAgain null (Home.World.fresh
        (Home.fetchData P showLoading (some transactionsData) (some responseHome)
          captured wh).2.session)).state.portfolioSummary = Home.freshSummary responseHome
    ∧ (Analysis.firstPaint P null (Analysis.World.fresh
        (Home.fetchData P showLoading (some transactionsData) (some responseHome)
          captured wh).2.session)).state.summary = Home.freshSummary responseHome
    ∧ (Home.firstPaint P showAgain null (Home.World.fresh
        (Analysis.fetchPortfolioData P (some responseAnalysis) wa).2.session)
      ).state.portfolioSummary = getProp responseAnalysis "summary"
    ∧ (Analysis.firstPaint P null (Analysis.World.fresh
        (Analysis.fetchPortfolioData P (some responseAnalysis) wa).2.session)
      ).state.summary = getProp responseAnalysis "summary" := by
  have hh : (Home.fetchData P showLoading (some transactionsData) (some responseHome)
      captured wh).2.session.portfolioSummary
      = some (P.stringify (Home.freshSummary responseHome)) := by
    rw [Home.fetchData_stores_positive P _ _ _ _ _ hposh]
  have ha := Analysis.fetchPortfolioData_stores_positive P responseAnalysis wa hposa
  exact ⟨Home.firstPaint_restores P showAgain _ _ _ hh hneh hrth hposh,
    Analysis.firstPaint_restores_snapshot P _ _ _ hh hneh hrth hposh,
    Home.firstPaint_restores P showAgain _ _ _ ha hnea hrta hposa,
    Analysis.firstPaint_restores_snapshot P _ _ _ ha hnea hrta hposa⟩

set_option maxRecDepth 100000 in
/-- C13, the code at the failing input: the backend answers with a summary
whose `total_equity` is `Infinity`.  It passes the guards of Home.js 133 and
166 and of Analysis.js 113, so both refreshes write it, as the text
`JSON.stringify` gives: a summary whose `total_equity` is `null`.  The first
paint of a following cold start restores nothing from that text, in either
screen. -/
theorem infinite_total_is_not_restored :
    hasPositiveTotal summaryInfinite = true
    ∧ (Home.fetchData samplePlatformNonFinite true (some (arr [])) (some (wrapSummary summaryInfinite))
        null (Home.World.fresh sessionEmpty)).2.session.portfolioSummary = some textNullTotal
    ∧ (Analysis.fetchPortfolioData samplePlatformNonFinite (some (wrapSummary summaryInfinite))
        (Analysis.World.fresh sessionEmpty)).2.session.portfolioSummary = some textNullTotal
    ∧ (Home.firstPaint samplePlatformNonFinite true null (Home.World.fresh
        (Home.fetchData samplePlatformNonFinite true (some (arr []))
          (some (wrapSummary summaryInfinite)) null
          (Home.World.fresh sessionEmpty)).2.session)).state.portfolioSummary = null
    ∧ (Analysis.firstPaint samplePlatformNonFinite null (Analysis.World.fresh
        (Analysis.fetchPortfolioData samplePlatformNonFinite (some (wrapSummary summaryInfinite))
          (Analysis.World.fresh sessionEmpty)).2.session)).state.portfolioData = null := by
  refine ⟨rfl, by decide, by decide, ?_, ?_⟩
  · rfl
  · rfl

end CryptoTracker
